import Mathlib

/-!
# SipADE detection pipeline: a shallow embedding

The definitions below follow `src/util-detection.c`, `src/util-detection.h`,
`src/sipade.h` and the detection loop of `src/sipade.c`.

Modelling conventions.

* A C `double` is an element of an ordered field `K` (exact arithmetic; IEEE
  rounding, infinities and NaN are not represented).  `sqrt` of `math.h` is a
  parameter `sqrt : K → K`; statements about concrete roots instantiate it with
  `Real.sqrt`.
* `uint8_t`, `uint32_t`, `uint64_t` values are naturals, with an explicit
  `% 2 ^ w` where the C operation wraps; `int` and `time_t` values are integers.
  A comparison between an unsigned and a signed operand converts the signed one
  (`toU32`, `toU64`), as C does.
* A timestamp text (`"%F %H:%M:%S"`) and the date and time fields of a `struct tm`
  are the number of seconds of local wall-clock time they denote; `tm_hour` is
  derived from it.  A `struct tm` carries its field `tm_isdst` beside them, and a
  `time_t` is an instant in seconds.  `mktime` and `localtime_r` read the rules of
  the time zone of the process (`TimeZone`), which the configuration record carries.
* The process-wide variables of `util-detection.c` are gathered in `Conf`
  (written once by `SipAnomalyInitConfValues`) and `Engine` (mutated while the
  engine runs).
-/

namespace SipADE

/-! ## Constants of `sipade.h` and `util-detection.h` -/

/-- The C macro `TRUE`. -/
def TRUE : Int := 1

/-- The C macro `FALSE`. -/
def FALSE : Int := 0

/-- The C macro `SIP_ERROR`. -/
def SIP_ERROR : Int := -1

/-- The C macro `SIP_OK`. -/
def SIP_OK : Int := 0

/-- The C macro `SIP_DONE`. -/
def SIP_DONE : Int := 2

/-- The C macro `SIP_RUN_MODE_OFFLINE`. -/
def SIP_RUN_MODE_OFFLINE : Nat := 0x01

/-- The C macro `SIP_RUN_MODE_ONLINE`. -/
def SIP_RUN_MODE_ONLINE : Nat := 0x02

/-- The C macro `CALLTYPE_INACTIVE`. -/
def CALLTYPE_INACTIVE : Nat := 0x00

/-- The C macro `CALLTYPE_ACTIVE`. -/
def CALLTYPE_ACTIVE : Nat := 0x01

/-- The C macro `THRESHOLD_RESTORED`. -/
def THRESHOLD_RESTORED : Nat := 0x01

/-- The enumerator `MAX_CALLTYPE`, the length of `Hd.call`. -/
def MAX_CALLTYPE : Nat := 6

/-- The enumerator `INTERNATIONAL = 0`. -/
def INTERNATIONAL : Fin 6 := 0

/-- The enumerator `MOBILE = 1`. -/
def MOBILE : Fin 6 := 1

/-- The enumerator `PREMIUM = 2`. -/
def PREMIUM : Fin 6 := 2

/-- The enumerator `SERVICE = 3`. -/
def SERVICE : Fin 6 := 3

/-- The enumerator `DOMESTIC = 4`. -/
def DOMESTIC : Fin 6 := 4

/-- The enumerator `EMERGENCY = 5`. -/
def EMERGENCY : Fin 6 := 5

/-- The values `0, 1, ..., MAX_CALLTYPE - 1` that the loop counter `cnt` takes, in order. -/
def callIndices : List (Fin 6) := [0, 1, 2, 3, 4, 5]

/-- Conversion of a C `int` to `uint32_t` (reduction modulo `2 ^ 32`). -/
def toU32 (x : Int) : Nat := (x % 2 ^ 32).toNat

/-- Conversion of a C `int` to `uint64_t` (reduction modulo `2 ^ 64`). -/
def toU64 (x : Int) : Nat := (x % 2 ^ 64).toNat

/-! ## Data model (`util-detection.h`) -/

/-- The C struct `CallType`: one entry of `Hd.call`. -/
structure CallType (K : Type) where
  /-- The field `char *name` (`none` is `NULL`). -/
  name : Option String
  /-- The field `double p_freq`. -/
  p_freq : K
  /-- The field `uint32_t num`. -/
  num : Nat
  /-- The field `double p_dur`. -/
  p_dur : K
  /-- The field `uint32_t dur`. -/
  dur : Nat
  /-- The field `uint8_t flag`. -/
  flag : Nat

/-- The C struct `HellingerDistance` (`Hd`): a baseline or an observation. -/
structure Hd (K : Type) where
  /-- The array `CallType call[MAX_CALLTYPE]`. -/
  call : Fin 6 → CallType K
  /-- The field `uint64_t num_total`. -/
  num_total : Nat
  /-- The field `uint64_t dur_total`. -/
  dur_total : Nat
  /-- The field `double distance_value`. -/
  distance_value : K
  /-- The field `double mean_deviation`. -/
  mean_deviation : K
  /-- The field `double threshold`. -/
  threshold : K
  /-- The field `uint8_t flags`. -/
  flags : Nat

/-- The test `call.flag & CALLTYPE_ACTIVE` used as a C condition. -/
def isActive {K : Type} (c : CallType K) : Bool :=
  c.flag &&& CALLTYPE_ACTIVE != 0

/-- The macro `CLEAR_HD`: every field except `flags` is reset. -/
def CLEAR_HD {K : Type} [Zero K] (hd : Hd K) : Hd K :=
  { call := fun _ =>
      { name := none, p_freq := 0, num := 0, p_dur := 0, dur := 0,
        flag := CALLTYPE_INACTIVE }
    num_total := 0
    dur_total := 0
    distance_value := 0
    mean_deviation := 0
    threshold := 0
    flags := hd.flags }

/-- A stack-allocated `Hd` before `CLEAR_HD` runs on it.  Only its `flags` byte survives
`CLEAR_HD`, and that byte of a local `Hd` is never read. -/
def Hd.uninit {K : Type} [Zero K] : Hd K :=
  { call := fun _ =>
      { name := none, p_freq := 0, num := 0, p_dur := 0, dur := 0, flag := 0 }
    num_total := 0
    dur_total := 0
    distance_value := 0
    mean_deviation := 0
    threshold := 0
    flags := 0 }

/-- The C loop `for (cnt = 0; cnt < MAX_CALLTYPE && guard(cnt); cnt++) body(cnt);`
run over the remaining counter values: it leaves at the first counter value whose
guard is false. -/
def forWhile {σ : Type} (guard : σ → Fin 6 → Bool) (body : Fin 6 → σ → σ) :
    List (Fin 6) → σ → σ
  | [], s => s
  | cnt :: rest, s =>
      if guard s cnt then forWhile guard body rest (body cnt s) else s

/-- One row of a CDR query result, reduced to the two columns the engine reads:
column 5 (`calltype`) and column 4 (`billsec`, given as the value `strtoul` returns). -/
structure CdrRow where
  /-- Column 5, the call type text. -/
  calltype : String
  /-- Column 4 as parsed by `strtoul(billsec, NULL, 10)`. -/
  billsec : Nat

/-- The test `strncmp(calltype, lit, strlen(lit)) == 0`: the text starts with `lit`. -/
def strncmpEq (calltype lit : String) : Bool :=
  lit.toList.isPrefixOf calltype.toList

/-- The statements `hd->call[c].num++; hd->call[c].dur += i_billsec;` on 32-bit counters. -/
def addCall {K : Type} (hd : Hd K) (c : Fin 6) (billsec : Nat) : Hd K :=
  { hd with
    call := Function.update hd.call c
      { hd.call c with
        num := ((hd.call c).num + 1) % 2 ^ 32
        dur := ((hd.call c).dur + billsec) % 2 ^ 32 } }

/-- The body of the row loop of `SipGetCallData` (the `if / else if` chain). -/
def SipGetCallData.row {K : Type} (hd : Hd K) (r : CdrRow) : Hd K :=
  if strncmpEq r.calltype "INTERNATIONAL" then addCall hd INTERNATIONAL r.billsec
  else if strncmpEq r.calltype "MOBILE" then addCall hd MOBILE r.billsec
  else if strncmpEq r.calltype "PREMIUM" then addCall hd PREMIUM r.billsec
  else if strncmpEq r.calltype "DOMESTIC" then addCall hd DOMESTIC r.billsec
  else if strncmpEq r.calltype "SERVICE" then addCall hd SERVICE r.billsec
  else if strncmpEq r.calltype "EMERGENCY" then addCall hd EMERGENCY r.billsec
  else hd

/-- The body of the totals loop of `SipGetCallData` on 64-bit counters. -/
def SipGetCallData.total {K : Type} (cnt : Fin 6) (hd : Hd K) : Hd K :=
  { hd with
    num_total := (hd.num_total + (hd.call cnt).num) % 2 ^ 64
    dur_total := (hd.dur_total + (hd.call cnt).dur) % 2 ^ 64 }

/-- The function `SipGetCallData`: per-category counts and durations, then the totals. -/
def SipGetCallData {K : Type} (hd : Hd K) (result : List CdrRow) : Hd K :=
  callIndices.foldl (fun h cnt => SipGetCallData.total cnt h)
    (result.foldl SipGetCallData.row hd)

/-! ## Local time (`time.h`) -/

/-- The rules of the time zone of the process, which `mktime`, `localtime_r` and
`strftime` take from the environment (`TZ`). -/
structure TimeZone where
  /-- Seconds east of UTC while standard time is in force. -/
  gmtoff : Int
  /-- Seconds that daylight saving time adds to standard time (3600 in most zones that
  observe it). -/
  dstoff : Int
  /-- Whether daylight saving time is in force at an instant (a `time_t`). -/
  isdst : Int → Bool

/-- The function `localtime_r` on an instant: the date and time fields of the local time
(as seconds of wall-clock time) and the field `tm_isdst`. -/
def localtime (tz : TimeZone) (t : Int) : Int × Bool :=
  (t + tz.gmtoff + (if tz.isdst t then tz.dstoff else 0), tz.isdst t)

/-- The function `mktime` (POSIX, as glibc implements it) on a `struct tm` whose date and
time fields amount to `wall` seconds and whose `tm_isdst` is zero (`false`) or positive
(`true`).  The fields are read as standard time when the flag is zero and as daylight
saving time when it is positive, whichever is in force at that time of the year.  The
answer is the `time_t` and the struct as `mktime` rewrites it in place, which is the local
time of that instant: fields read under the flag that is not in force come back an hour
off, with the flag corrected. -/
def mktime (tz : TimeZone) (wall : Int) (isdst : Bool) : Int × (Int × Bool) :=
  (wall - tz.gmtoff - (if isdst then tz.dstoff else 0),
    localtime tz (wall - tz.gmtoff - (if isdst then tz.dstoff else 0)))

/-! ## Configuration and engine state (the static variables of `util-detection.c`) -/

/-- The configuration variables set by `SipAnomalyInitConfValues` and `SipInitConf`,
together with the time zone the process runs in. -/
structure Conf (K : Type) where
  /-- The variable `static double senstivity`. -/
  senstivity : K
  /-- The variable `static double adaptability`. -/
  adaptability : K
  /-- The variable `static int interval` (minutes). -/
  interval : Int
  /-- The variable `static int int_dur` (seconds). -/
  int_dur : Int
  /-- The variable `static int mob_dur` (seconds). -/
  mob_dur : Int
  /-- The variable `static int prem_dur` (seconds). -/
  prem_dur : Int
  /-- The variable `static int start_time`, as stored. -/
  start_time : Int
  /-- The variable `static int end_time`. -/
  end_time : Int
  /-- The variable `static int call_freq`. -/
  call_freq : Int
  /-- The variable `static int call_dur` (seconds). -/
  call_dur : Int
  /-- The variable `static time_t complete_time`. -/
  complete_time : Int
  /-- The variable `uint8_t run_mode` of `sipade.c`. -/
  run_mode : Nat
  /-- The time zone of the process (not a variable of the program). -/
  tz : TimeZone

/-- The `int` variables of the configuration hold values of a 32-bit `int`. -/
def Conf.intRange {K : Type} (cfg : Conf K) : Prop :=
  (-2 ^ 31 ≤ cfg.interval ∧ cfg.interval < 2 ^ 31) ∧
  (-2 ^ 31 ≤ cfg.int_dur ∧ cfg.int_dur < 2 ^ 31) ∧
  (-2 ^ 31 ≤ cfg.mob_dur ∧ cfg.mob_dur < 2 ^ 31) ∧
  (-2 ^ 31 ≤ cfg.prem_dur ∧ cfg.prem_dur < 2 ^ 31) ∧
  (-2 ^ 31 ≤ cfg.start_time ∧ cfg.start_time < 2 ^ 31) ∧
  (-2 ^ 31 ≤ cfg.end_time ∧ cfg.end_time < 2 ^ 31) ∧
  (-2 ^ 31 ≤ cfg.call_freq ∧ cfg.call_freq < 2 ^ 31) ∧
  (-2 ^ 31 ≤ cfg.call_dur ∧ cfg.call_dur < 2 ^ 31)

/-- The mutable variables of `util-detection.c`. -/
structure Engine (K : Type) where
  /-- The variable `static Hd hd_detection`, the baseline. -/
  hd_detection : Hd K
  /-- The date and time fields of the variable `static struct tm current_time`. -/
  current_time : Int
  /-- The field `tm_isdst` of `current_time`: `false` is zero, as the static initialiser
  leaves it, and `true` is positive.  Only `mktime` and `strptime` with `"%s"` write it;
  `strptime` with `"%F %H:%M:%S"` leaves it as it is. -/
  tm_isdst : Bool
  /-- The text `last_transaction_ts`. -/
  last_transaction_ts : Int
  /-- The buffer `previous_ts` (`none` while it is still empty). -/
  previous_ts : Option Int
  /-- The pointer `detect_start_ts` (`none` is `NULL`). -/
  detect_start_ts : Option Int

/-- The field `tm_hour` of a `struct tm` whose date and time fields amount to `t`. -/
def tm_hour (t : Int) : Int := (t / 3600) % 24

/-- The CDR source behind `SipGetQuery` and `SipGetCdr`: the rows for the window that
starts at a timestamp and spans an interval, or `none` when the query fails (`NULL`). -/
abbrev CdrSource := Int → Int → Option (List CdrRow)

/-! ## Hellinger engine -/

/-- The guard of `SipCalcHDProbabilities`:
`hd->num_total > call_freq || hd->dur_total > call_dur`, the `int` floors being
converted to `uint64_t`. -/
def probFloorsMet {K : Type} (cfg : Conf K) (hd : Hd K) : Bool :=
  decide (hd.num_total > toU64 cfg.call_freq) || decide (hd.dur_total > toU64 cfg.call_dur)

/-- The body of the loop of `SipCalcHDProbabilities`. -/
def SipCalcHDProbabilities.body {K : Type} [Field K] (cnt : Fin 6) (hd : Hd K) : Hd K :=
  { hd with
    call := Function.update hd.call cnt
      { hd.call cnt with
        p_freq := ((hd.call cnt).num : K) / (((hd.num_total + hd.dur_total) % 2 ^ 64 : Nat) : K)
        p_dur := ((hd.call cnt).dur : K) / (((hd.num_total + hd.dur_total) % 2 ^ 64 : Nat) : K) } }

/-- The function `SipCalcHDProbabilities`.  The loop guard reads the flags of the global
`hd_detection`, passed here as the first argument. -/
def SipCalcHDProbabilities {K : Type} [Field K] (hd_detection : Hd K) (cfg : Conf K)
    (hd : Hd K) : Hd K :=
  if probFloorsMet cfg hd then
    forWhile (fun _ cnt => isActive (hd_detection.call cnt)) SipCalcHDProbabilities.body
      callIndices hd
  else hd

/-- The body of the loop of `SipCalcHellingerDistance`: `fcall[cnt]` and `dcall[cnt]` start
at `0.0` and are set only when the testing side is non-zero. -/
def SipCalcHellingerDistance.body {K : Type} [LinearOrderedField K] (sqrt : K → K)
    (hd_detection : Hd K) (cnt : Fin 6) (hd_testing : Hd K) : Hd K :=
  let fcall : K :=
    if (hd_testing.call cnt).p_freq ≠ 0 then
      (sqrt (hd_detection.call cnt).p_freq - sqrt (hd_testing.call cnt).p_freq) ^ 2
    else 0
  let dcall : K :=
    if (hd_testing.call cnt).p_dur ≠ 0 then
      (sqrt (hd_detection.call cnt).p_dur - sqrt (hd_testing.call cnt).p_dur) ^ 2
    else 0
  { hd_testing with distance_value := hd_testing.distance_value + (fcall + dcall) }

/-- The function `SipCalcHellingerDistance`: the loop guard reads the flags of its first
argument. -/
def SipCalcHellingerDistance {K : Type} [LinearOrderedField K] (sqrt : K → K)
    (hd_detection hd_testing : Hd K) : Hd K :=
  forWhile (fun _ cnt => isActive (hd_detection.call cnt))
    (SipCalcHellingerDistance.body sqrt hd_detection) callIndices hd_testing

/-- The constant `static float g = 0.125`. -/
def g {K : Type} [Field K] : K := 1 / 8

/-- The constant `static float h = 0.25`. -/
def h {K : Type} [Field K] : K := 1 / 4

/-- The body of the copy loop of `SipUpdateHDThreshold`. -/
def SipUpdateHDThreshold.body {K : Type} (hd_testing : Hd K) (cnt : Fin 6)
    (hd_detection : Hd K) : Hd K :=
  { hd_detection with
    call := Function.update hd_detection.call cnt
      { hd_detection.call cnt with
        p_freq := (hd_testing.call cnt).p_freq
        p_dur := (hd_testing.call cnt).p_dur
        num := (hd_testing.call cnt).num
        dur := (hd_testing.call cnt).dur } }

/-- The gate of `SipUpdateHDThreshold`:
`(error < adaptability && error > -adaptability) || hd_detection->distance_value == 0.0`. -/
def updateGate {K : Type} [LinearOrderedField K] (cfg : Conf K)
    (hd_detection hd_testing : Hd K) : Bool :=
  (decide (hd_testing.distance_value - hd_detection.distance_value < cfg.adaptability) &&
    decide (hd_testing.distance_value - hd_detection.distance_value > -cfg.adaptability)) ||
  decide (hd_detection.distance_value = 0)

/-- The function `SipUpdateHDThreshold`; the result is the new `*hd_detection`. -/
def SipUpdateHDThreshold {K : Type} [LinearOrderedField K] (cfg : Conf K)
    (hd_detection hd_testing : Hd K) : Hd K :=
  let error : K := hd_testing.distance_value - hd_detection.distance_value
  if updateGate cfg hd_detection hd_testing then
    let distance_value : K := hd_detection.distance_value + g * error
    let error : K := |error|
    let mean_deviation : K :=
      hd_detection.mean_deviation + h * (error - hd_detection.mean_deviation)
    let threshold : K := cfg.senstivity * distance_value + cfg.adaptability * mean_deviation
    forWhile (fun hd cnt => isActive (hd.call cnt)) (SipUpdateHDThreshold.body hd_testing)
      callIndices
      { hd_detection with
        distance_value := distance_value
        mean_deviation := mean_deviation
        threshold := threshold }
  else hd_detection

/-! ## Window clock -/

/-- The instant that `mktime(&current_time)` returns for the struct as it stands. -/
def instant {K : Type} (cfg : Conf K) (eng : Engine K) : Int :=
  (mktime cfg.tz eng.current_time eng.tm_isdst).1

/-- The function `SipUpdateTimeStamp`: the return code and the engine afterwards.  In
offline mode `mktime(&current_time)` is called first (it rewrites the struct) and its
value is compared with `complete_time`.  Otherwise `tm_min` is advanced by `interval`
minutes, `mktime` rewrites the struct, `previous_ts` takes the old text and
`last_transaction_ts` is re-printed from `current_time`.  The `int` argument converted to
the `uint32_t` parameter and added to the `int` field `tm_min` gives the signed sum, as
long as `tm_min` stays within 32 bits. -/
def SipUpdateTimeStamp {K : Type} (cfg : Conf K) (eng : Engine K) (interval : Int) :
    Int × Engine K :=
  if cfg.run_mode &&& SIP_RUN_MODE_OFFLINE ≠ 0 ∧
      (mktime cfg.tz eng.current_time eng.tm_isdst).1 > cfg.complete_time then
    (SIP_DONE,
      { eng with
        current_time := (mktime cfg.tz eng.current_time eng.tm_isdst).2.1
        tm_isdst := (mktime cfg.tz eng.current_time eng.tm_isdst).2.2 })
  else
    let tm : Int × Bool :=
      if cfg.run_mode &&& SIP_RUN_MODE_OFFLINE ≠ 0 then
        (mktime cfg.tz eng.current_time eng.tm_isdst).2
      else (eng.current_time, eng.tm_isdst)
    (SIP_OK,
      { eng with
        current_time := (mktime cfg.tz (tm.1 + 60 * interval) tm.2).2.1
        tm_isdst := (mktime cfg.tz (tm.1 + 60 * interval) tm.2).2.2
        previous_ts := some eng.last_transaction_ts
        last_transaction_ts := (mktime cfg.tz (tm.1 + 60 * interval) tm.2).2.1 })

/-- The flag `tm_isdst` of `current_time` is the one in force at the instant of the cursor
and still in force `i` minutes later.  In a time zone without daylight saving time this
holds for every struct whose flag is zero. -/
def dstSettled {K : Type} (cfg : Conf K) (eng : Engine K) (i : Int) : Prop :=
  cfg.tz.isdst (instant cfg eng) = eng.tm_isdst ∧
    cfg.tz.isdst (instant cfg eng + 60 * i) = eng.tm_isdst

/-- The function `SipGetTimeStamp`: the content of `previous_ts`. -/
def SipGetTimeStamp {K : Type} (eng : Engine K) : Option Int := eng.previous_ts

/-! ## Detection controller -/

/-- The one-shot snap at the head of `SipAnomalyDetection` (lines 963-968): taken when
`detect_start_ts != NULL` and the baseline was not restored.  The call of `strptime`
writes the date and time fields of `current_time` and leaves `tm_isdst` as it was. -/
def snapDetectStart {K : Type} (eng : Engine K) : Engine K :=
  match eng.detect_start_ts with
  | some ts =>
      if eng.hd_detection.flags &&& THRESHOLD_RESTORED = 0 then
        { eng with last_transaction_ts := ts, detect_start_ts := none, current_time := ts }
      else eng
  | none => eng

/-- The local `hd_testing` of `SipAnomalyDetection` after lines 980-990: cleared, filled
from the rows, probabilities computed, distance computed against `hd_detection`. -/
def hdTesting {K : Type} [LinearOrderedField K] (sqrt : K → K) (cfg : Conf K)
    (hd_detection : Hd K) (rows : List CdrRow) : Hd K :=
  SipCalcHellingerDistance sqrt hd_detection
    (SipCalcHDProbabilities hd_detection cfg (SipGetCallData (CLEAR_HD Hd.uninit) rows))

/-- The office-hours test of `SipAnomalyDetection` (lines 994-995) on the stored
`start_time` and `end_time`. -/
def officeHours {K : Type} (cfg : Conf K) (hour : Int) : Bool :=
  decide (hour > cfg.start_time) && decide (hour < cfg.end_time)

/-- The duration and count conditions of the office-hours branch (lines 997-1005). -/
def officeCond {K : Type} [LinearOrderedField K] (cfg : Conf K)
    (hd_detection hd_testing : Hd K) : Bool :=
  decide ((hd_testing.call MOBILE).dur > toU32 cfg.mob_dur) ||
  decide ((hd_testing.call INTERNATIONAL).dur > toU32 cfg.int_dur) ||
  decide ((hd_testing.call PREMIUM).dur > toU32 cfg.prem_dur) ||
  (decide (((hd_testing.call INTERNATIONAL).num : K) >
      cfg.senstivity * ((hd_detection.call INTERNATIONAL).num : K)) &&
    decide ((hd_detection.call INTERNATIONAL).num > 0)) ||
  (decide (((hd_testing.call PREMIUM).num : K) >
      cfg.senstivity * ((hd_detection.call PREMIUM).num : K)) &&
    decide ((hd_detection.call PREMIUM).num > 0))

/-- The conditions of the branch outside office hours (lines 1014-1017). -/
def offHoursCond {K : Type} [LinearOrderedField K] (cfg : Conf K) (hd_testing : Hd K) :
    Bool :=
  decide ((hd_testing.call MOBILE).dur > toU32 cfg.mob_dur) ||
  decide (((hd_testing.call INTERNATIONAL).num : K) >
      (hd_testing.num_total : K) / cfg.senstivity) ||
  decide (((hd_testing.call PREMIUM).num : K) > (hd_testing.num_total : K) / cfg.senstivity)

/-- The flag test of lines 1008-1010 and 1020-1022; it reads the flags of `hd_testing`. -/
def otherTypesFlagged {K : Type} (hd_testing : Hd K) : Bool :=
  isActive (hd_testing.call DOMESTIC) || isActive (hd_testing.call SERVICE) ||
  isActive (hd_testing.call EMERGENCY)

/-- The decision of `SipAnomalyDetection` (lines 992-1028): the value of `ret_value` and
the new `hd_detection`. -/
def anomalyDecision {K : Type} [LinearOrderedField K] (cfg : Conf K)
    (hd_detection hd_testing : Hd K) (hour : Int) : Int × Hd K :=
  if hd_testing.distance_value > hd_detection.threshold then
    if officeHours cfg hour then
      if officeCond cfg hd_detection hd_testing then (TRUE, hd_detection)
      else if otherTypesFlagged hd_testing then (TRUE, hd_detection)
      else (FALSE, hd_detection)
    else if offHoursCond cfg hd_testing then (TRUE, hd_detection)
    else if otherTypesFlagged hd_testing then (TRUE, hd_detection)
    else (FALSE, hd_detection)
  else if hd_testing.distance_value > 0 then
    (FALSE, SipUpdateHDThreshold cfg hd_detection hd_testing)
  else (FALSE, hd_detection)

/-- What a call of `SipAnomalyDetection` leaves behind. -/
structure DetectResult (K : Type) where
  /-- The returned `int`. -/
  ret : Int
  /-- The out-parameter `*result` (`none` is `NULL`). -/
  result : Option (List CdrRow)
  /-- The engine variables after the call. -/
  eng : Engine K

/-- The function `SipAnomalyDetection`. -/
def SipAnomalyDetection {K : Type} [LinearOrderedField K] (sqrt : K → K) (cfg : Conf K)
    (cdr : CdrSource) (eng : Engine K) : DetectResult K :=
  let eng1 := snapDetectStart eng
  match cdr eng1.last_transaction_ts cfg.interval with
  | none => { ret := SIP_ERROR, result := none, eng := eng1 }
  | some rows =>
      let hd_testing := hdTesting sqrt cfg eng1.hd_detection rows
      let d := anomalyDecision cfg eng1.hd_detection hd_testing (tm_hour eng1.current_time)
      let u := SipUpdateTimeStamp cfg { eng1 with hd_detection := d.2 } cfg.interval
      if u.1 = SIP_DONE then { ret := SIP_DONE, result := some rows, eng := u.2 }
      else { ret := d.1, result := some rows, eng := u.2 }

/-- The values handed to the `insert` of `SipAnomalyStoreThreshold`: the per-category
quadruples in enumeration order, the totals, the three scalars and `last_ts`. -/
structure ThresholdRow (K : Type) where
  /-- The columns `num_*`, `dur_*`, `p_f*`, `p_d*` of each category. -/
  call : Fin 6 → Nat × Nat × K × K
  /-- The column `num_total`. -/
  num_total : Nat
  /-- The column `dur_total`. -/
  dur_total : Nat
  /-- The column `dist_value`. -/
  dist_value : K
  /-- The column `mean_dev`. -/
  mean_dev : K
  /-- The column `threshold`. -/
  threshold : K
  /-- The column `last_ts`. -/
  last_ts : Int

/-- The row that `SipAnomalyStoreThreshold` composes from the engine. -/
def thresholdRow {K : Type} (eng : Engine K) : ThresholdRow K :=
  { call := fun c =>
      ((eng.hd_detection.call c).num, (eng.hd_detection.call c).dur,
        (eng.hd_detection.call c).p_freq, (eng.hd_detection.call c).p_dur)
    num_total := eng.hd_detection.num_total
    dur_total := eng.hd_detection.dur_total
    dist_value := eng.hd_detection.distance_value
    mean_dev := eng.hd_detection.mean_deviation
    threshold := eng.hd_detection.threshold
    last_ts := eng.last_transaction_ts }

/-- The function `SipAnomalyStoreThreshold` on the threshold table (oldest row first);
`exec_ok` tells whether `PQexec` reports `PGRES_COMMAND_OK`. -/
def SipAnomalyStoreThreshold {K : Type} (exec_ok : Bool) (eng : Engine K)
    (table : List (ThresholdRow K)) : Int × List (ThresholdRow K) :=
  if exec_ok then (SIP_OK, table ++ [thresholdRow eng]) else (SIP_ERROR, table)

/-- One call `SipAlertNotification(SIP_STATUS_ALERT, &result)`: the timestamp that
`SipGetTimeStamp()` yields for the status line and the rows of `*result` handed to the
alert archive. -/
structure Alert where
  /-- The text returned by `SipGetTimeStamp()`. -/
  ts : Option Int
  /-- The rows of `*result`. -/
  rows : List CdrRow

/-- The state the detection loop of `main` works on. -/
structure World (K : Type) where
  /-- The variables of `util-detection.c`. -/
  eng : Engine K
  /-- The threshold table, oldest checkpoint first. -/
  thresholds : List (ThresholdRow K)
  /-- The alert notifications made so far, oldest first. -/
  alerts : List Alert

/-- How one pass of the `while (1)` loop of `main` ends. -/
inductive Ctl where
  /-- The loop goes on to its next pass. -/
  | next
  /-- The statement `break` was reached (`SIP_DONE`). -/
  | done
  /-- The function `SipDone()` was called after an error. -/
  | shutdown

/-- The body of `if (run_detection == TRUE)` in `main` (lines 195-211). -/
def mainDetectionTick {K : Type} [LinearOrderedField K] (sqrt : K → K) (cfg : Conf K)
    (cdr : CdrSource) (exec_ok : Bool) (w : World K) : Ctl × World K :=
  let r := SipAnomalyDetection sqrt cfg cdr w.eng
  if r.ret = SIP_ERROR then (Ctl.shutdown, { w with eng := r.eng })
  else if r.ret = SIP_DONE then (Ctl.done, { w with eng := r.eng })
  else if r.ret = TRUE then
    (Ctl.next,
      { w with
        eng := r.eng
        alerts := w.alerts ++ [{ ts := SipGetTimeStamp r.eng, rows := r.result.getD [] }] })
  else
    let st := SipAnomalyStoreThreshold exec_ok r.eng w.thresholds
    if st.1 ≠ SIP_OK then (Ctl.shutdown, { w with eng := r.eng, thresholds := st.2 })
    else (Ctl.next, { w with eng := r.eng, thresholds := st.2 })

/-! ## Concrete configurations, baselines and windows used as test inputs -/

/-- A time zone without daylight saving time whose standard time is UTC. -/
def utc : TimeZone := { gmtoff := 0, dstoff := 0, isdst := fun _ => false }

/-- The configuration `SipAnomalyInitConfValues` and `SipInitConf` produce when only the
required keys are present (offline mode; the defaults of lines 44-53), in a process whose
time zone is UTC; `complete_time` is the `time_t` of `ending-date`. -/
def defaultConf (K : Type) [Field K] (complete_time : Int) : Conf K :=
  { senstivity := 12 / 10
    adaptability := 5 / 10
    interval := 10
    int_dur := 2400
    mob_dur := 3600
    prem_dur := 3600
    start_time := 8
    end_time := 16
    call_freq := 0
    call_dur := 0
    complete_time := complete_time
    run_mode := SIP_RUN_MODE_OFFLINE
    tz := utc }

/-- The rules of `Europe/Oslo` for the year 2024: standard time is UTC+1, and daylight
saving time adds an hour from `2024-03-31 01:00:00` UTC to `2024-10-27 01:00:00` UTC. -/
def europeOslo : TimeZone :=
  { gmtoff := 3600
    dstoff := 3600
    isdst := fun t => decide (1711846800 ≤ t) && decide (t < 1729990800) }

/-- The default configuration in a process whose time zone is `Europe/Oslo`, with the text
`ending` as `ending-date`: `complete_time` is what `mktime` returns for the zeroed struct
that `strptime` filled from that text (lines 558-560). -/
def osloConf (K : Type) [Field K] (ending : Int) : Conf K :=
  { defaultConf K (mktime europeOslo ending false).1 with tz := europeOslo }

/-- The names `SipAnomalyInitConfValues` stores in `hd_detection.call[c].name`. -/
def callTypeName : Fin 6 → String
  | 0 => "INTERNATIONAL"
  | 1 => "MOBILE"
  | 2 => "PREMIUM"
  | 3 => "SERVICE"
  | 4 => "DOMESTIC"
  | _ => "EMERGENCY"

/-- The baseline `hd_detection` after `CLEAR_HD` and the `call-type` parsing of
`SipAnomalyInitConfValues`: the listed call types get `flag |= CALLTYPE_ACTIVE` and their
name, and the three scalars are then set as given. -/
def configuredBaseline (K : Type) [Zero K] (active : Fin 6 → Bool)
    (distance_value mean_deviation threshold : K) : Hd K :=
  { call := fun c =>
      { name := if active c then some (callTypeName c) else none
        p_freq := 0
        num := 0
        p_dur := 0
        dur := 0
        flag := if active c then CALLTYPE_INACTIVE ||| CALLTYPE_ACTIVE else CALLTYPE_INACTIVE }
    num_total := 0
    dur_total := 0
    distance_value := distance_value
    mean_deviation := mean_deviation
    threshold := threshold
    flags := 0 }

/-- An engine whose cursor stands at `ts`, the struct as `strptime` leaves it in a struct
whose `tm_isdst` is zero, with no `detection-start-ts`. -/
def engineAt {K : Type} (B : Hd K) (ts : Int) : Engine K :=
  { hd_detection := B
    current_time := ts
    tm_isdst := false
    last_transaction_ts := ts
    previous_ts := none
    detect_start_ts := none }

/-- A CDR source that answers every query with the same rows. -/
def constSource (rows : List CdrRow) : CdrSource := fun _ _ => some rows

/-- The timestamp `2024-01-15 10:00:00` in seconds. -/
def ts_2024_01_15_10h : Int := 1705312800

/-- The timestamp `2024-01-15 23:00:00` in seconds. -/
def ts_2024_01_15_23h : Int := 1705359600

/-- The timestamp `2024-01-16 00:00:00` in seconds, used as `ending-date`. -/
def ts_2024_01_16_00h : Int := 1705363200

/-- The timestamp `2024-07-15 10:00:00` in seconds. -/
def ts_2024_07_15_10h : Int := 1721037600

/-- The timestamp `2024-07-16 00:00:00` in seconds, used as `ending-date`. -/
def ts_2024_07_16_00h : Int := 1721088000

/-- The call-type set `All`. -/
def allTypes : Fin 6 → Bool := fun _ => true

/-- The call-type set `International, Mobile, Premium`. -/
def threeTypes : Fin 6 → Bool
  | 0 => true
  | 1 => true
  | 2 => true
  | _ => false

/-- The call-type set `Mobile`. -/
def mobileOnly : Fin 6 → Bool
  | 1 => true
  | _ => false

/-- A window of five INTERNATIONAL calls of 60 s each. -/
def fiveInternational : List CdrRow :=
  [⟨"INTERNATIONAL", 60⟩, ⟨"INTERNATIONAL", 60⟩, ⟨"INTERNATIONAL", 60⟩,
    ⟨"INTERNATIONAL", 60⟩, ⟨"INTERNATIONAL", 60⟩]

/-- A window of three INTERNATIONAL and two MOBILE calls of 60 s each. -/
def threeOfFive : List CdrRow :=
  [⟨"INTERNATIONAL", 60⟩, ⟨"INTERNATIONAL", 60⟩, ⟨"INTERNATIONAL", 60⟩,
    ⟨"MOBILE", 60⟩, ⟨"MOBILE", 60⟩]

/-- A window of ten MOBILE calls of 60 s each (600 s in all). -/
def tenMobile : List CdrRow :=
  [⟨"MOBILE", 60⟩, ⟨"MOBILE", 60⟩, ⟨"MOBILE", 60⟩, ⟨"MOBILE", 60⟩, ⟨"MOBILE", 60⟩,
    ⟨"MOBILE", 60⟩, ⟨"MOBILE", 60⟩, ⟨"MOBILE", 60⟩, ⟨"MOBILE", 60⟩, ⟨"MOBILE", 60⟩]

/-- A cleared observation that holds ten MOBILE calls of 600 s in all, with the
probabilities `n / (N + D)` and `d / (N + D)` of the specification. -/
def mobileObservation (K : Type) [Field K] : Hd K :=
  { call := fun c =>
      if c = MOBILE then
        { name := none, p_freq := 10 / 610, num := 10, p_dur := 600 / 610, dur := 600,
          flag := CALLTYPE_INACTIVE }
      else
        { name := none, p_freq := 0, num := 0, p_dur := 0, dur := 0,
          flag := CALLTYPE_INACTIVE }
    num_total := 10
    dur_total := 600
    distance_value := 0
    mean_deviation := 0
    threshold := 0
    flags := 0 }

/-- The state of the detection loop at its first pass: cursor at `ts`, empty threshold
table, no alert yet. -/
def worldAt {K : Type} (B : Hd K) (ts : Int) : World K :=
  { eng := engineAt B ts, thresholds := [], alerts := [] }

/-! ## The distance in the words of the specification -/

/-- The contribution `t(p, q)` of one coordinate as the specification words it:
`(√p − √q)²` when the observed side `q` is non-zero, and `0` when `q = 0`. -/
def specTerm {K : Type} [LinearOrderedField K] (sqrt : K → K) (p q : K) : K :=
  if q = 0 then 0 else (sqrt p - sqrt q) ^ 2

/-- The distance as the specification words it: the sum over every active category of
`t(B.pf_c, O.pf_c) + t(B.pd_c, O.pd_c)`, with no factor `1/2`. -/
def specDistance {K : Type} [LinearOrderedField K] (sqrt : K → K) (B O : Hd K) : K :=
  (callIndices.map fun c =>
    if isActive (B.call c) then
      specTerm sqrt (B.call c).p_freq (O.call c).p_freq +
        specTerm sqrt (B.call c).p_dur (O.call c).p_dur
    else 0).sum

/-- The C macro `DEFAULT_START_TIME`. -/
def DEFAULT_START_TIME : Int := 8

/-- The C macro `DEFAULT_END_TIME`. -/
def DEFAULT_END_TIME : Int := 16

/-- Lines 520-531 of `SipAnomalyInitConfValues`: the stored `start_time` and `end_time`,
from what `atoi` yields for the keys `office-time.start_time` and `office-time.end_time`
(`none` when `SipConfGet` does not find the key). -/
def SipAnomalyInitConfValues.officeTime {K : Type} (start_time_s end_time_s : Option Int)
    (cfg : Conf K) : Conf K :=
  { cfg with
    start_time :=
      match start_time_s with
      | some v => v - 1
      | none => DEFAULT_START_TIME
    end_time :=
      match end_time_s with
      | some v => v
      | none => DEFAULT_END_TIME }

/-- The timestamp `2024-01-15 08:00:00` in seconds. -/
def ts_2024_01_15_08h : Int := 1705305600

/-- A window of one INTERNATIONAL call of 3000 s and four MOBILE calls of 60 s each. -/
def longInternational : List CdrRow :=
  [⟨"INTERNATIONAL", 3000⟩, ⟨"MOBILE", 60⟩, ⟨"MOBILE", 60⟩, ⟨"MOBILE", 60⟩, ⟨"MOBILE", 60⟩]

/-! ## The detection loop of `main` in offline mode -/

/-- The text that a call of `SipAnomalyDetection` hands to the procedure `calldata`
(line 973): `last_transaction_ts` after the snap of lines 963-968. -/
def queriedWindow {K : Type} (eng : Engine K) : Int :=
  (snapDetectStart eng).last_transaction_ts

/-- The `while (1)` loop of `main` (lines 190-227) in offline mode, where `run_detection`
stays `TRUE` and every pass runs the detection body.  The answer tells how the loop ends,
the cursor of the window each call of `SipAnomalyDetection` queried (first call first), and
the state then; it is `none` when the loop has not ended after `fuel` passes.  The insert
of pass number `pass` succeeds when `exec_ok pass` is true. -/
def mainOfflineLoop {K : Type} [LinearOrderedField K] (sqrt : K → K) (cfg : Conf K)
    (cdr : CdrSource) (exec_ok : Nat → Bool) :
    Nat → Nat → World K → Option (Ctl × List Int × World K)
  | 0, _, _ => none
  | fuel + 1, pass, w =>
      match (mainDetectionTick sqrt cfg cdr (exec_ok pass) w).1 with
      | Ctl.next =>
          (mainOfflineLoop sqrt cfg cdr exec_ok fuel (pass + 1)
            (mainDetectionTick sqrt cfg cdr (exec_ok pass) w).2).map
            fun r => (r.1, queriedWindow w.eng :: r.2.1, r.2.2)
      | Ctl.done =>
          some (Ctl.done, [queriedWindow w.eng],
            (mainDetectionTick sqrt cfg cdr (exec_ok pass) w).2)
      | Ctl.shutdown =>
          some (Ctl.shutdown, [queriedWindow w.eng],
            (mainDetectionTick sqrt cfg cdr (exec_ok pass) w).2)

/-- The timestamp `2024-01-15 11:00:00` in seconds. -/
def ts_2024_01_15_11h : Int := 1705316400

/-! ## Training and the windows a run of `main` queries -/

/-- The function `SipTrainingAnomalyDetection`: the return code and the engine afterwards.
The window at `last_transaction_ts` is aggregated into the local `hd_train`, measured
against `hd_detection`, folded in when its distance is positive, and the clock is
advanced; the value `SipUpdateTimeStamp` returns is not looked at. -/
def SipTrainingAnomalyDetection {K : Type} [LinearOrderedField K] (sqrt : K → K)
    (cfg : Conf K) (cdr : CdrSource) (eng : Engine K) : Int × Engine K :=
  match cdr eng.last_transaction_ts cfg.interval with
  | none => (SIP_ERROR, eng)
  | some rows =>
      let hd_train :=
        SipCalcHellingerDistance sqrt eng.hd_detection
          (SipCalcHDProbabilities eng.hd_detection cfg (SipGetCallData (CLEAR_HD Hd.uninit) rows))
      let hd_detection :=
        if hd_train.distance_value > 0 then SipUpdateHDThreshold cfg eng.hd_detection hd_train
        else eng.hd_detection
      (SIP_OK, (SipUpdateTimeStamp cfg { eng with hd_detection := hd_detection } cfg.interval).2)

/-- What a call of `SipTrainingInitThreshold` leaves behind. -/
structure SeedResult (K : Type) where
  /-- The returned `int`. -/
  ret : Int
  /-- The texts handed to `SipGetQuery`, first query first. -/
  queries : List Int
  /-- The engine variables after the call. -/
  eng : Engine K

/-- The function `SipTrainingInitThreshold`.  The argument `initial_timestamp` is
`last_transaction_ts` on entry (`none` is `NULL`, otherwise the text of
`initial-timestamp`), and `second_calldate` is the `calldate` of row 1 of the answer to
`select extract(epoch from calldate) ... limit 2` (`none` when `SipGetCdr` returns
`NULL`).  With `initial-timestamp` present, `strptime` with `"%F %H:%M:%S"` writes the date
and time fields of `current_time` and leaves `tm_isdst`; without it, `strptime` with
`"%s"` writes the whole struct as `localtime_r` does for that instant.  The first window
goes into the cleared local `hd_train_init`, the second into the global `hd_detection`,
and the clock is advanced after each. -/
def SipTrainingInitThreshold {K : Type} [LinearOrderedField K] (sqrt : K → K)
    (cfg : Conf K) (cdr : CdrSource) (initial_timestamp second_calldate : Option Int)
    (eng : Engine K) : SeedResult K :=
  let start : Option (Engine K) :=
    match initial_timestamp with
    | none =>
        match second_calldate with
        | none => none
        | some t =>
            some (SipUpdateTimeStamp cfg
              { eng with
                last_transaction_ts := t
                current_time := (localtime cfg.tz t).1
                tm_isdst := (localtime cfg.tz t).2 } 0).2
    | some t => some { eng with last_transaction_ts := t, current_time := t }
  match start with
  | none => { ret := SIP_ERROR, queries := [], eng := eng }
  | some e0 =>
      match cdr e0.last_transaction_ts cfg.interval with
      | none => { ret := SIP_ERROR, queries := [e0.last_transaction_ts], eng := e0 }
      | some rows0 =>
          let hd_train_init :=
            SipCalcHDProbabilities e0.hd_detection cfg (SipGetCallData (CLEAR_HD Hd.uninit) rows0)
          let e1 := (SipUpdateTimeStamp cfg e0 cfg.interval).2
          match cdr e1.last_transaction_ts cfg.interval with
          | none =>
              { ret := SIP_ERROR
                queries := [e0.last_transaction_ts, e1.last_transaction_ts]
                eng := e1 }
          | some rows1 =>
              let hd1 := SipGetCallData e1.hd_detection rows1
              let hd2 := SipCalcHDProbabilities hd1 cfg hd1
              let hd3 := SipCalcHellingerDistance sqrt hd_train_init hd2
              let hd4 := SipUpdateHDThreshold cfg hd3 hd_train_init
              { ret := SIP_OK
                queries := [e0.last_transaction_ts, e1.last_transaction_ts]
                eng := (SipUpdateTimeStamp cfg { e1 with hd_detection := hd4 } cfg.interval).2 }

/-- The training loop of `main` (lines 160-179) on the statics `train_period` and
`interval` of `sipade.c`: `sleep_t` grows by `interval` before each call of
`SipTrainingAnomalyDetection`, and the pass on which it reaches `train_period` is the
last.  The answer lists the cursor of the window each call queried and gives the engine
when the loop has ended; the engine is `none` when `SipDone` was called or when the loop
has not ended after `fuel` passes. -/
def mainTrainingLoop {K : Type} [LinearOrderedField K] (sqrt : K → K) (cfg : Conf K)
    (cdr : CdrSource) (train_period main_interval : Nat) :
    Nat → Nat → Engine K → List Int × Option (Engine K)
  | 0, _, _ => ([], none)
  | fuel + 1, sleep_t, eng =>
      if (SipTrainingAnomalyDetection sqrt cfg cdr eng).1 = SIP_ERROR then
        ([eng.last_transaction_ts], none)
      else if (sleep_t + main_interval) % 2 ^ 64 ≥ train_period then
        ([eng.last_transaction_ts], some (SipTrainingAnomalyDetection sqrt cfg cdr eng).2)
      else
        (eng.last_transaction_ts ::
            (mainTrainingLoop sqrt cfg cdr train_period main_interval fuel
              ((sleep_t + main_interval) % 2 ^ 64)
              (SipTrainingAnomalyDetection sqrt cfg cdr eng).2).1,
          (mainTrainingLoop sqrt cfg cdr train_period main_interval fuel
            ((sleep_t + main_interval) % 2 ^ 64)
            (SipTrainingAnomalyDetection sqrt cfg cdr eng).2).2)

/-- The cursors of the windows queried by the first `m` detection passes of the
`while (1)` loop of `main` (lines 190-227); the list ends early when a pass ends the
loop. -/
def mainDetectionWindows {K : Type} [LinearOrderedField K] (sqrt : K → K) (cfg : Conf K)
    (cdr : CdrSource) (exec_ok : Nat → Bool) : Nat → Nat → World K → List Int
  | 0, _, _ => []
  | m + 1, pass, w =>
      queriedWindow w.eng ::
        match (mainDetectionTick sqrt cfg cdr (exec_ok pass) w).1 with
        | Ctl.next =>
            mainDetectionWindows sqrt cfg cdr exec_ok m (pass + 1)
              (mainDetectionTick sqrt cfg cdr (exec_ok pass) w).2
        | Ctl.done => []
        | Ctl.shutdown => []

/-- The cursors of the windows queried, in order, by a run of `main` that trains (lines
152-227 with `ret != SIP_THRESHOLD_RESTORE`): the two windows of
`SipTrainingInitThreshold`, those of the training loop, and, after the checkpoint of line
184, those of the first `m` detection passes.  The run stops where `main` calls
`SipDone`. -/
def mainWindows {K : Type} [LinearOrderedField K] (sqrt : K → K) (cfg : Conf K)
    (cdr : CdrSource) (exec_ok : Nat → Bool) (initial_timestamp second_calldate : Option Int)
    (train_period main_interval fuel m : Nat) (eng : Engine K)
    (table : List (ThresholdRow K)) : List Int :=
  let s := SipTrainingInitThreshold sqrt cfg cdr initial_timestamp second_calldate eng
  if s.ret ≠ SIP_OK then s.queries
  else
    let t := mainTrainingLoop sqrt cfg cdr train_period main_interval fuel 0 s.eng
    s.queries ++ (t.1 ++
      match t.2 with
      | none => []
      | some e =>
          if (SipAnomalyStoreThreshold (exec_ok 0) e table).1 ≠ SIP_OK then []
          else
            mainDetectionWindows sqrt cfg cdr exec_ok m 1
              { eng := e
                thresholds := (SipAnomalyStoreThreshold (exec_ok 0) e table).2
                alerts := [] })

/-- Two cursors one advance of the clock apart: the later one is the earlier one plus
`interval` minutes, or the same one (the clock having reported `SIP_DONE`). -/
def cursorStep {K : Type} (cfg : Conf K) (a b : Int) : Prop :=
  b = a + 60 * cfg.interval ∨ b = a

/-- The timestamp `2024-01-15 09:00:00` in seconds. -/
def ts_2024_01_15_09h : Int := 1705309200

/-- The engine variables when `SipInitAnomalyDetection` has returned
`SIP_THRESHOLD_NOT_RESTORE`: a cleared `hd_detection` with the configured categories
active, and `detect_start_ts` as read from `detection-start-ts`. -/
def freshEngine (K : Type) [Zero K] (active : Fin 6 → Bool) (ts : Int)
    (detect_start_ts : Option Int) : Engine K :=
  { hd_detection := configuredBaseline K active 0 0 0
    current_time := ts
    tm_isdst := false
    last_transaction_ts := ts
    previous_ts := none
    detect_start_ts := detect_start_ts }

/-! ## Restore (`SipInitAnomalyDetection`, `SipSetTimeStamp`) and the text of a checkpoint -/

/-- The constant `SIP_THRESHOLD_RESTORE`. -/
def SIP_THRESHOLD_RESTORE : Int := 3

/-- The constant `SIP_THRESHOLD_NOT_RESTORE`. -/
def SIP_THRESHOLD_NOT_RESTORE : Int := 4

/-- The function `SipSetTimeStamp(&current_time, detect_ts)`.  Both times go through
`mktime`: the call on `curent_tm` rewrites `current_time` in place, and `det_tm` is a
zeroed local that `strptime` filled, so its `tm_isdst` is zero.  When `detect_ts` is the
later instant, the text of the global `detect_start_ts` is copied over the cursor, the
global is set to `NULL`, and `strptime` writes the date and time fields of `current_time`.
Its only caller passes the global itself as `detect_ts`; with the global `NULL` the source
would read through a null pointer, which is left as no further change. -/
def SipSetTimeStamp {K : Type} (cfg : Conf K) (eng : Engine K) (detect_ts : Int) :
    Engine K :=
  if (mktime cfg.tz detect_ts false).1 > (mktime cfg.tz eng.current_time eng.tm_isdst).1 then
    match eng.detect_start_ts with
    | some ts =>
        { eng with
          last_transaction_ts := ts
          detect_start_ts := none
          current_time := ts
          tm_isdst := (mktime cfg.tz eng.current_time eng.tm_isdst).2.2 }
    | none =>
        { eng with
          current_time := (mktime cfg.tz eng.current_time eng.tm_isdst).2.1
          tm_isdst := (mktime cfg.tz eng.current_time eng.tm_isdst).2.2 }
  else
    { eng with
      current_time := (mktime cfg.tz eng.current_time eng.tm_isdst).2.1
      tm_isdst := (mktime cfg.tz eng.current_time eng.tm_isdst).2.2 }

/-- The value of `atoi` on the decimal text of `v`: `strtol` keeps `v` up to `LONG_MAX`,
and the conversion to `int` keeps the low 32 bits as a signed number. -/
def atoi (v : Nat) : Int :=
  ((min (v : Int) (2 ^ 63 - 1) + 2 ^ 31) % 2 ^ 32) - 2 ^ 31

/-- The value of `atol` on the decimal text of `v`: `v` up to `LONG_MAX`. -/
def atol (v : Nat) : Int := min (v : Int) (2 ^ 63 - 1)

/-- The number that `printf("%f", x)` writes and `atof` reads back: `x` rounded to six
digits after the decimal point, a tie going to the even last digit. -/
def printf_f {K : Type} [LinearOrderedField K] [FloorRing K] (x : K) : K :=
  let n : Int := Int.floor (x * 10 ^ 6)
  let r : K := x * 10 ^ 6 - (n : K)
  (((if r < 1 / 2 then n else if 1 / 2 < r then n + 1 else if n % 2 = 0 then n else n + 1 :
    Int) : K)) / 10 ^ 6

/-- The values that the text of the `insert` of `SipAnomalyStoreThreshold` carries
(lines 763-788): the counters in full (`%PRIu32`, `%PRIu64`), every `double` as `%f`
prints it, and the cursor text. -/
def SipAnomalyStoreThreshold.text {K : Type} [LinearOrderedField K] [FloorRing K]
    (r : ThresholdRow K) : ThresholdRow K :=
  { call := fun c =>
      ((r.call c).1, (r.call c).2.1, printf_f (r.call c).2.2.1, printf_f (r.call c).2.2.2)
    num_total := r.num_total
    dur_total := r.dur_total
    dist_value := printf_f r.dist_value
    mean_dev := printf_f r.mean_dev
    threshold := printf_f r.threshold
    last_ts := r.last_ts }

/-- The function `SipInitAnomalyDetection` from line 657 on, that is after `CLEAR_HD`,
`SipAnomalyInitConfValues` and the connection to the threshold database have succeeded;
`eng` holds the variables at that point.  The argument `thresh_restore` is the text of
`ad-algo.threshold-restore`, and `latest` is the row with the greatest `threshold_id` as
the two queries return it (`none` when a query fails or `max(threshold_id)` is not
positive), its columns after `threshold_id` being in the order of the `insert`.  The
answer is the return code and the engine afterwards. -/
def SipInitAnomalyDetection {K : Type} (cfg : Conf K) (thresh_restore : String)
    (latest : Option (ThresholdRow K)) (eng : Engine K) : Int × Engine K :=
  if strncmpEq thresh_restore "no" then (SIP_THRESHOLD_NOT_RESTORE, eng)
  else
    match latest with
    | none => (SIP_THRESHOLD_NOT_RESTORE, eng)
    | some row =>
        let hd : Hd K :=
          { eng.hd_detection with
            call := fun cnt =>
              { eng.hd_detection.call cnt with
                num := toU32 (atoi (row.call cnt).1)
                dur := toU32 (atoi (row.call cnt).2.1)
                p_freq := (row.call cnt).2.2.1
                p_dur := (row.call cnt).2.2.2 }
            num_total := toU64 (atol row.num_total)
            dur_total := toU64 (atol row.dur_total)
            distance_value := row.dist_value
            mean_deviation := row.mean_dev
            threshold := row.threshold }
        let eng1 : Engine K :=
          { eng with
            hd_detection := hd
            last_transaction_ts := row.last_ts
            current_time := row.last_ts }
        let eng2 : Engine K :=
          match eng1.detect_start_ts with
          | some d => SipSetTimeStamp cfg eng1 d
          | none => eng1
        (SIP_THRESHOLD_RESTORE,
          { eng2 with
            hd_detection :=
              { eng2.hd_detection with
                flags := eng2.hd_detection.flags ||| THRESHOLD_RESTORED } })

/-- The timestamp `2024-01-15 10:30:00` in seconds. -/
def ts_2024_01_15_10h30 : Int := 1705314600

/-- A window of eleven MOBILE calls of 60 s each (660 s in all). -/
def elevenMobile : List CdrRow := ⟨"MOBILE", 60⟩ :: tenMobile

/-- A CDR source for scenario 2 of the specification: the two windows that start before
`2024-01-15 10:20:00` hold ten MOBILE calls each, every later window eleven. -/
def driftSource : CdrSource := fun ts _ =>
  some (if ts < ts_2024_01_15_10h + 1200 then tenMobile else elevenMobile)

/-- The engine that the seed of scenario 2 leaves: `initial-timestamp = 2024-01-15
10:00:00`, default configuration with `ending-date = 2024-01-16 00:00:00`, the given set
of active call types, two windows of ten MOBILE calls. -/
def driftSeed {K : Type} [LinearOrderedField K] (sqrt : K → K) (active : Fin 6 → Bool) :
    Engine K :=
  (SipTrainingInitThreshold sqrt (defaultConf K ts_2024_01_16_00h) driftSource
    (some ts_2024_01_15_10h) none (freshEngine K active ts_2024_01_15_10h none)).eng

/-! ## The reduction of a window in the words of the specification -/

/-- The number of rows of the window whose call type is the category `c`. -/
def specCount (rows : List CdrRow) (c : Fin 6) : Nat :=
  (rows.filter fun r => decide (r.calltype = callTypeName c)).length

/-- The sum of `billsec` over the rows of the window whose call type is the category `c`. -/
def specDuration (rows : List CdrRow) (c : Fin 6) : Nat :=
  ((rows.filter fun r => decide (r.calltype = callTypeName c)).map CdrRow.billsec).sum

/-- The state after the first `m` detection passes of the `while (1)` loop of `main`
(lines 190-227), or the state in which the loop ended when it ends before. -/
def mainDetectionPasses {K : Type} [LinearOrderedField K] (sqrt : K → K) (cfg : Conf K)
    (cdr : CdrSource) (exec_ok : Nat → Bool) : Nat → Nat → World K → World K
  | 0, _, w => w
  | m + 1, pass, w =>
      match (mainDetectionTick sqrt cfg cdr (exec_ok pass) w).1 with
      | Ctl.next =>
          mainDetectionPasses sqrt cfg cdr exec_ok m (pass + 1)
            (mainDetectionTick sqrt cfg cdr (exec_ok pass) w).2
      | Ctl.done => (mainDetectionTick sqrt cfg cdr (exec_ok pass) w).2
      | Ctl.shutdown => (mainDetectionTick sqrt cfg cdr (exec_ok pass) w).2

/-- The state of the cursor in a run under a time zone without daylight saving time: the
`tm_isdst` of the struct is zero, and the text of the cursor is the one the fields of the
struct print as, unless the offline clock stands later than `complete_time` (then
`SipUpdateTimeStamp` reports `SIP_DONE` and prints nothing). -/
def standardCursor {K : Type} (cfg : Conf K) (e : Engine K) : Prop :=
  e.tm_isdst = false ∧
    (e.last_transaction_ts = e.current_time ∨
      (cfg.run_mode &&& SIP_RUN_MODE_OFFLINE ≠ 0 ∧ instant cfg e > cfg.complete_time))

/-! ## Loop and frame lemmas -/

/-- A property kept by every loop body is kept by the whole loop. -/
theorem forWhile_induction {σ : Type} (P : σ → Prop) (guard : σ → Fin 6 → Bool)
    (body : Fin 6 → σ → σ) (hbody : ∀ cnt s, P s → P (body cnt s)) :
    ∀ (l : List (Fin 6)) (s : σ), P s → P (forWhile guard body l s) := by
  intro l
  induction l with
  | nil => intro s hs; simpa [forWhile] using hs
  | cons cnt rest ih =>
      intro s hs
      unfold forWhile
      split
      · exact ih _ (hbody cnt s hs)
      · exact hs

/-- The statement pair of `addCall` leaves every `flag` as it was. -/
theorem addCall_flag {K : Type} (hd : Hd K) (c : Fin 6) (b : Nat) (i : Fin 6) :
    ((addCall hd c b).call i).flag = (hd.call i).flag := by
  unfold addCall
  by_cases hic : i = c
  · subst hic; simp
  · simp [Function.update_noteq hic]

/-- The row step of `SipGetCallData` leaves every `flag` as it was. -/
theorem SipGetCallData_row_flag {K : Type} (hd : Hd K) (r : CdrRow) (i : Fin 6) :
    ((SipGetCallData.row hd r).call i).flag = (hd.call i).flag := by
  unfold SipGetCallData.row
  split_ifs <;> first | rfl | exact addCall_flag _ _ _ _

/-- The row loop of `SipGetCallData` leaves every `flag` as it was. -/
theorem foldl_row_flag {K : Type} (rows : List CdrRow) (hd : Hd K) (i : Fin 6) :
    ((rows.foldl SipGetCallData.row hd).call i).flag = (hd.call i).flag := by
  induction rows generalizing hd with
  | nil => rfl
  | cons r rest ih => simp only [List.foldl_cons]; rw [ih, SipGetCallData_row_flag]

/-- The totals loop of `SipGetCallData` leaves the array `call` as it was. -/
theorem foldl_total_call {K : Type} (l : List (Fin 6)) (hd : Hd K) :
    (l.foldl (fun h cnt => SipGetCallData.total cnt h) hd).call = hd.call := by
  induction l generalizing hd with
  | nil => rfl
  | cons c rest ih => simp only [List.foldl_cons]; rw [ih]; rfl

/-- The function `SipGetCallData` leaves every `flag` as it was. -/
theorem SipGetCallData_flag {K : Type} (hd : Hd K) (rows : List CdrRow) (i : Fin 6) :
    ((SipGetCallData hd rows).call i).flag = (hd.call i).flag := by
  unfold SipGetCallData
  rw [foldl_total_call, foldl_row_flag]

/-- The function `SipCalcHDProbabilities` leaves every `flag` as it was. -/
theorem SipCalcHDProbabilities_flag {K : Type} [Field K] (gl : Hd K) (cfg : Conf K)
    (hd : Hd K) (i : Fin 6) :
    ((SipCalcHDProbabilities gl cfg hd).call i).flag = (hd.call i).flag := by
  unfold SipCalcHDProbabilities
  split
  · refine forWhile_induction (fun s => (s.call i).flag = (hd.call i).flag) _ _ ?_ _ hd rfl
    intro cnt s hs
    unfold SipCalcHDProbabilities.body
    by_cases hic : i = cnt
    · subst hic; simpa using hs
    · simpa [Function.update_noteq hic] using hs
  · rfl

/-- The function `SipCalcHellingerDistance` changes nothing but `distance_value`. -/
theorem SipCalcHellingerDistance_frame {K : Type} [LinearOrderedField K] (sqrt : K → K)
    (B O : Hd K) :
    (SipCalcHellingerDistance sqrt B O).call = O.call ∧
    (SipCalcHellingerDistance sqrt B O).num_total = O.num_total ∧
    (SipCalcHellingerDistance sqrt B O).dur_total = O.dur_total ∧
    (SipCalcHellingerDistance sqrt B O).mean_deviation = O.mean_deviation ∧
    (SipCalcHellingerDistance sqrt B O).threshold = O.threshold ∧
    (SipCalcHellingerDistance sqrt B O).flags = O.flags := by
  unfold SipCalcHellingerDistance
  refine forWhile_induction
    (fun s => s.call = O.call ∧ s.num_total = O.num_total ∧ s.dur_total = O.dur_total ∧
      s.mean_deviation = O.mean_deviation ∧ s.threshold = O.threshold ∧ s.flags = O.flags)
    _ _ ?_ _ O ⟨rfl, rfl, rfl, rfl, rfl, rfl⟩
  intro cnt s hs
  exact hs

/-- The flags of the local `hd_testing` are all `CALLTYPE_INACTIVE`. -/
theorem hdTesting_flag {K : Type} [LinearOrderedField K] (sqrt : K → K) (cfg : Conf K)
    (B : Hd K) (rows : List CdrRow) (i : Fin 6) :
    ((hdTesting sqrt cfg B rows).call i).flag = 0 := by
  unfold hdTesting
  rw [(SipCalcHellingerDistance_frame sqrt B _).1, SipCalcHDProbabilities_flag,
    SipGetCallData_flag]
  rfl

/-- The flag test of the alert predicate is never met: `hd_testing` was just cleared. -/
theorem otherTypesFlagged_hdTesting {K : Type} [LinearOrderedField K] (sqrt : K → K)
    (cfg : Conf K) (B : Hd K) (rows : List CdrRow) :
    otherTypesFlagged (hdTesting sqrt cfg B rows) = false := by
  simp [otherTypesFlagged, isActive, hdTesting_flag]

/-- The snap of the cursor does not touch the baseline. -/
theorem snapDetectStart_hd {K : Type} (eng : Engine K) :
    (snapDetectStart eng).hd_detection = eng.hd_detection := by
  unfold snapDetectStart
  split
  · split <;> rfl
  · rfl

/-- The return code of `SipUpdateTimeStamp` does not depend on the baseline. -/
theorem SipUpdateTimeStamp_ret_hd {K : Type} (cfg : Conf K) (eng : Engine K) (B : Hd K)
    (i : Int) :
    (SipUpdateTimeStamp cfg { eng with hd_detection := B } i).1 =
      (SipUpdateTimeStamp cfg eng i).1 := by
  unfold SipUpdateTimeStamp
  split_ifs <;> rfl

/-- The function `SipUpdateTimeStamp` never writes the baseline. -/
theorem SipUpdateTimeStamp_hd {K : Type} (cfg : Conf K) (eng : Engine K) (i : Int) :
    (SipUpdateTimeStamp cfg eng i).2.hd_detection = eng.hd_detection := by
  unfold SipUpdateTimeStamp
  split_ifs <;> rfl

/-- When `ret_value` is `TRUE`: the distance exceeds the threshold and the branch chosen by
the office-hours test has one of its conditions met. -/
theorem anomalyDecision_alert_iff {K : Type} [LinearOrderedField K] (cfg : Conf K)
    (B O : Hd K) (hour : Int) :
    (anomalyDecision cfg B O hour).1 = TRUE ↔
      O.distance_value > B.threshold ∧
        ((officeHours cfg hour = true ∧
            (officeCond cfg B O = true ∨ otherTypesFlagged O = true)) ∨
          (officeHours cfg hour = false ∧
            (offHoursCond cfg O = true ∨ otherTypesFlagged O = true))) := by
  unfold anomalyDecision
  split_ifs <;> simp_all [TRUE, FALSE]

/-- The value of `SipAnomalyDetection` when the fetch succeeds and the clock goes on. -/
theorem SipAnomalyDetection_ret {K : Type} [LinearOrderedField K] (sqrt : K → K)
    (cfg : Conf K) (cdr : CdrSource) (eng : Engine K) (rows : List CdrRow)
    (hfetch : cdr (snapDetectStart eng).last_transaction_ts cfg.interval = some rows)
    (hclock : (SipUpdateTimeStamp cfg (snapDetectStart eng) cfg.interval).1 = SIP_OK) :
    (SipAnomalyDetection sqrt cfg cdr eng).ret =
      (anomalyDecision cfg eng.hd_detection (hdTesting sqrt cfg eng.hd_detection rows)
        (tm_hour (snapDetectStart eng).current_time)).1 := by
  unfold SipAnomalyDetection
  simp only [hfetch, SipUpdateTimeStamp_ret_hd, hclock, snapDetectStart_hd]
  simp [SIP_OK, SIP_DONE]

/-! ## The clock in terms of instants -/

/-- The struct that `localtime_r` writes reads back through `mktime` as the same instant
and is left as it is. -/
theorem mktime_localtime (tz : TimeZone) (t : Int) :
    mktime tz (localtime tz t).1 (localtime tz t).2 = (t, localtime tz t) := by
  have h : (localtime tz t).1 - tz.gmtoff - (if (localtime tz t).2 = true then tz.dstoff else 0) =
      t := by
    unfold localtime
    dsimp only
    split_ifs <;> ring
  unfold mktime
  rw [h]

/-- Minutes added to a struct that `localtime_r` wrote are added to its instant. -/
theorem mktime_localtime_add (tz : TimeZone) (t d : Int) :
    mktime tz ((localtime tz t).1 + d) (localtime tz t).2 = (t + d, localtime tz (t + d)) := by
  have h : (localtime tz t).1 + d - tz.gmtoff -
      (if (localtime tz t).2 = true then tz.dstoff else 0) = t + d := by
    unfold localtime
    dsimp only
    split_ifs <;> ring
  unfold mktime
  rw [h]

/-- The struct that `mktime` leaves is the local time of the instant it returns. -/
theorem mktime_snd (tz : TimeZone) (w : Int) (f : Bool) :
    (mktime tz w f).2 = localtime tz (mktime tz w f).1 := rfl

/-- Minutes added to the fields of a struct are added to the instant `mktime` returns. -/
theorem mktime_add (tz : TimeZone) (w d : Int) (f : Bool) :
    (mktime tz (w + d) f).1 = (mktime tz w f).1 + d := by
  unfold mktime
  dsimp only
  ring

/-- When the flag of the struct is the one in force at the instant `mktime` returns, the
call leaves the struct as it is. -/
theorem mktime_of_settled (tz : TimeZone) (w : Int) (f : Bool)
    (h : tz.isdst (mktime tz w f).1 = f) : (mktime tz w f).2 = (w, f) := by
  rw [mktime_snd]
  unfold localtime
  rw [h]
  unfold mktime
  dsimp only
  refine Prod.ext ?_ rfl
  dsimp only
  ring

/-- The function `SipUpdateTimeStamp` in terms of the instant of the cursor: it reports
`SIP_DONE` when the mode is offline and that instant is later than `complete_time`, and
otherwise moves the struct to the local time `interval` minutes after that instant. -/
theorem SipUpdateTimeStamp_eq {K : Type} (cfg : Conf K) (eng : Engine K) (i : Int) :
    SipUpdateTimeStamp cfg eng i =
      if cfg.run_mode &&& SIP_RUN_MODE_OFFLINE ≠ 0 ∧ instant cfg eng > cfg.complete_time then
        (SIP_DONE,
          { eng with
            current_time := (localtime cfg.tz (instant cfg eng)).1
            tm_isdst := (localtime cfg.tz (instant cfg eng)).2 })
      else
        (SIP_OK,
          { eng with
            current_time := (localtime cfg.tz (instant cfg eng + 60 * i)).1
            tm_isdst := (localtime cfg.tz (instant cfg eng + 60 * i)).2
            previous_ts := some eng.last_transaction_ts
            last_transaction_ts := (localtime cfg.tz (instant cfg eng + 60 * i)).1 }) := by
  unfold SipUpdateTimeStamp instant
  by_cases hc : cfg.run_mode &&& SIP_RUN_MODE_OFFLINE ≠ 0 ∧
      (mktime cfg.tz eng.current_time eng.tm_isdst).1 > cfg.complete_time
  · rw [if_pos hc, if_pos hc, mktime_snd]
  · rw [if_neg hc, if_neg hc]
    dsimp only
    by_cases ho : cfg.run_mode &&& SIP_RUN_MODE_OFFLINE ≠ 0
    · rw [if_pos ho]
      have h1 : (mktime cfg.tz ((mktime cfg.tz eng.current_time eng.tm_isdst).2.1 + 60 * i)
          (mktime cfg.tz eng.current_time eng.tm_isdst).2.2).1 =
          (mktime cfg.tz eng.current_time eng.tm_isdst).1 + 60 * i := by
        rw [mktime_snd cfg.tz eng.current_time, mktime_localtime_add]
      simp only [mktime_snd cfg.tz (_ + 60 * i), h1]
    · rw [if_neg ho]
      simp only [mktime_snd cfg.tz (_ + 60 * i), mktime_add]

/-- The return code of `SipUpdateTimeStamp`: `SIP_DONE` exactly when the mode is offline
and the instant of the cursor it is called with is later than `complete_time`. -/
theorem SipUpdateTimeStamp_done_iff {K : Type} (cfg : Conf K) (eng : Engine K) (i : Int) :
    ((SipUpdateTimeStamp cfg eng i).1 = SIP_DONE ↔
      (cfg.run_mode &&& SIP_RUN_MODE_OFFLINE ≠ 0 ∧ instant cfg eng > cfg.complete_time)) ∧
    ((SipUpdateTimeStamp cfg eng i).1 = SIP_DONE →
      (SipUpdateTimeStamp cfg eng i).2 =
        { eng with
          current_time := (localtime cfg.tz (instant cfg eng)).1
          tm_isdst := (localtime cfg.tz (instant cfg eng)).2 }) ∧
    ((SipUpdateTimeStamp cfg eng i).1 = SIP_DONE ∨ (SipUpdateTimeStamp cfg eng i).1 = SIP_OK) := by
  rw [SipUpdateTimeStamp_eq]
  split_ifs with hc
  · exact ⟨⟨fun _ => hc, fun _ => rfl⟩, fun _ => rfl, Or.inl rfl⟩
  · exact ⟨⟨fun hd => absurd hd (show SIP_OK ≠ SIP_DONE by decide), fun hd => absurd hd hc⟩,
      fun hd => absurd hd (show SIP_OK ≠ SIP_DONE by decide), Or.inr rfl⟩

/-- What `SipUpdateTimeStamp` leaves when it returns `SIP_OK`: the struct is the local time
`interval` minutes after the instant of the old cursor, the text is re-printed from it, and
`previous_ts` is the old text. -/
theorem SipUpdateTimeStamp_of_ok {K : Type} (cfg : Conf K) (eng : Engine K) (i : Int)
    (hok : (SipUpdateTimeStamp cfg eng i).1 = SIP_OK) :
    (SipUpdateTimeStamp cfg eng i).2 =
      { eng with
        current_time := (localtime cfg.tz (instant cfg eng + 60 * i)).1
        tm_isdst := (localtime cfg.tz (instant cfg eng + 60 * i)).2
        previous_ts := some eng.last_transaction_ts
        last_transaction_ts := (localtime cfg.tz (instant cfg eng + 60 * i)).1 } := by
  rw [SipUpdateTimeStamp_eq] at hok ⊢
  split_ifs at hok ⊢ with hc
  · exact absurd hok (show SIP_DONE ≠ SIP_OK by decide)
  · rfl

/-- The clock goes on when the instant of the cursor is not later than `complete_time`. -/
theorem SipUpdateTimeStamp_ok_of_le {K : Type} (cfg : Conf K) (eng : Engine K) (i : Int)
    (hle : instant cfg eng ≤ cfg.complete_time) : (SipUpdateTimeStamp cfg eng i).1 = SIP_OK := by
  rw [SipUpdateTimeStamp_eq, if_neg]
  intro hc
  omega

/-- The instant of the cursor that `SipUpdateTimeStamp` leaves: `interval` minutes after
the old one when it returns `SIP_OK`, and the old one when it returns `SIP_DONE`. -/
theorem SipUpdateTimeStamp_instant {K : Type} (cfg : Conf K) (eng : Engine K) (i : Int) :
    ((SipUpdateTimeStamp cfg eng i).1 = SIP_OK →
      instant cfg (SipUpdateTimeStamp cfg eng i).2 = instant cfg eng + 60 * i) ∧
    ((SipUpdateTimeStamp cfg eng i).1 = SIP_DONE →
      instant cfg (SipUpdateTimeStamp cfg eng i).2 = instant cfg eng) := by
  rw [SipUpdateTimeStamp_eq]
  split_ifs with hc
  · refine ⟨fun h => absurd h (show SIP_DONE ≠ SIP_OK by decide), fun _ => ?_⟩
    show (mktime cfg.tz (localtime cfg.tz (instant cfg eng)).1
      (localtime cfg.tz (instant cfg eng)).2).1 = instant cfg eng
    rw [mktime_localtime]
  · refine ⟨fun _ => ?_, fun h => absurd h (show SIP_OK ≠ SIP_DONE by decide)⟩
    show (mktime cfg.tz (localtime cfg.tz (instant cfg eng + 60 * i)).1
      (localtime cfg.tz (instant cfg eng + 60 * i)).2).1 = instant cfg eng + 60 * i
    rw [mktime_localtime]

/-- The local time of an instant reached from a struct whose flag is the one in force
there: the fields of the struct plus the seconds in between. -/
theorem localtime_of_settled {K : Type} (cfg : Conf K) (eng : Engine K) (d : Int)
    (h : cfg.tz.isdst (instant cfg eng + d) = eng.tm_isdst) :
    localtime cfg.tz (instant cfg eng + d) = (eng.current_time + d, eng.tm_isdst) := by
  unfold localtime
  rw [h]
  unfold instant mktime
  refine Prod.ext ?_ rfl
  dsimp only
  ring

/-! ## What the three flag-guarded loops cover -/

/-- With a guard that does not read the state, the loop runs its body over the counter
values that come before the first one whose guard is false. -/
theorem forWhile_eq_foldl_takeWhile {σ : Type} (a : Fin 6 → Bool) (body : Fin 6 → σ → σ)
    (l : List (Fin 6)) (s : σ) :
    forWhile (fun _ cnt => a cnt) body l s =
      (l.takeWhile a).foldl (fun s cnt => body cnt s) s := by
  induction l generalizing s with
  | nil => rfl
  | cons cnt rest ih =>
      unfold forWhile
      by_cases hc : a cnt = true
      · simp [hc, List.takeWhile, ih]
      · simp [hc, List.takeWhile]

/-- The body of the distance loop adds the two terms of the specification. -/
theorem SipCalcHellingerDistance_body_distance {K : Type} [LinearOrderedField K]
    (sqrt : K → K) (B : Hd K) (cnt : Fin 6) (s : Hd K) :
    (SipCalcHellingerDistance.body sqrt B cnt s).distance_value =
      s.distance_value +
        (specTerm sqrt (B.call cnt).p_freq (s.call cnt).p_freq +
          specTerm sqrt (B.call cnt).p_dur (s.call cnt).p_dur) := by
  simp only [SipCalcHellingerDistance.body, specTerm, ne_eq, ite_not]

/-- The distance `SipCalcHellingerDistance` computes: the old `distance_value` plus the
terms of the call types that come before the first inactive one. -/
theorem SipCalcHellingerDistance_distance {K : Type} [LinearOrderedField K] (sqrt : K → K)
    (B O : Hd K) :
    (SipCalcHellingerDistance sqrt B O).distance_value =
      O.distance_value +
        ((callIndices.takeWhile fun c => isActive (B.call c)).map fun c =>
          specTerm sqrt (B.call c).p_freq (O.call c).p_freq +
            specTerm sqrt (B.call c).p_dur (O.call c).p_dur).sum := by
  have hfold : ∀ (l : List (Fin 6)) (s : Hd K), s.call = O.call →
      (l.foldl (fun s cnt => SipCalcHellingerDistance.body sqrt B cnt s) s).distance_value =
        s.distance_value +
          (l.map fun c =>
            specTerm sqrt (B.call c).p_freq (O.call c).p_freq +
              specTerm sqrt (B.call c).p_dur (O.call c).p_dur).sum := by
    intro l
    induction l with
    | nil => intro s _; simp
    | cons c rest ih =>
        intro s hs
        simp only [List.foldl_cons, List.map_cons, List.sum_cons]
        rw [ih _ (show (SipCalcHellingerDistance.body sqrt B c s).call = O.call from hs),
          SipCalcHellingerDistance_body_distance, hs, add_assoc]
  unfold SipCalcHellingerDistance
  rw [forWhile_eq_foldl_takeWhile (fun c => isActive (B.call c))]
  exact hfold _ O rfl

/-- When every call type is active, `SipCalcHellingerDistance` adds exactly the distance
of the specification. -/
theorem SipCalcHellingerDistance_all_active {K : Type} [LinearOrderedField K]
    (sqrt : K → K) (B O : Hd K) (hall : ∀ c, isActive (B.call c) = true) :
    (SipCalcHellingerDistance sqrt B O).distance_value =
      O.distance_value + specDistance sqrt B O := by
  rw [SipCalcHellingerDistance_distance]
  simp [specDistance, callIndices, List.takeWhile, hall]

/-- The probabilities `SipCalcHDProbabilities` leaves when the floors are met: a call type
that comes before the first inactive one gets `n / (N + D)` and `d / (N + D)`; every other
call type keeps what it had. -/
theorem SipCalcHDProbabilities_prob {K : Type} [Field K] (gl : Hd K) (cfg : Conf K)
    (hd : Hd K) (hmet : probFloorsMet cfg hd = true) (c : Fin 6) :
    ((SipCalcHDProbabilities gl cfg hd).call c).p_freq =
      (if c ∈ callIndices.takeWhile (fun i => isActive (gl.call i)) then
        ((hd.call c).num : K) / (((hd.num_total + hd.dur_total) % 2 ^ 64 : Nat) : K)
      else (hd.call c).p_freq) ∧
    ((SipCalcHDProbabilities gl cfg hd).call c).p_dur =
      (if c ∈ callIndices.takeWhile (fun i => isActive (gl.call i)) then
        ((hd.call c).dur : K) / (((hd.num_total + hd.dur_total) % 2 ^ 64 : Nat) : K)
      else (hd.call c).p_dur) := by
  have hfold : ∀ (l : List (Fin 6)) (s : Hd K),
      s.num_total = hd.num_total → s.dur_total = hd.dur_total →
      (∀ i, (s.call i).num = (hd.call i).num ∧ (s.call i).dur = (hd.call i).dur) →
      ((l.foldl (fun s cnt => SipCalcHDProbabilities.body cnt s) s).call c).p_freq =
        (if c ∈ l then
          ((hd.call c).num : K) / (((hd.num_total + hd.dur_total) % 2 ^ 64 : Nat) : K)
        else (s.call c).p_freq) ∧
      ((l.foldl (fun s cnt => SipCalcHDProbabilities.body cnt s) s).call c).p_dur =
        (if c ∈ l then
          ((hd.call c).dur : K) / (((hd.num_total + hd.dur_total) % 2 ^ 64 : Nat) : K)
        else (s.call c).p_dur) := by
    intro l
    induction l with
    | nil => intro s _ _ _; simp
    | cons x rest ih =>
        intro s hN hD hcall
        simp only [List.foldl_cons]
        have hcall' : ∀ i, ((SipCalcHDProbabilities.body x s).call i).num = (hd.call i).num ∧
            ((SipCalcHDProbabilities.body x s).call i).dur = (hd.call i).dur := by
          intro i
          unfold SipCalcHDProbabilities.body
          by_cases hix : i = x
          · subst hix; simpa using hcall i
          · simpa [Function.update_noteq hix] using hcall i
        obtain ⟨h1, h2⟩ := ih (SipCalcHDProbabilities.body x s) hN hD hcall'
        rw [h1, h2]
        by_cases hcx : c = x
        · subst hcx
          by_cases hmem : c ∈ rest
          · simp [hmem]
          · simp [hmem, SipCalcHDProbabilities.body, hN, hD, (hcall c).1, (hcall c).2]
        · by_cases hmem : c ∈ rest
          · simp [hmem]
          · simp [hmem, hcx, SipCalcHDProbabilities.body, Function.update_noteq hcx]
  unfold SipCalcHDProbabilities
  rw [if_pos hmet, forWhile_eq_foldl_takeWhile (fun i => isActive (gl.call i))]
  exact hfold _ hd rfl rfl (fun _ => ⟨rfl, rfl⟩)

/-! ## Evaluation of the test inputs -/

/-- The window of one MOBILE call of 4000 s, seen against a baseline with zero
probabilities: the distance is 1. -/
theorem mobile4000_distance :
    (hdTesting Real.sqrt (defaultConf ℝ ts_2024_01_16_00h)
      (configuredBaseline ℝ threeTypes (2 / 100) (1 / 100) (29 / 1000))
      [⟨"MOBILE", 4000⟩]).distance_value = 1 := by
  simp [hdTesting, SipGetCallData, SipGetCallData.row, SipGetCallData.total, callIndices,
    addCall, CLEAR_HD, strncmpEq, MOBILE, SipCalcHDProbabilities, SipCalcHDProbabilities.body,
    SipCalcHellingerDistance, SipCalcHellingerDistance.body, forWhile, configuredBaseline,
    threeTypes, isActive, probFloorsMet, defaultConf, toU64, CALLTYPE_ACTIVE,
    CALLTYPE_INACTIVE]
  rw [div_pow, Real.sq_sqrt (by norm_num), Real.sq_sqrt (by norm_num)]
  norm_num

/-- The window of one MOBILE call of 4000 s has `d_MOBILE = 4000`. -/
theorem mobile4000_dur :
    ((hdTesting Real.sqrt (defaultConf ℝ ts_2024_01_16_00h)
      (configuredBaseline ℝ threeTypes (2 / 100) (1 / 100) (29 / 1000))
      [⟨"MOBILE", 4000⟩]).call MOBILE).dur = 4000 := by
  simp [hdTesting, SipGetCallData, SipGetCallData.row, SipGetCallData.total, callIndices,
    addCall, CLEAR_HD, strncmpEq, MOBILE, SipCalcHDProbabilities, SipCalcHDProbabilities.body,
    SipCalcHellingerDistance, SipCalcHellingerDistance.body, forWhile, configuredBaseline,
    threeTypes, isActive, probFloorsMet, defaultConf, toU64, CALLTYPE_ACTIVE,
    CALLTYPE_INACTIVE]

/-- In the default configuration, whose time zone is UTC, the instant of the cursor is the
number its fields amount to. -/
theorem instant_defaultConf (K : Type) [Field K] (t : Int) (e : Engine K) :
    instant (defaultConf K t) e = e.current_time := by
  unfold instant mktime defaultConf utc
  dsimp only
  split_ifs <;> ring

/-- The default configuration holds 32-bit values. -/
theorem defaultConf_intRange (K : Type) [Field K] (t : Int) :
    (defaultConf K t).intRange := by
  simp [Conf.intRange, defaultConf]

/-- Five INTERNATIONAL calls against a baseline with zero probabilities: `N = 5`,
`n_INTERNATIONAL = 5` and the distance is 1, whatever the scalars of the baseline. -/
theorem fiveInternational_eval (d m t : ℝ) :
    (hdTesting Real.sqrt (defaultConf ℝ ts_2024_01_16_00h)
      (configuredBaseline ℝ threeTypes d m t) fiveInternational).distance_value = 1 ∧
    (hdTesting Real.sqrt (defaultConf ℝ ts_2024_01_16_00h)
      (configuredBaseline ℝ threeTypes d m t) fiveInternational).num_total = 5 ∧
    ((hdTesting Real.sqrt (defaultConf ℝ ts_2024_01_16_00h)
      (configuredBaseline ℝ threeTypes d m t) fiveInternational).call INTERNATIONAL).num = 5 := by
  refine ⟨?_, ?_, ?_⟩
  · simp [hdTesting, fiveInternational, SipGetCallData, SipGetCallData.row,
      SipGetCallData.total, callIndices, addCall, CLEAR_HD, strncmpEq, INTERNATIONAL,
      SipCalcHDProbabilities, SipCalcHDProbabilities.body, SipCalcHellingerDistance,
      SipCalcHellingerDistance.body, forWhile, configuredBaseline, threeTypes, isActive,
      probFloorsMet, defaultConf, toU64, CALLTYPE_ACTIVE, CALLTYPE_INACTIVE]
    rw [div_pow, div_pow, Real.sq_sqrt (show (0 : ℝ) ≤ 5 by norm_num),
      Real.sq_sqrt (show (0 : ℝ) ≤ 305 by norm_num),
      Real.sq_sqrt (show (0 : ℝ) ≤ 300 by norm_num)]
    norm_num
  · simp [hdTesting, fiveInternational, SipGetCallData, SipGetCallData.row,
      SipGetCallData.total, callIndices, addCall, CLEAR_HD, strncmpEq, INTERNATIONAL,
      SipCalcHDProbabilities, SipCalcHDProbabilities.body, SipCalcHellingerDistance,
      SipCalcHellingerDistance.body, forWhile, configuredBaseline, threeTypes, isActive,
      probFloorsMet, defaultConf, toU64, CALLTYPE_ACTIVE, CALLTYPE_INACTIVE]
  · simp [hdTesting, fiveInternational, SipGetCallData, SipGetCallData.row,
      SipGetCallData.total, callIndices, addCall, CLEAR_HD, strncmpEq, INTERNATIONAL,
      SipCalcHDProbabilities, SipCalcHDProbabilities.body, SipCalcHellingerDistance,
      SipCalcHellingerDistance.body, forWhile, configuredBaseline, threeTypes, isActive,
      probFloorsMet, defaultConf, toU64, CALLTYPE_ACTIVE, CALLTYPE_INACTIVE]

/-- One DOMESTIC call of 60 s with every call type active and a zero baseline: the
distance is 1, `N = 1`, and the counts and durations of INTERNATIONAL, MOBILE and PREMIUM
are zero. -/
theorem oneDomestic_eval :
    (hdTesting Real.sqrt (defaultConf ℝ ts_2024_01_16_00h)
      (configuredBaseline ℝ allTypes 0 0 0) [⟨"DOMESTIC", 60⟩]).distance_value = 1 ∧
    (hdTesting Real.sqrt (defaultConf ℝ ts_2024_01_16_00h)
      (configuredBaseline ℝ allTypes 0 0 0) [⟨"DOMESTIC", 60⟩]).num_total = 1 ∧
    (∀ c : Fin 6, c ≠ DOMESTIC →
      ((hdTesting Real.sqrt (defaultConf ℝ ts_2024_01_16_00h)
        (configuredBaseline ℝ allTypes 0 0 0) [⟨"DOMESTIC", 60⟩]).call c).num = 0 ∧
      ((hdTesting Real.sqrt (defaultConf ℝ ts_2024_01_16_00h)
        (configuredBaseline ℝ allTypes 0 0 0) [⟨"DOMESTIC", 60⟩]).call c).dur = 0) := by
  refine ⟨?_, ?_, ?_⟩
  · simp [hdTesting, SipGetCallData, SipGetCallData.row, SipGetCallData.total, callIndices,
      addCall, CLEAR_HD, strncmpEq, DOMESTIC, SipCalcHDProbabilities,
      SipCalcHDProbabilities.body, SipCalcHellingerDistance, SipCalcHellingerDistance.body,
      forWhile, configuredBaseline, allTypes, isActive, probFloorsMet, defaultConf, toU64,
      CALLTYPE_ACTIVE, CALLTYPE_INACTIVE]
    rw [div_pow, Real.sq_sqrt (show (0 : ℝ) ≤ 60 by norm_num),
      Real.sq_sqrt (show (0 : ℝ) ≤ 61 by norm_num)]
    norm_num
  · simp [hdTesting, SipGetCallData, SipGetCallData.row, SipGetCallData.total, callIndices,
      addCall, CLEAR_HD, strncmpEq, DOMESTIC, SipCalcHDProbabilities,
      SipCalcHDProbabilities.body, SipCalcHellingerDistance, SipCalcHellingerDistance.body,
      forWhile, configuredBaseline, allTypes, isActive, probFloorsMet, defaultConf, toU64,
      CALLTYPE_ACTIVE, CALLTYPE_INACTIVE]
  · intro c hc
    fin_cases c <;>
    simp [hdTesting, SipGetCallData, SipGetCallData.row, SipGetCallData.total, callIndices,
      addCall, CLEAR_HD, strncmpEq, DOMESTIC, SipCalcHDProbabilities,
      SipCalcHDProbabilities.body, SipCalcHellingerDistance, SipCalcHellingerDistance.body,
      forWhile, configuredBaseline, allTypes, isActive, probFloorsMet, defaultConf, toU64,
      CALLTYPE_ACTIVE, CALLTYPE_INACTIVE] at hc ⊢

/-- The value of `ret_value` is `TRUE` or `FALSE`. -/
theorem anomalyDecision_fst_cases {K : Type} [LinearOrderedField K] (cfg : Conf K)
    (B O : Hd K) (hour : Int) :
    (anomalyDecision cfg B O hour).1 = TRUE ∨ (anomalyDecision cfg B O hour).1 = FALSE := by
  unfold anomalyDecision
  split_ifs <;> simp

/-! ## The alert predicate (C1, C2, C3) -/

/-- **C3** fails on the code.  With every call type configured (so DOMESTIC, SERVICE and
EMERGENCY are active in the baseline), the default configuration, a baseline threshold
of 0 and a window of one DOMESTIC call of 60 s, the distance is `1 > 0 = B.threshold` and
the clock returns `SIP_OK`, yet `SipAnomalyDetection` returns `FALSE`, both at 10:00
(office hours) and at 23:00: the flag test reads the flags of the freshly cleared
`hd_testing`, which are all `CALLTYPE_INACTIVE`. -/
theorem C3_active_types_no_alert :
    isActive ((configuredBaseline ℝ allTypes 0 0 0).call DOMESTIC) = true ∧
    isActive ((configuredBaseline ℝ allTypes 0 0 0).call SERVICE) = true ∧
    isActive ((configuredBaseline ℝ allTypes 0 0 0).call EMERGENCY) = true ∧
    (hdTesting Real.sqrt (defaultConf ℝ ts_2024_01_16_00h)
      (configuredBaseline ℝ allTypes 0 0 0) [⟨"DOMESTIC", 60⟩]).distance_value >
        (configuredBaseline ℝ allTypes 0 0 0).threshold ∧
    (SipAnomalyDetection Real.sqrt (defaultConf ℝ ts_2024_01_16_00h)
      (constSource [⟨"DOMESTIC", 60⟩])
      (engineAt (configuredBaseline ℝ allTypes 0 0 0) ts_2024_01_15_10h)).ret = FALSE ∧
    (SipAnomalyDetection Real.sqrt (defaultConf ℝ ts_2024_01_16_00h)
      (constSource [⟨"DOMESTIC", 60⟩])
      (engineAt (configuredBaseline ℝ allTypes 0 0 0) ts_2024_01_15_23h)).ret = FALSE := by
  have hI := oneDomestic_eval.2.2 INTERNATIONAL (by decide)
  have hM := oneDomestic_eval.2.2 MOBILE (by decide)
  have hP := oneDomestic_eval.2.2 PREMIUM (by decide)
  have hN := oneDomestic_eval.2.1
  refine ⟨by simp [configuredBaseline, allTypes, isActive, CALLTYPE_ACTIVE, CALLTYPE_INACTIVE],
    by simp [configuredBaseline, allTypes, isActive, CALLTYPE_ACTIVE, CALLTYPE_INACTIVE],
    by simp [configuredBaseline, allTypes, isActive, CALLTYPE_ACTIVE, CALLTYPE_INACTIVE],
    ?_, ?_, ?_⟩
  · rw [oneDomestic_eval.1]; simp [configuredBaseline]
  · rw [SipAnomalyDetection_ret Real.sqrt _ _ _ [⟨"DOMESTIC", 60⟩] rfl
      (SipUpdateTimeStamp_ok_of_le _ _ _ (by decide))]
    refine (anomalyDecision_fst_cases _ _ _ _).resolve_left ?_
    rw [anomalyDecision_alert_iff, otherTypesFlagged_hdTesting]
    have hoff : officeHours (defaultConf ℝ ts_2024_01_16_00h)
        (tm_hour (snapDetectStart (engineAt (configuredBaseline ℝ allTypes 0 0 0)
          ts_2024_01_15_10h)).current_time) = true := by decide
    rw [hoff]
    simp only [officeCond, engineAt, hI.1, hI.2, hM.2, hP.1, hP.2]
    simp [configuredBaseline]
  · rw [SipAnomalyDetection_ret Real.sqrt _ _ _ [⟨"DOMESTIC", 60⟩] rfl
      (SipUpdateTimeStamp_ok_of_le _ _ _ (by decide))]
    refine (anomalyDecision_fst_cases _ _ _ _).resolve_left ?_
    rw [anomalyDecision_alert_iff, otherTypesFlagged_hdTesting]
    have hoff : officeHours (defaultConf ℝ ts_2024_01_16_00h)
        (tm_hour (snapDetectStart (engineAt (configuredBaseline ℝ allTypes 0 0 0)
          ts_2024_01_15_23h)).current_time) = false := by decide
    rw [hoff]
    simp only [offHoursCond, engineAt, hI.1, hM.2, hP.1, hN]
    simp [defaultConf]
    intro _
    norm_num

/-! ## The baseline update (C4, C5) -/

/-- The copy loop of `SipUpdateHDThreshold` leaves the scalars and the flags as they are. -/
theorem updateLoop_frame {K : Type} (O : Hd K) (l : List (Fin 6)) (B : Hd K) :
    (forWhile (fun hd cnt => isActive (hd.call cnt)) (SipUpdateHDThreshold.body O) l
        B).distance_value = B.distance_value ∧
    (forWhile (fun hd cnt => isActive (hd.call cnt)) (SipUpdateHDThreshold.body O) l
        B).mean_deviation = B.mean_deviation ∧
    (forWhile (fun hd cnt => isActive (hd.call cnt)) (SipUpdateHDThreshold.body O) l
        B).threshold = B.threshold ∧
    (forWhile (fun hd cnt => isActive (hd.call cnt)) (SipUpdateHDThreshold.body O) l
        B).num_total = B.num_total ∧
    (forWhile (fun hd cnt => isActive (hd.call cnt)) (SipUpdateHDThreshold.body O) l
        B).dur_total = B.dur_total ∧
    (forWhile (fun hd cnt => isActive (hd.call cnt)) (SipUpdateHDThreshold.body O) l
        B).flags = B.flags := by
  refine forWhile_induction
    (fun s : Hd K => s.distance_value = B.distance_value ∧
      s.mean_deviation = B.mean_deviation ∧ s.threshold = B.threshold ∧
      s.num_total = B.num_total ∧ s.dur_total = B.dur_total ∧ s.flags = B.flags)
    _ _ ?_ l B ⟨rfl, rfl, rfl, rfl, rfl, rfl⟩
  intro cnt s hs
  exact hs

/-- The gate of `SipUpdateHDThreshold` in the words of the specification. -/
theorem updateGate_iff {K : Type} [LinearOrderedField K] (cfg : Conf K) (B O : Hd K) :
    updateGate cfg B O = true ↔
      |O.distance_value - B.distance_value| < cfg.adaptability ∨ B.distance_value = 0 := by
  simp only [updateGate, Bool.or_eq_true, Bool.and_eq_true, decide_eq_true_eq, abs_lt]
  constructor
  · rintro (⟨h1, h2⟩ | h3)
    · exact Or.inl ⟨h2, h1⟩
    · exact Or.inr h3
  · rintro (⟨h1, h2⟩ | h3)
    · exact Or.inl ⟨h2, h1⟩
    · exact Or.inr h3

/-- **C4.** When the gate passes (`|O.dist − B.dist_ewma| < α` or `B.dist_ewma = 0`),
`SipUpdateHDThreshold` sets, with `err = O.dist − B.dist_ewma` on the old values,
`dist_ewma' = dist_ewma + err / 8`, `mdev_ewma' = mdev_ewma + (|err| − mdev_ewma) / 4` and
`threshold' = σ · dist_ewma' + α · mdev_ewma'` (on the new `dist_ewma'` and `mdev_ewma'`). -/
theorem C4_update_recurrences {K : Type} [LinearOrderedField K] (cfg : Conf K) (B O : Hd K)
    (hgate : |O.distance_value - B.distance_value| < cfg.adaptability ∨
      B.distance_value = 0) :
    (SipUpdateHDThreshold cfg B O).distance_value =
        B.distance_value + (O.distance_value - B.distance_value) / 8 ∧
    (SipUpdateHDThreshold cfg B O).mean_deviation =
        B.mean_deviation + (|O.distance_value - B.distance_value| - B.mean_deviation) / 4 ∧
    (SipUpdateHDThreshold cfg B O).threshold =
        cfg.senstivity * (SipUpdateHDThreshold cfg B O).distance_value +
          cfg.adaptability * (SipUpdateHDThreshold cfg B O).mean_deviation := by
  have hg : updateGate cfg B O = true := (updateGate_iff cfg B O).mpr hgate
  unfold SipUpdateHDThreshold
  simp only [hg, if_true]
  obtain ⟨h1, h2, h3, -, -, -⟩ := updateLoop_frame O callIndices
    { B with
      distance_value := B.distance_value + g * (O.distance_value - B.distance_value)
      mean_deviation :=
        B.mean_deviation + h * (|O.distance_value - B.distance_value| - B.mean_deviation)
      threshold :=
        cfg.senstivity * (B.distance_value + g * (O.distance_value - B.distance_value)) +
          cfg.adaptability *
            (B.mean_deviation +
              h * (|O.distance_value - B.distance_value| - B.mean_deviation)) }
  rw [h1, h2, h3]
  simp only [g, h]
  refine ⟨by ring, by ring, trivial⟩

/-- Witness of C4: baseline `dist_ewma = 0.02`, `mdev_ewma = 0.01`, observation
`O.dist = 0.1`, `σ = 1.2`, `α = 0.5` (`|0.08| < 0.5`). -/
theorem C4_update_recurrences_witness :
    (SipUpdateHDThreshold (defaultConf ℚ 0) (configuredBaseline ℚ threeTypes (2 / 100)
        (1 / 100) (29 / 1000)) (configuredBaseline ℚ threeTypes (1 / 10) 0 0)).distance_value =
      3 / 100 ∧
    (SipUpdateHDThreshold (defaultConf ℚ 0) (configuredBaseline ℚ threeTypes (2 / 100)
        (1 / 100) (29 / 1000)) (configuredBaseline ℚ threeTypes (1 / 10) 0 0)).mean_deviation =
      11 / 400 ∧
    (SipUpdateHDThreshold (defaultConf ℚ 0) (configuredBaseline ℚ threeTypes (2 / 100)
        (1 / 100) (29 / 1000)) (configuredBaseline ℚ threeTypes (1 / 10) 0 0)).threshold =
      199 / 4000 := by
  obtain ⟨h1, h2, h3⟩ := C4_update_recurrences (defaultConf ℚ 0)
    (configuredBaseline ℚ threeTypes (2 / 100) (1 / 100) (29 / 1000))
    (configuredBaseline ℚ threeTypes (1 / 10) 0 0)
    (Or.inl (by norm_num [configuredBaseline, defaultConf, abs_lt]))
  rw [h3, h1, h2]
  norm_num [configuredBaseline, defaultConf, abs_of_pos]

/-- **C5.** When `|O.dist − B.dist_ewma| ≥ α` and `B.dist_ewma ≠ 0`,
`SipUpdateHDThreshold` is a no-op: the baseline it yields is `B`, equal in every field
(scalars, totals, and every per-category count, duration and probability). -/
theorem C5_update_gate_noop {K : Type} [LinearOrderedField K] (cfg : Conf K) (B O : Hd K)
    (hfar : cfg.adaptability ≤ |O.distance_value - B.distance_value|)
    (hne : B.distance_value ≠ 0) :
    SipUpdateHDThreshold cfg B O = B := by
  have hg : updateGate cfg B O = false := by
    rw [Bool.eq_false_iff, Ne, updateGate_iff]
    rintro (hlt | h0)
    · exact absurd hlt (not_lt.mpr hfar)
    · exact hne h0
  unfold SipUpdateHDThreshold
  simp [hg]

/-- Witness of C5 (scenario 3 of the specification): `dist_ewma = 0.02`, `O.dist = 0.9`,
`α = 0.5`: the update leaves the baseline as it is. -/
theorem C5_update_gate_noop_witness :
    SipUpdateHDThreshold (defaultConf ℚ 0)
        (configuredBaseline ℚ threeTypes (2 / 100) (1 / 100) (29 / 1000))
        (configuredBaseline ℚ threeTypes (9 / 10) 0 0) =
      configuredBaseline ℚ threeTypes (2 / 100) (1 / 100) (29 / 1000) :=
  C5_update_gate_noop (defaultConf ℚ 0)
    (configuredBaseline ℚ threeTypes (2 / 100) (1 / 100) (29 / 1000))
    (configuredBaseline ℚ threeTypes (9 / 10) 0 0)
    (by norm_num [configuredBaseline, defaultConf, abs_of_pos])
    (by norm_num [configuredBaseline])

/-! ## Probabilities and distance (C7, C8) -/

/-- **C7** fails on the code.  With MOBILE the only active call type and the default
floors (0), the window of ten MOBILE calls of 600 s in all has `N = 10 > freq_floor`,
`D = 600`, `n_MOBILE = 10` and `d_MOBILE = 600`, so the specification gives
`pf_MOBILE = 10/610` and `pd_MOBILE = 600/610`; `SipCalcHDProbabilities` leaves both at 0,
because its loop stops at INTERNATIONAL, the first inactive call type. -/
theorem C7_probabilities_stop_at_first_inactive :
    isActive ((configuredBaseline ℚ mobileOnly 0 0 0).call MOBILE) = true ∧
    (SipGetCallData (CLEAR_HD (Hd.uninit (K := ℚ))) tenMobile).num_total = 10 ∧
    (SipGetCallData (CLEAR_HD (Hd.uninit (K := ℚ))) tenMobile).dur_total = 600 ∧
    ((SipGetCallData (CLEAR_HD (Hd.uninit (K := ℚ))) tenMobile).call MOBILE).num = 10 ∧
    ((SipGetCallData (CLEAR_HD (Hd.uninit (K := ℚ))) tenMobile).call MOBILE).dur = 600 ∧
    probFloorsMet (defaultConf ℚ ts_2024_01_16_00h)
      (SipGetCallData (CLEAR_HD (Hd.uninit (K := ℚ))) tenMobile) = true ∧
    ((SipCalcHDProbabilities (configuredBaseline ℚ mobileOnly 0 0 0)
      (defaultConf ℚ ts_2024_01_16_00h)
      (SipGetCallData (CLEAR_HD (Hd.uninit (K := ℚ))) tenMobile)).call MOBILE).p_freq = 0 ∧
    ((SipCalcHDProbabilities (configuredBaseline ℚ mobileOnly 0 0 0)
      (defaultConf ℚ ts_2024_01_16_00h)
      (SipGetCallData (CLEAR_HD (Hd.uninit (K := ℚ))) tenMobile)).call MOBILE).p_dur = 0 ∧
    ((SipCalcHDProbabilities (configuredBaseline ℚ mobileOnly 0 0 0)
      (defaultConf ℚ ts_2024_01_16_00h)
      (SipGetCallData (CLEAR_HD (Hd.uninit (K := ℚ))) tenMobile)).call MOBILE).p_freq ≠
        (((SipGetCallData (CLEAR_HD (Hd.uninit (K := ℚ))) tenMobile).call MOBILE).num : ℚ) /
          (((SipGetCallData (CLEAR_HD (Hd.uninit (K := ℚ))) tenMobile).num_total +
            (SipGetCallData (CLEAR_HD (Hd.uninit (K := ℚ))) tenMobile).dur_total : Nat) : ℚ) ∧
    ((SipCalcHDProbabilities (configuredBaseline ℚ mobileOnly 0 0 0)
      (defaultConf ℚ ts_2024_01_16_00h)
      (SipGetCallData (CLEAR_HD (Hd.uninit (K := ℚ))) tenMobile)).call MOBILE).p_dur ≠
        (((SipGetCallData (CLEAR_HD (Hd.uninit (K := ℚ))) tenMobile).call MOBILE).dur : ℚ) /
          (((SipGetCallData (CLEAR_HD (Hd.uninit (K := ℚ))) tenMobile).num_total +
            (SipGetCallData (CLEAR_HD (Hd.uninit (K := ℚ))) tenMobile).dur_total : Nat) : ℚ) := by
  refine ⟨?_, ?_, ?_, ?_, ?_, ?_, ?_, ?_, ?_, ?_⟩ <;>
  simp [SipCalcHDProbabilities, forWhile, callIndices, configuredBaseline, mobileOnly,
    isActive, CALLTYPE_ACTIVE, CALLTYPE_INACTIVE, SipGetCallData, SipGetCallData.row,
    SipGetCallData.total, addCall, CLEAR_HD, strncmpEq, MOBILE, tenMobile, probFloorsMet,
    defaultConf, toU64] <;>
  norm_num

/-- The statement pair of `addCall` leaves every probability as it was. -/
theorem addCall_prob {K : Type} (hd : Hd K) (c : Fin 6) (b : Nat) (i : Fin 6) :
    ((addCall hd c b).call i).p_freq = (hd.call i).p_freq ∧
    ((addCall hd c b).call i).p_dur = (hd.call i).p_dur := by
  unfold addCall
  by_cases hic : i = c
  · subst hic; simp
  · simp [Function.update_noteq hic]

/-- The row step of `SipGetCallData` leaves the probabilities and the distance as they
were. -/
theorem SipGetCallData_row_prob {K : Type} (hd : Hd K) (r : CdrRow) :
    (∀ i, ((SipGetCallData.row hd r).call i).p_freq = (hd.call i).p_freq ∧
      ((SipGetCallData.row hd r).call i).p_dur = (hd.call i).p_dur) ∧
    (SipGetCallData.row hd r).distance_value = hd.distance_value := by
  unfold SipGetCallData.row
  split_ifs <;> first
    | exact ⟨fun i => addCall_prob _ _ _ i, rfl⟩
    | exact ⟨fun _ => ⟨rfl, rfl⟩, rfl⟩

/-- The function `SipGetCallData` leaves the probabilities and the distance as they
were. -/
theorem SipGetCallData_prob {K : Type} (hd : Hd K) (rows : List CdrRow) :
    (∀ i, ((SipGetCallData hd rows).call i).p_freq = (hd.call i).p_freq ∧
      ((SipGetCallData hd rows).call i).p_dur = (hd.call i).p_dur) ∧
    (SipGetCallData hd rows).distance_value = hd.distance_value := by
  have hrows : ∀ (l : List CdrRow) (s : Hd K),
      (∀ i, ((l.foldl SipGetCallData.row s).call i).p_freq = (s.call i).p_freq ∧
        ((l.foldl SipGetCallData.row s).call i).p_dur = (s.call i).p_dur) ∧
      (l.foldl SipGetCallData.row s).distance_value = s.distance_value := by
    intro l
    induction l with
    | nil => intro s; exact ⟨fun _ => ⟨rfl, rfl⟩, rfl⟩
    | cons r rest ih =>
        intro s
        simp only [List.foldl_cons]
        obtain ⟨h1, h2⟩ := ih (SipGetCallData.row s r)
        obtain ⟨h3, h4⟩ := SipGetCallData_row_prob s r
        exact ⟨fun i => ⟨(h1 i).1.trans (h3 i).1, (h1 i).2.trans (h3 i).2⟩, h2.trans h4⟩
  have htot : ∀ (l : List (Fin 6)) (s : Hd K),
      (l.foldl (fun h cnt => SipGetCallData.total cnt h) s).distance_value =
        s.distance_value := by
    intro l
    induction l with
    | nil => intro s; rfl
    | cons c rest ih => intro s; simp only [List.foldl_cons]; rw [ih]; rfl
  unfold SipGetCallData
  rw [foldl_total_call, htot]
  exact hrows rows hd

/-- When the floors are not met `SipCalcHDProbabilities` returns its argument. -/
theorem SipCalcHDProbabilities_of_not_met {K : Type} [Field K] (gl : Hd K) (cfg : Conf K)
    (hd : Hd K) (hno : probFloorsMet cfg hd = false) :
    SipCalcHDProbabilities gl cfg hd = hd := by
  unfold SipCalcHDProbabilities
  simp [hno]

/-- A total that does not exceed an `int` floor does not exceed the converted floor. -/
theorem not_gt_toU64 (n : Nat) (x : Int) (hx : x < 2 ^ 31) (hle : (n : Int) ≤ x) :
    ¬ n > toU64 x := by
  have h0 : 0 ≤ x := le_trans (Int.ofNat_nonneg n) hle
  have hconv : (toU64 x : Int) = x := by
    unfold toU64
    rw [Int.emod_eq_of_lt h0 (by omega)]
    exact Int.toNat_of_nonneg h0
  omega

/-- The floors are not met when both totals are at most their floor, and also when
`N + D = 0`, whatever the floors are. -/
theorem probFloorsMet_eq_false {K : Type} (cfg : Conf K) (hd : Hd K) (hrange : cfg.intRange)
    (hsparse : ((hd.num_total : Int) ≤ cfg.call_freq ∧ (hd.dur_total : Int) ≤ cfg.call_dur) ∨
      hd.num_total + hd.dur_total = 0) :
    probFloorsMet cfg hd = false := by
  obtain ⟨-, -, -, -, -, -, hf, hd'⟩ := hrange
  simp only [probFloorsMet, Bool.or_eq_false_iff, decide_eq_false_iff_not]
  rcases hsparse with ⟨h1, h2⟩ | h0
  · exact ⟨not_gt_toU64 _ _ hf.2 h1, not_gt_toU64 _ _ hd'.2 h2⟩
  · constructor <;> omega

/-- An observation whose probabilities are all zero gets nothing added to its distance. -/
theorem SipCalcHellingerDistance_of_zero_prob {K : Type} [LinearOrderedField K]
    (sqrt : K → K) (B O : Hd K)
    (hzero : ∀ c, (O.call c).p_freq = 0 ∧ (O.call c).p_dur = 0) :
    (SipCalcHellingerDistance sqrt B O).distance_value = O.distance_value := by
  unfold SipCalcHellingerDistance
  refine (forWhile_induction
    (fun s : Hd K => s.call = O.call ∧ s.distance_value = O.distance_value)
    _ _ ?_ callIndices O ⟨rfl, rfl⟩).2
  intro cnt s hs
  obtain ⟨hc, hd⟩ := hs
  refine ⟨hc, ?_⟩
  simp [SipCalcHellingerDistance.body, hc, hzero cnt, hd]

/-- The 32-bit counters of a window aggregated on a cleared `Hd` stay below `2 ^ 32`. -/
theorem foldl_row_counters_lt {K : Type} (rows : List CdrRow) (hd : Hd K)
    (hlt : ∀ i, (hd.call i).num < 2 ^ 32 ∧ (hd.call i).dur < 2 ^ 32) (i : Fin 6) :
    ((rows.foldl SipGetCallData.row hd).call i).num < 2 ^ 32 ∧
    ((rows.foldl SipGetCallData.row hd).call i).dur < 2 ^ 32 := by
  induction rows generalizing hd with
  | nil => exact hlt i
  | cons r rest ih =>
      simp only [List.foldl_cons]
      apply ih
      intro k
      have hadd : ∀ (c : Fin 6) (b : Nat), ((addCall hd c b).call k).num < 2 ^ 32 ∧
          ((addCall hd c b).call k).dur < 2 ^ 32 := by
        intro c b
        unfold addCall
        by_cases hkc : k = c
        · subst hkc
          simp only [Function.update_same]
          exact ⟨Nat.mod_lt _ (by norm_num), Nat.mod_lt _ (by norm_num)⟩
        · simpa [Function.update_noteq hkc] using hlt k
      unfold SipGetCallData.row
      split_ifs <;> first | exact hadd _ _ | exact hlt k

/-- The totals of a window aggregated on a cleared `Hd` do not wrap: `N + D < 2 ^ 64`. -/
theorem SipGetCallData_totals_lt {K : Type} [Zero K] (rows : List CdrRow) :
    (SipGetCallData (CLEAR_HD (Hd.uninit (K := K))) rows).num_total +
      (SipGetCallData (CLEAR_HD (Hd.uninit (K := K))) rows).dur_total < 2 ^ 64 := by
  have hlt := foldl_row_counters_lt rows (CLEAR_HD (Hd.uninit (K := K)))
    (fun _ => ⟨by simp [CLEAR_HD], by simp [CLEAR_HD]⟩)
  have hN0 : (rows.foldl SipGetCallData.row (CLEAR_HD (Hd.uninit (K := K)))).num_total = 0 := by
    have : ∀ (l : List CdrRow) (s : Hd K),
        (l.foldl SipGetCallData.row s).num_total = s.num_total ∧
        (l.foldl SipGetCallData.row s).dur_total = s.dur_total := by
      intro l
      induction l with
      | nil => intro s; exact ⟨rfl, rfl⟩
      | cons r rest ih =>
          intro s
          simp only [List.foldl_cons]
          rw [(ih _).1, (ih _).2]
          unfold SipGetCallData.row addCall
          split_ifs <;> exact ⟨rfl, rfl⟩
    exact (this rows _).1
  have hD0 : (rows.foldl SipGetCallData.row (CLEAR_HD (Hd.uninit (K := K)))).dur_total = 0 := by
    have : ∀ (l : List CdrRow) (s : Hd K),
        (l.foldl SipGetCallData.row s).dur_total = s.dur_total := by
      intro l
      induction l with
      | nil => intro s; rfl
      | cons r rest ih =>
          intro s
          simp only [List.foldl_cons]
          rw [ih _]
          unfold SipGetCallData.row addCall
          split_ifs <;> rfl
    exact this rows _
  have h0 := hlt 0
  have h1 := hlt 1
  have h2 := hlt 2
  have h3 := hlt 3
  have h4 := hlt 4
  have h5 := hlt 5
  simp only [SipGetCallData, callIndices, List.foldl, SipGetCallData.total, hN0, hD0]
  omega

/-- **C8.** For every window (an observation aggregated from the rows on a cleared `Hd`):
(1) if `N ≤ freq_floor` and `D ≤ dur_floor`, or if `N + D = 0` whatever the floors are, the
guard of `SipCalcHDProbabilities` is false, so the function returns its argument untouched
(the division by `N + D` is not reached), every `pf_c` and `pd_c` stays 0, and the
distance then computed against any baseline is `O.dist = 0`; (2) whenever the guard is
met, and the division by `N + D` is therefore evaluated, the denominator is not zero. -/
theorem C8_sparse_window_zero {K : Type} [LinearOrderedField K] (sqrt : K → K) (cfg : Conf K)
    (B : Hd K) (rows : List CdrRow) (hrange : cfg.intRange) :
    ((((SipGetCallData (CLEAR_HD (Hd.uninit (K := K))) rows).num_total : Int) ≤ cfg.call_freq ∧
        ((SipGetCallData (CLEAR_HD (Hd.uninit (K := K))) rows).dur_total : Int) ≤ cfg.call_dur) ∨
      (SipGetCallData (CLEAR_HD (Hd.uninit (K := K))) rows).num_total +
        (SipGetCallData (CLEAR_HD (Hd.uninit (K := K))) rows).dur_total = 0 →
      probFloorsMet cfg (SipGetCallData (CLEAR_HD (Hd.uninit (K := K))) rows) = false ∧
      SipCalcHDProbabilities B cfg (SipGetCallData (CLEAR_HD Hd.uninit) rows) =
        SipGetCallData (CLEAR_HD Hd.uninit) rows ∧
      (∀ c, ((SipCalcHDProbabilities B cfg
          (SipGetCallData (CLEAR_HD Hd.uninit) rows)).call c).p_freq = 0 ∧
        ((SipCalcHDProbabilities B cfg
          (SipGetCallData (CLEAR_HD Hd.uninit) rows)).call c).p_dur = 0) ∧
      (hdTesting sqrt cfg B rows).distance_value = 0) ∧
    (probFloorsMet cfg (SipGetCallData (CLEAR_HD (Hd.uninit (K := K))) rows) = true →
      ((SipGetCallData (CLEAR_HD (Hd.uninit (K := K))) rows).num_total +
        (SipGetCallData (CLEAR_HD (Hd.uninit (K := K))) rows).dur_total) % 2 ^ 64 ≠ 0) := by
  constructor
  · intro hsparse
    have hno := probFloorsMet_eq_false cfg _ hrange hsparse
    have hid := SipCalcHDProbabilities_of_not_met B cfg _ hno
    obtain ⟨hp, hdist⟩ := SipGetCallData_prob (CLEAR_HD (Hd.uninit (K := K))) rows
    have hzero : ∀ c,
        ((SipGetCallData (CLEAR_HD (Hd.uninit (K := K))) rows).call c).p_freq = 0 ∧
        ((SipGetCallData (CLEAR_HD (Hd.uninit (K := K))) rows).call c).p_dur = 0 :=
      fun c => ⟨(hp c).1.trans rfl, (hp c).2.trans rfl⟩
    refine ⟨hno, hid, ?_, ?_⟩
    · rw [hid]; exact hzero
    · unfold hdTesting
      rw [hid, SipCalcHellingerDistance_of_zero_prob sqrt B _ hzero, hdist]
      rfl
  · intro hmet
    have hlt := SipGetCallData_totals_lt (K := K) rows
    simp only [probFloorsMet, Bool.or_eq_true, decide_eq_true_eq] at hmet
    rw [Nat.mod_eq_of_lt hlt]
    omega

/-- Witness of C8: the empty window (`N = D = 0`) under the default configuration. -/
theorem C8_sparse_window_zero_witness :
    (hdTesting Real.sqrt (defaultConf ℝ ts_2024_01_16_00h)
      (configuredBaseline ℝ allTypes (2 / 100) (1 / 100) (29 / 1000)) []).distance_value = 0 :=
  ((C8_sparse_window_zero Real.sqrt (defaultConf ℝ ts_2024_01_16_00h)
    (configuredBaseline ℝ allTypes (2 / 100) (1 / 100) (29 / 1000)) []
    (defaultConf_intRange ℝ _)).1 (Or.inr rfl)).2.2.2

/-! ## The detection tick and its checkpoint (C9, C10) -/

/-- The new baseline chosen by the decision of `SipAnomalyDetection`: the update runs
exactly when `0 < O.dist ≤ B.threshold`. -/
theorem anomalyDecision_snd {K : Type} [LinearOrderedField K] (cfg : Conf K) (B O : Hd K)
    (hour : Int) :
    (anomalyDecision cfg B O hour).2 =
      if 0 < O.distance_value ∧ O.distance_value ≤ B.threshold then
        SipUpdateHDThreshold cfg B O
      else B := by
  unfold anomalyDecision
  by_cases h1 : O.distance_value > B.threshold
  · have h2 : ¬ (0 < O.distance_value ∧ O.distance_value ≤ B.threshold) :=
      fun hc => absurd h1 (not_lt.mpr hc.2)
    rw [if_pos h1, if_neg h2]
    split_ifs <;> rfl
  · rw [if_neg h1]
    by_cases h3 : O.distance_value > 0
    · rw [if_pos h3, if_pos ⟨h3, not_lt.mp h1⟩]
    · rw [if_neg h3, if_neg (fun hc => h3 hc.1)]

/-- An alert leaves the baseline as it was. -/
theorem anomalyDecision_snd_of_alert {K : Type} [LinearOrderedField K] (cfg : Conf K)
    (B O : Hd K) (hour : Int) (halert : (anomalyDecision cfg B O hour).1 = TRUE) :
    (anomalyDecision cfg B O hour).2 = B := by
  rw [anomalyDecision_snd, if_neg]
  intro hc
  exact absurd ((anomalyDecision_alert_iff cfg B O hour).mp halert).1 (not_lt.mpr hc.2)

/-- What `SipAnomalyDetection` leaves behind when the fetch succeeds: the return value is
`SIP_DONE` or `ret_value`, and the baseline is the one the decision chose. -/
theorem SipAnomalyDetection_of_fetch {K : Type} [LinearOrderedField K] (sqrt : K → K)
    (cfg : Conf K) (cdr : CdrSource) (eng : Engine K) (rows : List CdrRow)
    (hfetch : cdr (snapDetectStart eng).last_transaction_ts cfg.interval = some rows) :
    (SipAnomalyDetection sqrt cfg cdr eng).ret =
      (if (SipUpdateTimeStamp cfg (snapDetectStart eng) cfg.interval).1 = SIP_DONE then SIP_DONE
        else (anomalyDecision cfg eng.hd_detection (hdTesting sqrt cfg eng.hd_detection rows)
          (tm_hour (snapDetectStart eng).current_time)).1) ∧
    (SipAnomalyDetection sqrt cfg cdr eng).eng.hd_detection =
      (anomalyDecision cfg eng.hd_detection (hdTesting sqrt cfg eng.hd_detection rows)
        (tm_hour (snapDetectStart eng).current_time)).2 := by
  unfold SipAnomalyDetection
  simp only [hfetch, SipUpdateTimeStamp_ret_hd, snapDetectStart_hd]
  split_ifs <;> exact ⟨rfl, SipUpdateTimeStamp_hd _ _ _⟩

/-- The engine that `mainDetectionTick` leaves is the one `SipAnomalyDetection` left. -/
theorem mainDetectionTick_eng {K : Type} [LinearOrderedField K] (sqrt : K → K)
    (cfg : Conf K) (cdr : CdrSource) (exec_ok : Bool) (w : World K) :
    (mainDetectionTick sqrt cfg cdr exec_ok w).2.eng =
      (SipAnomalyDetection sqrt cfg cdr w.eng).eng := by
  unfold mainDetectionTick
  dsimp only
  split_ifs <;> rfl

/-- The threshold table after `mainDetectionTick`: untouched on `SIP_ERROR`, `SIP_DONE`
and `TRUE`, and handed to `SipAnomalyStoreThreshold` otherwise. -/
theorem mainDetectionTick_thresholds {K : Type} [LinearOrderedField K] (sqrt : K → K)
    (cfg : Conf K) (cdr : CdrSource) (exec_ok : Bool) (w : World K) :
    (mainDetectionTick sqrt cfg cdr exec_ok w).2.thresholds =
      if (SipAnomalyDetection sqrt cfg cdr w.eng).ret = SIP_ERROR ∨
          (SipAnomalyDetection sqrt cfg cdr w.eng).ret = SIP_DONE ∨
          (SipAnomalyDetection sqrt cfg cdr w.eng).ret = TRUE then w.thresholds
      else (SipAnomalyStoreThreshold exec_ok (SipAnomalyDetection sqrt cfg cdr w.eng).eng
        w.thresholds).2 := by
  unfold mainDetectionTick
  dsimp only
  by_cases h1 : (SipAnomalyDetection sqrt cfg cdr w.eng).ret = SIP_ERROR
  · rw [if_pos h1, if_pos (Or.inl h1)]
  · by_cases h2 : (SipAnomalyDetection sqrt cfg cdr w.eng).ret = SIP_DONE
    · rw [if_neg h1, if_pos h2, if_pos (Or.inr (Or.inl h2))]
    · by_cases h3 : (SipAnomalyDetection sqrt cfg cdr w.eng).ret = TRUE
      · rw [if_neg h1, if_neg h2, if_pos h3, if_pos (Or.inr (Or.inr h3))]
      · have h4 : ¬ ((SipAnomalyDetection sqrt cfg cdr w.eng).ret = SIP_ERROR ∨
            (SipAnomalyDetection sqrt cfg cdr w.eng).ret = SIP_DONE ∨
            (SipAnomalyDetection sqrt cfg cdr w.eng).ret = TRUE) := by
          rintro (hc | hc | hc) <;> contradiction
        rw [if_neg h1, if_neg h2, if_neg h3, if_neg h4]
        split_ifs <;> rfl

/-- The alert notifications after `mainDetectionTick`: one more exactly on `TRUE`. -/
theorem mainDetectionTick_alerts_of_quiet {K : Type} [LinearOrderedField K] (sqrt : K → K)
    (cfg : Conf K) (cdr : CdrSource) (exec_ok : Bool) (w : World K)
    (hquiet : (SipAnomalyDetection sqrt cfg cdr w.eng).ret ≠ TRUE) :
    (mainDetectionTick sqrt cfg cdr exec_ok w).2.alerts = w.alerts := by
  unfold mainDetectionTick
  dsimp only
  split_ifs <;> rfl

/-- Scenario 3 of the specification: at 10:00, one MOBILE call of 4000 s against the
baseline with threshold 0.029 makes `ret_value` `TRUE`. -/
theorem mobile4000_decision :
    (anomalyDecision (defaultConf ℝ ts_2024_01_16_00h)
      (configuredBaseline ℝ threeTypes (2 / 100) (1 / 100) (29 / 1000))
      (hdTesting Real.sqrt (defaultConf ℝ ts_2024_01_16_00h)
        (configuredBaseline ℝ threeTypes (2 / 100) (1 / 100) (29 / 1000)) [⟨"MOBILE", 4000⟩])
      (tm_hour ts_2024_01_15_10h)).1 = TRUE := by
  rw [anomalyDecision_alert_iff]
  refine ⟨?_, Or.inl ⟨by decide, Or.inl ?_⟩⟩
  · rw [mobile4000_distance]; norm_num [configuredBaseline]
  · simp only [officeCond, Bool.or_eq_true, decide_eq_true_eq]
    refine Or.inl (Or.inl (Or.inl (Or.inl ?_)))
    rw [mobile4000_dur]
    decide

/-- The new `dist_ewma` of `SipUpdateHDThreshold` when the gate passes. -/
theorem SipUpdateHDThreshold_distance {K : Type} [LinearOrderedField K] (cfg : Conf K)
    (B O : Hd K) (hg : updateGate cfg B O = true) :
    (SipUpdateHDThreshold cfg B O).distance_value =
      B.distance_value + g * (O.distance_value - B.distance_value) := by
  unfold SipUpdateHDThreshold
  simp only [hg, if_true]
  exact (updateLoop_frame O callIndices _).1

/-- **C9.** Whenever the alert predicate of a detection tick yields `TRUE` (whether the
clock then goes on or reports `SIP_DONE`), the baseline after the tick equals the
baseline before it in every field, and the threshold table is as it was: no checkpoint is
persisted for that tick. -/
theorem C9_alert_keeps_baseline {K : Type} [LinearOrderedField K] (sqrt : K → K)
    (cfg : Conf K) (cdr : CdrSource) (exec_ok : Bool) (w : World K) (rows : List CdrRow)
    (hfetch : cdr (snapDetectStart w.eng).last_transaction_ts cfg.interval = some rows)
    (halert : (anomalyDecision cfg w.eng.hd_detection
      (hdTesting sqrt cfg w.eng.hd_detection rows)
      (tm_hour (snapDetectStart w.eng).current_time)).1 = TRUE) :
    (mainDetectionTick sqrt cfg cdr exec_ok w).2.eng.hd_detection = w.eng.hd_detection ∧
    (mainDetectionTick sqrt cfg cdr exec_ok w).2.thresholds = w.thresholds := by
  obtain ⟨hret, hhd⟩ := SipAnomalyDetection_of_fetch sqrt cfg cdr w.eng rows hfetch
  constructor
  · rw [mainDetectionTick_eng, hhd, anomalyDecision_snd_of_alert _ _ _ _ halert]
  · rw [mainDetectionTick_thresholds, if_pos]
    rw [hret, halert]
    split_ifs
    · exact Or.inr (Or.inl rfl)
    · exact Or.inr (Or.inr rfl)

/-- Witness of C9 (scenario 3 of the specification): baseline `dist_ewma = 0.02`,
`mdev_ewma = 0.01`, `threshold = 0.029`, office hours, `O.d_MOBILE = 4000 s > 3600 s`:
the tick alerts, the baseline is unchanged and the threshold table stays empty. -/
theorem C9_alert_keeps_baseline_witness :
    (mainDetectionTick Real.sqrt (defaultConf ℝ ts_2024_01_16_00h)
      (constSource [⟨"MOBILE", 4000⟩]) true
      (worldAt (configuredBaseline ℝ threeTypes (2 / 100) (1 / 100) (29 / 1000))
        ts_2024_01_15_10h)).2.eng.hd_detection =
      configuredBaseline ℝ threeTypes (2 / 100) (1 / 100) (29 / 1000) ∧
    (mainDetectionTick Real.sqrt (defaultConf ℝ ts_2024_01_16_00h)
      (constSource [⟨"MOBILE", 4000⟩]) true
      (worldAt (configuredBaseline ℝ threeTypes (2 / 100) (1 / 100) (29 / 1000))
        ts_2024_01_15_10h)).2.thresholds = [] :=
  C9_alert_keeps_baseline Real.sqrt (defaultConf ℝ ts_2024_01_16_00h)
    (constSource [⟨"MOBILE", 4000⟩]) true
    (worldAt (configuredBaseline ℝ threeTypes (2 / 100) (1 / 100) (29 / 1000))
      ts_2024_01_15_10h)
    [⟨"MOBILE", 4000⟩] rfl mobile4000_decision

/-- **C10** fails on the code as stated.  (1) Empty window at 10:00 against the baseline
with threshold 0.029: `O.dist = 0`, the tick returns `FALSE`, and `main` still appends a
checkpoint to the threshold table.  (2) One DOMESTIC call at 10:00 against a baseline
with threshold 0: the tick returns `FALSE` with `O.dist = 1 > 0`, yet the baseline keeps
`dist_ewma = 0`, whereas `SipUpdateHDThreshold` would have set it to `1/8`: the update is
not applied when `O.dist > B.threshold`. -/
theorem C10_checkpoint_without_update :
    ((hdTesting Real.sqrt (defaultConf ℝ ts_2024_01_16_00h)
        (configuredBaseline ℝ threeTypes (2 / 100) (1 / 100) (29 / 1000)) []).distance_value = 0 ∧
      (SipAnomalyDetection Real.sqrt (defaultConf ℝ ts_2024_01_16_00h) (constSource [])
        (engineAt (configuredBaseline ℝ threeTypes (2 / 100) (1 / 100) (29 / 1000))
          ts_2024_01_15_10h)).ret = FALSE ∧
      (mainDetectionTick Real.sqrt (defaultConf ℝ ts_2024_01_16_00h) (constSource []) true
        (worldAt (configuredBaseline ℝ threeTypes (2 / 100) (1 / 100) (29 / 1000))
          ts_2024_01_15_10h)).2.thresholds.length = 1) ∧
    ((hdTesting Real.sqrt (defaultConf ℝ ts_2024_01_16_00h)
        (configuredBaseline ℝ allTypes 0 0 0) [⟨"DOMESTIC", 60⟩]).distance_value = 1 ∧
      (SipAnomalyDetection Real.sqrt (defaultConf ℝ ts_2024_01_16_00h)
        (constSource [⟨"DOMESTIC", 60⟩])
        (engineAt (configuredBaseline ℝ allTypes 0 0 0) ts_2024_01_15_10h)).ret = FALSE ∧
      (mainDetectionTick Real.sqrt (defaultConf ℝ ts_2024_01_16_00h)
        (constSource [⟨"DOMESTIC", 60⟩]) true
        (worldAt (configuredBaseline ℝ allTypes 0 0 0)
          ts_2024_01_15_10h)).2.eng.hd_detection.distance_value = 0 ∧
      (SipUpdateHDThreshold (defaultConf ℝ ts_2024_01_16_00h)
        (configuredBaseline ℝ allTypes 0 0 0)
        (hdTesting Real.sqrt (defaultConf ℝ ts_2024_01_16_00h)
          (configuredBaseline ℝ allTypes 0 0 0) [⟨"DOMESTIC", 60⟩])).distance_value = 1 / 8) := by
  have hd0 : (hdTesting Real.sqrt (defaultConf ℝ ts_2024_01_16_00h)
      (configuredBaseline ℝ threeTypes (2 / 100) (1 / 100) (29 / 1000)) []).distance_value = 0 := by
    unfold hdTesting
    rw [SipCalcHDProbabilities_of_not_met _ _ _
        (probFloorsMet_eq_false (defaultConf ℝ ts_2024_01_16_00h)
          (SipGetCallData (CLEAR_HD Hd.uninit) []) (defaultConf_intRange ℝ _) (Or.inr rfl)),
      SipCalcHellingerDistance_of_zero_prob Real.sqrt _ _ (fun _ => ⟨rfl, rfl⟩)]
    rfl
  have hquiet0 : (anomalyDecision (defaultConf ℝ ts_2024_01_16_00h)
      (configuredBaseline ℝ threeTypes (2 / 100) (1 / 100) (29 / 1000))
      (hdTesting Real.sqrt (defaultConf ℝ ts_2024_01_16_00h)
        (configuredBaseline ℝ threeTypes (2 / 100) (1 / 100) (29 / 1000)) [])
      (tm_hour ts_2024_01_15_10h)).1 = FALSE := by
    refine (anomalyDecision_fst_cases _ _ _ _).resolve_left ?_
    rw [anomalyDecision_alert_iff, hd0]
    intro hc
    norm_num [configuredBaseline] at hc
  have hret0 : (SipAnomalyDetection Real.sqrt (defaultConf ℝ ts_2024_01_16_00h) (constSource [])
      (engineAt (configuredBaseline ℝ threeTypes (2 / 100) (1 / 100) (29 / 1000))
        ts_2024_01_15_10h)).ret = FALSE := by
    rw [SipAnomalyDetection_ret Real.sqrt _ _ _ [] rfl
      (SipUpdateTimeStamp_ok_of_le _ _ _ (by decide))]
    exact hquiet0
  have hquiet1 : (anomalyDecision (defaultConf ℝ ts_2024_01_16_00h)
      (configuredBaseline ℝ allTypes 0 0 0)
      (hdTesting Real.sqrt (defaultConf ℝ ts_2024_01_16_00h)
        (configuredBaseline ℝ allTypes 0 0 0) [⟨"DOMESTIC", 60⟩])
      (tm_hour ts_2024_01_15_10h)).1 = FALSE := by
    refine (anomalyDecision_fst_cases _ _ _ _).resolve_left ?_
    rw [anomalyDecision_alert_iff, otherTypesFlagged_hdTesting]
    have hoff : officeHours (defaultConf ℝ ts_2024_01_16_00h) (tm_hour ts_2024_01_15_10h) =
        true := by decide
    rw [hoff]
    simp only [officeCond, (oneDomestic_eval.2.2 INTERNATIONAL (by decide)).1,
      (oneDomestic_eval.2.2 INTERNATIONAL (by decide)).2,
      (oneDomestic_eval.2.2 MOBILE (by decide)).2,
      (oneDomestic_eval.2.2 PREMIUM (by decide)).1,
      (oneDomestic_eval.2.2 PREMIUM (by decide)).2]
    simp [configuredBaseline]
  have hret1 : (SipAnomalyDetection Real.sqrt (defaultConf ℝ ts_2024_01_16_00h)
      (constSource [⟨"DOMESTIC", 60⟩])
      (engineAt (configuredBaseline ℝ allTypes 0 0 0) ts_2024_01_15_10h)).ret = FALSE := by
    rw [SipAnomalyDetection_ret Real.sqrt _ _ _ [⟨"DOMESTIC", 60⟩] rfl
      (SipUpdateTimeStamp_ok_of_le _ _ _ (by decide))]
    exact hquiet1
  refine ⟨⟨hd0, hret0, ?_⟩, oneDomestic_eval.1, hret1, ?_, ?_⟩
  · rw [mainDetectionTick_thresholds, if_neg]
    · rfl
    · show ¬ (_ = SIP_ERROR ∨ _ = SIP_DONE ∨ _ = TRUE)
      erw [hret0]
      decide
  · rw [mainDetectionTick_eng]
    erw [(SipAnomalyDetection_of_fetch Real.sqrt _ _ _ [⟨"DOMESTIC", 60⟩] rfl).2]
    rw [anomalyDecision_snd, if_neg]
    · rfl
    · intro hc
      have h1 := hc.2
      erw [oneDomestic_eval.1] at h1
      norm_num [configuredBaseline, worldAt, engineAt] at h1
  · rw [SipUpdateHDThreshold_distance _ _ _ (by simp [updateGate, configuredBaseline]),
      oneDomestic_eval.1]
    norm_num [configuredBaseline, g]

/-- **C10, amended.** On a detection tick whose fetch succeeds and whose clock returns
`SIP_OK`: (1) if the tick does not alert, the baseline afterwards is
`SipUpdateHDThreshold B O` exactly when `0 < O.dist ≤ B.threshold` and `B` otherwise, no
alert notification is made, and `main` hands the baseline to `SipAnomalyStoreThreshold`,
which appends a checkpoint whenever the insert succeeds, whether or not `O.dist > 0`;
(2) in particular a tick with `O.dist = 0` and `B.threshold ≥ 0` (an empty or sparse
window) returns `FALSE`, leaves the baseline unchanged, makes no alert notification, and
still appends a checkpoint. -/
theorem C10_quiet_tick_update_and_checkpoint {K : Type} [LinearOrderedField K]
    (sqrt : K → K) (cfg : Conf K) (cdr : CdrSource) (exec_ok : Bool) (w : World K)
    (rows : List CdrRow)
    (hfetch : cdr (snapDetectStart w.eng).last_transaction_ts cfg.interval = some rows)
    (hclock : (SipUpdateTimeStamp cfg (snapDetectStart w.eng) cfg.interval).1 = SIP_OK) :
    ((SipAnomalyDetection sqrt cfg cdr w.eng).ret ≠ TRUE →
      (mainDetectionTick sqrt cfg cdr exec_ok w).2.eng.hd_detection =
        (if 0 < (hdTesting sqrt cfg w.eng.hd_detection rows).distance_value ∧
            (hdTesting sqrt cfg w.eng.hd_detection rows).distance_value ≤
              w.eng.hd_detection.threshold then
          SipUpdateHDThreshold cfg w.eng.hd_detection
            (hdTesting sqrt cfg w.eng.hd_detection rows)
        else w.eng.hd_detection) ∧
      (mainDetectionTick sqrt cfg cdr exec_ok w).2.thresholds =
        (if exec_ok = true then
          w.thresholds ++ [thresholdRow (mainDetectionTick sqrt cfg cdr exec_ok w).2.eng]
        else w.thresholds) ∧
      (mainDetectionTick sqrt cfg cdr exec_ok w).2.alerts = w.alerts) ∧
    ((hdTesting sqrt cfg w.eng.hd_detection rows).distance_value = 0 →
      0 ≤ w.eng.hd_detection.threshold →
      (SipAnomalyDetection sqrt cfg cdr w.eng).ret = FALSE ∧
      (mainDetectionTick sqrt cfg cdr exec_ok w).2.eng.hd_detection = w.eng.hd_detection ∧
      (mainDetectionTick sqrt cfg cdr exec_ok w).2.thresholds =
        (if exec_ok = true then
          w.thresholds ++ [thresholdRow (mainDetectionTick sqrt cfg cdr exec_ok w).2.eng]
        else w.thresholds) ∧
      (mainDetectionTick sqrt cfg cdr exec_ok w).2.alerts = w.alerts) := by
  obtain ⟨-, hhd⟩ := SipAnomalyDetection_of_fetch sqrt cfg cdr w.eng rows hfetch
  have hret := SipAnomalyDetection_ret sqrt cfg cdr w.eng rows hfetch hclock
  have hquiet : (SipAnomalyDetection sqrt cfg cdr w.eng).ret ≠ TRUE →
      (mainDetectionTick sqrt cfg cdr exec_ok w).2.eng.hd_detection =
        (if 0 < (hdTesting sqrt cfg w.eng.hd_detection rows).distance_value ∧
            (hdTesting sqrt cfg w.eng.hd_detection rows).distance_value ≤
              w.eng.hd_detection.threshold then
          SipUpdateHDThreshold cfg w.eng.hd_detection
            (hdTesting sqrt cfg w.eng.hd_detection rows)
        else w.eng.hd_detection) ∧
      (mainDetectionTick sqrt cfg cdr exec_ok w).2.thresholds =
        (if exec_ok = true then
          w.thresholds ++ [thresholdRow (mainDetectionTick sqrt cfg cdr exec_ok w).2.eng]
        else w.thresholds) ∧
      (mainDetectionTick sqrt cfg cdr exec_ok w).2.alerts = w.alerts := by
    intro hq
    have hF : (SipAnomalyDetection sqrt cfg cdr w.eng).ret = FALSE := by
      rw [hret] at hq ⊢
      exact (anomalyDecision_fst_cases _ _ _ _).resolve_left hq
    refine ⟨?_, ?_, mainDetectionTick_alerts_of_quiet sqrt cfg cdr exec_ok w hq⟩
    · rw [mainDetectionTick_eng, hhd, anomalyDecision_snd]
    · rw [mainDetectionTick_thresholds, if_neg, mainDetectionTick_eng]
      · unfold SipAnomalyStoreThreshold
        split_ifs <;> rfl
      · rw [hF]
        decide
  refine ⟨hquiet, ?_⟩
  intro hzero hthr
  have hq : (SipAnomalyDetection sqrt cfg cdr w.eng).ret ≠ TRUE := by
    rw [hret, Ne, anomalyDecision_alert_iff, hzero]
    intro hc
    exact absurd hc.1 (not_lt.mpr hthr)
  obtain ⟨h1, h2, h3⟩ := hquiet hq
  refine ⟨?_, ?_, h2, h3⟩
  · rw [hret] at hq ⊢
    exact (anomalyDecision_fst_cases _ _ _ _).resolve_left hq
  · rw [h1, if_neg]
    rw [hzero]
    exact fun hc => lt_irrefl _ hc.1

/-- Witness of C10 as amended: at 23:00, five INTERNATIONAL calls (`O.dist = 1`) against
a baseline with `dist_ewma = 1`, `mdev_ewma = 0`, `threshold = 1.2`: the tick does not
alert, `0 < O.dist ≤ B.threshold`, so the baseline becomes `SipUpdateHDThreshold B O`,
and one checkpoint is appended. -/
theorem C10_quiet_tick_update_and_checkpoint_witness :
    (mainDetectionTick Real.sqrt (defaultConf ℝ ts_2024_01_16_00h)
      (constSource fiveInternational) true
      (worldAt (configuredBaseline ℝ threeTypes 1 0 (12 / 10))
        ts_2024_01_15_23h)).2.eng.hd_detection =
      SipUpdateHDThreshold (defaultConf ℝ ts_2024_01_16_00h)
        (configuredBaseline ℝ threeTypes 1 0 (12 / 10))
        (hdTesting Real.sqrt (defaultConf ℝ ts_2024_01_16_00h)
          (configuredBaseline ℝ threeTypes 1 0 (12 / 10)) fiveInternational) ∧
    (mainDetectionTick Real.sqrt (defaultConf ℝ ts_2024_01_16_00h)
      (constSource fiveInternational) true
      (worldAt (configuredBaseline ℝ threeTypes 1 0 (12 / 10))
        ts_2024_01_15_23h)).2.thresholds.length = 1 := by
  have hdist := (fiveInternational_eval 1 0 (12 / 10)).1
  have hq : (SipAnomalyDetection Real.sqrt (defaultConf ℝ ts_2024_01_16_00h)
      (constSource fiveInternational)
      (worldAt (configuredBaseline ℝ threeTypes 1 0 (12 / 10)) ts_2024_01_15_23h).eng).ret ≠
        TRUE := by
    rw [SipAnomalyDetection_ret Real.sqrt _ _ _ fiveInternational rfl
      (SipUpdateTimeStamp_ok_of_le _ _ _ (by decide)), Ne, anomalyDecision_alert_iff]
    intro hc
    have h1 := hc.1
    erw [hdist] at h1
    norm_num [configuredBaseline, worldAt, engineAt] at h1
  obtain ⟨h1, h2, -⟩ := (C10_quiet_tick_update_and_checkpoint Real.sqrt
    (defaultConf ℝ ts_2024_01_16_00h) (constSource fiveInternational) true
    (worldAt (configuredBaseline ℝ threeTypes 1 0 (12 / 10)) ts_2024_01_15_23h)
    fiveInternational rfl (SipUpdateTimeStamp_ok_of_le _ _ _ (by decide))).1 hq
  constructor
  · rw [h1, if_pos]
    · rfl
    · erw [hdist]
      norm_num [configuredBaseline, worldAt, engineAt]
  · rw [h2]
    rfl

/-! ## Invariants of the observation and of the baseline (C11, C12, C13) -/

/-- The totals of a window aggregated on a cleared `Hd` are the sums of the six counters. -/
theorem SipGetCallData_totals_eq {K : Type} [Zero K] (rows : List CdrRow) :
    (SipGetCallData (CLEAR_HD (Hd.uninit (K := K))) rows).num_total =
      ∑ c : Fin 6, ((SipGetCallData (CLEAR_HD (Hd.uninit (K := K))) rows).call c).num ∧
    (SipGetCallData (CLEAR_HD (Hd.uninit (K := K))) rows).dur_total =
      ∑ c : Fin 6, ((SipGetCallData (CLEAR_HD (Hd.uninit (K := K))) rows).call c).dur := by
  have hlt := foldl_row_counters_lt rows (CLEAR_HD (Hd.uninit (K := K)))
    (fun _ => ⟨by simp [CLEAR_HD], by simp [CLEAR_HD]⟩)
  have htot : ∀ (l : List CdrRow) (s : Hd K),
      (l.foldl SipGetCallData.row s).num_total = s.num_total ∧
      (l.foldl SipGetCallData.row s).dur_total = s.dur_total := by
    intro l
    induction l with
    | nil => intro s; exact ⟨rfl, rfl⟩
    | cons r rest ih =>
        intro s
        simp only [List.foldl_cons]
        rw [(ih _).1, (ih _).2]
        unfold SipGetCallData.row addCall
        split_ifs <;> exact ⟨rfl, rfl⟩
  have hN0 : (rows.foldl SipGetCallData.row (CLEAR_HD (Hd.uninit (K := K)))).num_total = 0 :=
    (htot rows _).1
  have hD0 : (rows.foldl SipGetCallData.row (CLEAR_HD (Hd.uninit (K := K)))).dur_total = 0 :=
    (htot rows _).2
  have h0 := hlt 0
  have h1 := hlt 1
  have h2 := hlt 2
  have h3 := hlt 3
  have h4 := hlt 4
  have h5 := hlt 5
  simp only [SipGetCallData, callIndices, List.foldl, SipGetCallData.total, hN0, hD0,
    Fin.sum_univ_six]
  constructor <;> omega

/-- **C11.** For every list of CDR rows and every configuration (floors and active flags),
the observation produced by `SipGetCallData` on a cleared `Hd` followed by
`SipCalcHDProbabilities` satisfies `0 ≤ pf_c ≤ 1` and `0 ≤ pd_c ≤ 1` for every category
`c`, and `Σ_c (pf_c + pd_c) ≤ 1` (exact arithmetic in any ordered field, the rationals
included). -/
theorem C11_observation_probabilities {K : Type} [LinearOrderedField K] (gl : Hd K)
    (cfg : Conf K) (rows : List CdrRow) :
    (∀ c : Fin 6,
      0 ≤ ((SipCalcHDProbabilities gl cfg
        (SipGetCallData (CLEAR_HD Hd.uninit) rows)).call c).p_freq ∧
      ((SipCalcHDProbabilities gl cfg
        (SipGetCallData (CLEAR_HD Hd.uninit) rows)).call c).p_freq ≤ 1 ∧
      0 ≤ ((SipCalcHDProbabilities gl cfg
        (SipGetCallData (CLEAR_HD Hd.uninit) rows)).call c).p_dur ∧
      ((SipCalcHDProbabilities gl cfg
        (SipGetCallData (CLEAR_HD Hd.uninit) rows)).call c).p_dur ≤ 1) ∧
    ∑ c : Fin 6,
      (((SipCalcHDProbabilities gl cfg
          (SipGetCallData (CLEAR_HD Hd.uninit) rows)).call c).p_freq +
        ((SipCalcHDProbabilities gl cfg
          (SipGetCallData (CLEAR_HD Hd.uninit) rows)).call c).p_dur) ≤ 1 := by
  obtain ⟨hN, hD⟩ := SipGetCallData_totals_eq (K := K) rows
  have hlt := SipGetCallData_totals_lt (K := K) rows
  obtain ⟨hp, -⟩ := SipGetCallData_prob (CLEAR_HD (Hd.uninit (K := K))) rows
  have hw0 : ∀ c,
      ((SipGetCallData (CLEAR_HD (Hd.uninit (K := K))) rows).call c).p_freq = 0 ∧
      ((SipGetCallData (CLEAR_HD (Hd.uninit (K := K))) rows).call c).p_dur = 0 :=
    fun c => ⟨(hp c).1.trans rfl, (hp c).2.trans rfl⟩
  generalize hw : SipGetCallData (CLEAR_HD (Hd.uninit (K := K))) rows = w at hN hD hlt hw0
  have hT0 : (0 : K) ≤ ((w.num_total + w.dur_total : Nat) : K) := Nat.cast_nonneg _
  have hkey : ∀ c : Fin 6,
      0 ≤ ((SipCalcHDProbabilities gl cfg w).call c).p_freq ∧
      ((SipCalcHDProbabilities gl cfg w).call c).p_freq ≤
        ((w.call c).num : K) / ((w.num_total + w.dur_total : Nat) : K) ∧
      0 ≤ ((SipCalcHDProbabilities gl cfg w).call c).p_dur ∧
      ((SipCalcHDProbabilities gl cfg w).call c).p_dur ≤
        ((w.call c).dur : K) / ((w.num_total + w.dur_total : Nat) : K) := by
    intro c
    have hn : (0 : K) ≤ ((w.call c).num : K) / ((w.num_total + w.dur_total : Nat) : K) :=
      div_nonneg (Nat.cast_nonneg _) hT0
    have hd : (0 : K) ≤ ((w.call c).dur : K) / ((w.num_total + w.dur_total : Nat) : K) :=
      div_nonneg (Nat.cast_nonneg _) hT0
    by_cases hmet : probFloorsMet cfg w = true
    · obtain ⟨h1, h2⟩ := SipCalcHDProbabilities_prob gl cfg w hmet c
      rw [h1, h2, Nat.mod_eq_of_lt hlt, (hw0 c).1, (hw0 c).2]
      split_ifs
      · exact ⟨hn, le_refl _, hd, le_refl _⟩
      · exact ⟨le_refl _, hn, le_refl _, hd⟩
    · rw [SipCalcHDProbabilities_of_not_met gl cfg w (by simpa using hmet), (hw0 c).1,
        (hw0 c).2]
      exact ⟨le_refl _, hn, le_refl _, hd⟩
  have hcast : ((w.num_total + w.dur_total : Nat) : K) =
      ∑ c : Fin 6, (((w.call c).num : K) + ((w.call c).dur : K)) := by
    rw [hN, hD, Finset.sum_add_distrib]
    push_cast
    rfl
  have hle1 : ∀ c : Fin 6,
      ((w.call c).num : K) ≤ ((w.num_total + w.dur_total : Nat) : K) ∧
      ((w.call c).dur : K) ≤ ((w.num_total + w.dur_total : Nat) : K) := by
    intro c
    have hterm : ((w.call c).num : K) + ((w.call c).dur : K) ≤
        ∑ i : Fin 6, (((w.call i).num : K) + ((w.call i).dur : K)) :=
      Finset.single_le_sum (f := fun i : Fin 6 => ((w.call i).num : K) + ((w.call i).dur : K))
        (fun i _ => add_nonneg (Nat.cast_nonneg _) (Nat.cast_nonneg _)) (Finset.mem_univ c)
    have h1 : (0 : K) ≤ ((w.call c).num : K) := Nat.cast_nonneg _
    have h2 : (0 : K) ≤ ((w.call c).dur : K) := Nat.cast_nonneg _
    rw [hcast]
    constructor <;> linarith
  have hdiv1 : ∀ a : K, a ≤ ((w.num_total + w.dur_total : Nat) : K) →
      a / ((w.num_total + w.dur_total : Nat) : K) ≤ 1 := by
    intro a ha
    rcases hT0.lt_or_eq with hpos | hzero
    · exact (div_le_one hpos).mpr ha
    · rw [← hzero, div_zero]; exact zero_le_one
  refine ⟨fun c => ⟨(hkey c).1, le_trans (hkey c).2.1 (hdiv1 _ (hle1 c).1), (hkey c).2.2.1,
    le_trans (hkey c).2.2.2 (hdiv1 _ (hle1 c).2)⟩, ?_⟩
  calc ∑ c : Fin 6, (((SipCalcHDProbabilities gl cfg w).call c).p_freq +
          ((SipCalcHDProbabilities gl cfg w).call c).p_dur)
      ≤ ∑ c : Fin 6, ((((w.call c).num : K) + ((w.call c).dur : K)) /
          ((w.num_total + w.dur_total : Nat) : K)) := by
        refine Finset.sum_le_sum fun c _ => ?_
        rw [add_div]
        exact add_le_add (hkey c).2.1 (hkey c).2.2.2
    _ = ((w.num_total + w.dur_total : Nat) : K) / ((w.num_total + w.dur_total : Nat) : K) := by
        rw [← Finset.sum_div, ← hcast]
    _ ≤ 1 := hdiv1 _ (le_refl _)

/-- The three scalars after `SipUpdateHDThreshold`: the recurrences when the gate passes,
the old values when it does not. -/
theorem SipUpdateHDThreshold_scalars {K : Type} [LinearOrderedField K] (cfg : Conf K)
    (B O : Hd K) :
    (updateGate cfg B O = true →
      (SipUpdateHDThreshold cfg B O).distance_value =
          B.distance_value + g * (O.distance_value - B.distance_value) ∧
      (SipUpdateHDThreshold cfg B O).mean_deviation =
          B.mean_deviation + h * (|O.distance_value - B.distance_value| - B.mean_deviation) ∧
      (SipUpdateHDThreshold cfg B O).threshold =
          cfg.senstivity * (SipUpdateHDThreshold cfg B O).distance_value +
            cfg.adaptability * (SipUpdateHDThreshold cfg B O).mean_deviation) ∧
    (updateGate cfg B O = false → SipUpdateHDThreshold cfg B O = B) := by
  constructor
  · intro hg
    unfold SipUpdateHDThreshold
    simp only [hg, if_true]
    obtain ⟨h1, h2, h3, -, -, -⟩ := updateLoop_frame O callIndices
      { B with
        distance_value := B.distance_value + g * (O.distance_value - B.distance_value)
        mean_deviation :=
          B.mean_deviation + h * (|O.distance_value - B.distance_value| - B.mean_deviation)
        threshold :=
          cfg.senstivity * (B.distance_value + g * (O.distance_value - B.distance_value)) +
            cfg.adaptability *
              (B.mean_deviation +
                h * (|O.distance_value - B.distance_value| - B.mean_deviation)) }
    rw [h1, h2, h3]
    exact ⟨rfl, rfl, rfl⟩
  · intro hg
    unfold SipUpdateHDThreshold
    simp [hg]

/-- One call of `SipUpdateHDThreshold` keeps `threshold = σ · dist_ewma + α · mdev_ewma`,
`dist_ewma ≥ 0` and `mdev_ewma ≥ 0`, when the observed distance is not negative. -/
theorem SipUpdateHDThreshold_invariant {K : Type} [LinearOrderedField K] (cfg : Conf K)
    (B O : Hd K) (hO : 0 ≤ O.distance_value)
    (hB : B.threshold = cfg.senstivity * B.distance_value +
        cfg.adaptability * B.mean_deviation ∧
      0 ≤ B.distance_value ∧ 0 ≤ B.mean_deviation) :
    (SipUpdateHDThreshold cfg B O).threshold =
        cfg.senstivity * (SipUpdateHDThreshold cfg B O).distance_value +
          cfg.adaptability * (SipUpdateHDThreshold cfg B O).mean_deviation ∧
    0 ≤ (SipUpdateHDThreshold cfg B O).distance_value ∧
    0 ≤ (SipUpdateHDThreshold cfg B O).mean_deviation := by
  obtain ⟨hpass, hfail⟩ := SipUpdateHDThreshold_scalars cfg B O
  by_cases hg : updateGate cfg B O = true
  · obtain ⟨h1, h2, h3⟩ := hpass hg
    refine ⟨h3, ?_, ?_⟩
    · rw [h1]
      simp only [g]
      linarith [hB.2.1]
    · rw [h2]
      simp only [h]
      have habs : 0 ≤ |O.distance_value - B.distance_value| := abs_nonneg _
      linarith [hB.2.2]
  · rw [hfail (by simpa using hg)]
    exact hB

/-- **C12.** For `σ > 0` and `α > 0`, starting from a baseline with
`dist_ewma = mdev_ewma = threshold = 0`, after every sequence of `SipUpdateHDThreshold`
calls with observations of distance `≥ 0` (whether or not a call passes the gate):
`B.threshold = σ · B.dist_ewma + α · B.mdev_ewma`, `B.dist_ewma ≥ 0`, `B.mdev_ewma ≥ 0`,
and hence `B.threshold ≥ 0`. -/
theorem C12_threshold_invariant {K : Type} [LinearOrderedField K] (cfg : Conf K) (B : Hd K)
    (Os : List (Hd K)) (hsens : 0 < cfg.senstivity) (hadapt : 0 < cfg.adaptability)
    (hB : B.distance_value = 0 ∧ B.mean_deviation = 0 ∧ B.threshold = 0)
    (hO : ∀ O ∈ Os, 0 ≤ O.distance_value) :
    (Os.foldl (SipUpdateHDThreshold cfg) B).threshold =
        cfg.senstivity * (Os.foldl (SipUpdateHDThreshold cfg) B).distance_value +
          cfg.adaptability * (Os.foldl (SipUpdateHDThreshold cfg) B).mean_deviation ∧
    0 ≤ (Os.foldl (SipUpdateHDThreshold cfg) B).distance_value ∧
    0 ≤ (Os.foldl (SipUpdateHDThreshold cfg) B).mean_deviation ∧
    0 ≤ (Os.foldl (SipUpdateHDThreshold cfg) B).threshold := by
  have hinv : ∀ (l : List (Hd K)) (s : Hd K), (∀ O ∈ l, 0 ≤ O.distance_value) →
      (s.threshold = cfg.senstivity * s.distance_value + cfg.adaptability * s.mean_deviation ∧
        0 ≤ s.distance_value ∧ 0 ≤ s.mean_deviation) →
      ((l.foldl (SipUpdateHDThreshold cfg) s).threshold =
          cfg.senstivity * (l.foldl (SipUpdateHDThreshold cfg) s).distance_value +
            cfg.adaptability * (l.foldl (SipUpdateHDThreshold cfg) s).mean_deviation ∧
        0 ≤ (l.foldl (SipUpdateHDThreshold cfg) s).distance_value ∧
        0 ≤ (l.foldl (SipUpdateHDThreshold cfg) s).mean_deviation) := by
    intro l
    induction l with
    | nil => intro s _ hs; exact hs
    | cons O rest ih =>
        intro s hl hs
        simp only [List.foldl_cons]
        exact ih _ (fun O' hO' => hl O' (List.mem_cons_of_mem _ hO'))
          (SipUpdateHDThreshold_invariant cfg s O (hl O (List.mem_cons_self _ _)) hs)
  obtain ⟨h1, h2, h3⟩ := hinv Os B hO
    ⟨by rw [hB.1, hB.2.1, hB.2.2]; ring, by rw [hB.1], by rw [hB.2.1]⟩
  refine ⟨h1, h2, h3, ?_⟩
  rw [h1]
  exact add_nonneg (mul_nonneg hsens.le h2) (mul_nonneg hadapt.le h3)

/-- Witness of C12: the default `σ = 1.2`, `α = 0.5`, a baseline with zero scalars, then
an accepted observation (`O.dist = 0.1`) and a rejected one (`O.dist = 0.9`). -/
theorem C12_threshold_invariant_witness :
    0 ≤ ([configuredBaseline ℚ threeTypes (1 / 10) 0 0,
        configuredBaseline ℚ threeTypes (9 / 10) 0 0].foldl
      (SipUpdateHDThreshold (defaultConf ℚ 0)) (configuredBaseline ℚ threeTypes 0 0 0)).threshold :=
  (C12_threshold_invariant (defaultConf ℚ 0) (configuredBaseline ℚ threeTypes 0 0 0)
    [configuredBaseline ℚ threeTypes (1 / 10) 0 0, configuredBaseline ℚ threeTypes (9 / 10) 0 0]
    (by norm_num [defaultConf]) (by norm_num [defaultConf]) ⟨rfl, rfl, rfl⟩
    (by
      intro O hO
      simp only [List.mem_cons, List.mem_singleton, List.not_mem_nil, or_false] at hO
      rcases hO with rfl | rfl <;> norm_num [configuredBaseline])).2.2.2

/-- Over the reals one term of the distance lies between 0 and `p + q`. -/
theorem specTerm_bounds (p q : ℝ) (hp : 0 ≤ p) (hq : 0 ≤ q) :
    0 ≤ specTerm Real.sqrt p q ∧ specTerm Real.sqrt p q ≤ p + q := by
  unfold specTerm
  split_ifs with h0
  · exact ⟨le_refl _, add_nonneg hp hq⟩
  · refine ⟨sq_nonneg _, ?_⟩
    have h1 := Real.sqrt_nonneg p
    have h2 := Real.sqrt_nonneg q
    have h3 := Real.sq_sqrt hp
    have h4 := Real.sq_sqrt hq
    nlinarith [mul_nonneg h1 h2]

/-- A sum of non-negative terms over the counter values before the first inactive one is
at most the sum over all of them, and is not negative. -/
theorem sum_takeWhile_le (a : Fin 6 → Bool) (f : Fin 6 → ℝ) (l : List (Fin 6))
    (hf : ∀ c, 0 ≤ f c) :
    0 ≤ ((l.takeWhile a).map f).sum ∧ ((l.takeWhile a).map f).sum ≤ (l.map f).sum := by
  induction l with
  | nil => simp
  | cons c rest ih =>
      have hrest : 0 ≤ (rest.map f).sum := List.sum_nonneg (by
        intro x hx
        obtain ⟨i, -, rfl⟩ := List.mem_map.mp hx
        exact hf i)
      by_cases hc : a c = true
      · simp only [List.takeWhile_cons, hc, if_true, List.map_cons, List.sum_cons]
        exact ⟨add_nonneg (hf c) ih.1, add_le_add_left ih.2 _⟩
      · simp only [List.takeWhile_cons, hc, List.map_nil, List.sum_nil, List.map_cons,
          List.sum_cons]
        exact ⟨le_refl _, add_nonneg (hf c) hrest⟩

/-- **C13.** For every baseline `B` and every cleared observation `O` (`O.dist = 0` before
the call) whose probabilities are non-negative with `Σ_c (pf_c + pd_c) ≤ 1` on each side,
the value `SipCalcHellingerDistance` writes to `O.dist`, computed over the reals with the
real square root, satisfies `0 ≤ O.dist ≤ 2`. -/
theorem C13_distance_range (B O : Hd ℝ) (hclear : O.distance_value = 0)
    (hB : ∀ c, 0 ≤ (B.call c).p_freq ∧ 0 ≤ (B.call c).p_dur)
    (hO : ∀ c, 0 ≤ (O.call c).p_freq ∧ 0 ≤ (O.call c).p_dur)
    (hBsum : ∑ c : Fin 6, ((B.call c).p_freq + (B.call c).p_dur) ≤ 1)
    (hOsum : ∑ c : Fin 6, ((O.call c).p_freq + (O.call c).p_dur) ≤ 1) :
    0 ≤ (SipCalcHellingerDistance Real.sqrt B O).distance_value ∧
    (SipCalcHellingerDistance Real.sqrt B O).distance_value ≤ 2 := by
  have hterm : ∀ c : Fin 6,
      0 ≤ specTerm Real.sqrt (B.call c).p_freq (O.call c).p_freq +
        specTerm Real.sqrt (B.call c).p_dur (O.call c).p_dur ∧
      specTerm Real.sqrt (B.call c).p_freq (O.call c).p_freq +
        specTerm Real.sqrt (B.call c).p_dur (O.call c).p_dur ≤
        ((B.call c).p_freq + (B.call c).p_dur) + ((O.call c).p_freq + (O.call c).p_dur) := by
    intro c
    obtain ⟨h1, h2⟩ := specTerm_bounds _ _ (hB c).1 (hO c).1
    obtain ⟨h3, h4⟩ := specTerm_bounds _ _ (hB c).2 (hO c).2
    constructor <;> linarith
  obtain ⟨hlow, hup⟩ := sum_takeWhile_le (fun c => isActive (B.call c))
    (fun c => specTerm Real.sqrt (B.call c).p_freq (O.call c).p_freq +
      specTerm Real.sqrt (B.call c).p_dur (O.call c).p_dur) callIndices
    (fun c => (hterm c).1)
  have hall : (callIndices.map fun c =>
      specTerm Real.sqrt (B.call c).p_freq (O.call c).p_freq +
        specTerm Real.sqrt (B.call c).p_dur (O.call c).p_dur).sum ≤
      (callIndices.map fun c =>
        ((B.call c).p_freq + (B.call c).p_dur) + ((O.call c).p_freq + (O.call c).p_dur)).sum :=
    List.sum_le_sum fun c _ => (hterm c).2
  have hsplit : (callIndices.map fun c =>
        ((B.call c).p_freq + (B.call c).p_dur) + ((O.call c).p_freq + (O.call c).p_dur)).sum =
      ∑ c : Fin 6, ((B.call c).p_freq + (B.call c).p_dur) +
        ∑ c : Fin 6, ((O.call c).p_freq + (O.call c).p_dur) := by
    simp only [callIndices, List.map_cons, List.map_nil, List.sum_cons, List.sum_nil,
      Fin.sum_univ_six]
    ring
  rw [SipCalcHellingerDistance_distance, hclear, zero_add]
  refine ⟨hlow, ?_⟩
  linarith

/-- The observation of ten MOBILE calls has non-negative probabilities that add up to 1. -/
theorem mobileObservation_prob :
    (∀ c, 0 ≤ ((mobileObservation ℝ).call c).p_freq ∧ 0 ≤ ((mobileObservation ℝ).call c).p_dur) ∧
    ∑ c : Fin 6, (((mobileObservation ℝ).call c).p_freq +
      ((mobileObservation ℝ).call c).p_dur) ≤ 1 := by
  constructor
  · intro c
    simp only [mobileObservation]
    split_ifs <;> norm_num
  · have h2 : ¬ (2 : Fin 6) = 1 := by decide
    have h3 : ¬ (3 : Fin 6) = 1 := by decide
    have h4 : ¬ (4 : Fin 6) = 1 := by decide
    have h5 : ¬ (5 : Fin 6) = 1 := by decide
    have h0 : ¬ (0 : Fin 6) = 1 := by decide
    simp only [Fin.sum_univ_six, mobileObservation, MOBILE, h0, h2, h3, h4, h5, if_true,
      if_false]
    norm_num

/-- Witness of C13: every call type active, a baseline with zero probabilities and the
observation of ten MOBILE calls of 600 s in all. -/
theorem C13_distance_range_witness :
    0 ≤ (SipCalcHellingerDistance Real.sqrt (configuredBaseline ℝ allTypes 0 0 0)
      (mobileObservation ℝ)).distance_value ∧
    (SipCalcHellingerDistance Real.sqrt (configuredBaseline ℝ allTypes 0 0 0)
      (mobileObservation ℝ)).distance_value ≤ 2 :=
  C13_distance_range (configuredBaseline ℝ allTypes 0 0 0) (mobileObservation ℝ) rfl
    (fun _ => ⟨le_refl _, le_refl _⟩) mobileObservation_prob.1
    (by simp [configuredBaseline]) mobileObservation_prob.2

/-! ## Zero coordinates and the copy of the accepted observation (C14, C15) -/

/-- **C14** fails on the code as stated.  Against a baseline whose probabilities are all
zero, the window of five INTERNATIONAL calls gets the distance 1, not 0: every coordinate
has a zero on the baseline side, and the two coordinates of INTERNATIONAL, non-zero on the
observed side, contribute `5/305` and `300/305`. -/
theorem C14_zero_baseline_side_counts :
    (∀ c, ((configuredBaseline ℝ threeTypes 0 0 0).call c).p_freq = 0 ∧
      ((configuredBaseline ℝ threeTypes 0 0 0).call c).p_dur = 0) ∧
    (hdTesting Real.sqrt (defaultConf ℝ ts_2024_01_16_00h)
      (configuredBaseline ℝ threeTypes 0 0 0) fiveInternational).distance_value = 1 :=
  ⟨fun _ => ⟨rfl, rfl⟩, (fiveInternational_eval 0 0 0).1⟩

/-- **C14, amended.** In one pass of the loop of `SipCalcHellingerDistance` over the reals:
a coordinate whose observed (testing) side is zero contributes zero, whatever the baseline
side, so the pass adds only the term of the other coordinate; a coordinate whose baseline
side is zero while the observed side `q` is positive contributes `(√0 − √q)² = q`. -/
theorem C14_zero_side_contribution (B s : Hd ℝ) (cnt : Fin 6) :
    ((s.call cnt).p_freq = 0 →
      (SipCalcHellingerDistance.body Real.sqrt B cnt s).distance_value =
        s.distance_value + specTerm Real.sqrt (B.call cnt).p_dur (s.call cnt).p_dur) ∧
    ((s.call cnt).p_dur = 0 →
      (SipCalcHellingerDistance.body Real.sqrt B cnt s).distance_value =
        s.distance_value + specTerm Real.sqrt (B.call cnt).p_freq (s.call cnt).p_freq) ∧
    ((B.call cnt).p_freq = 0 → 0 < (s.call cnt).p_freq →
      (SipCalcHellingerDistance.body Real.sqrt B cnt s).distance_value =
        s.distance_value +
          ((s.call cnt).p_freq + specTerm Real.sqrt (B.call cnt).p_dur (s.call cnt).p_dur)) ∧
    ((B.call cnt).p_dur = 0 → 0 < (s.call cnt).p_dur →
      (SipCalcHellingerDistance.body Real.sqrt B cnt s).distance_value =
        s.distance_value +
          (specTerm Real.sqrt (B.call cnt).p_freq (s.call cnt).p_freq + (s.call cnt).p_dur)) := by
  have hzero : ∀ p : ℝ, specTerm Real.sqrt p 0 = 0 := fun p => by simp [specTerm]
  have hbase : ∀ q : ℝ, 0 < q → specTerm Real.sqrt 0 q = q := by
    intro q hq
    simp only [specTerm, if_neg hq.ne', Real.sqrt_zero, zero_sub, neg_sq]
    exact Real.sq_sqrt hq.le
  rw [SipCalcHellingerDistance_body_distance]
  refine ⟨?_, ?_, ?_, ?_⟩
  · intro h0
    rw [h0, hzero, zero_add]
  · intro h0
    rw [h0, hzero, add_zero]
  · intro hB hq
    rw [hB, hbase _ hq]
  · intro hB hq
    rw [hB, hbase _ hq]

/-- Witness of C14 as amended: against a baseline with zero MOBILE probabilities, the
pass over MOBILE of the observation of ten MOBILE calls adds `10/610` for the frequency
coordinate on top of the term of the duration coordinate. -/
theorem C14_zero_side_contribution_witness :
    (SipCalcHellingerDistance.body Real.sqrt (configuredBaseline ℝ allTypes 0 0 0) MOBILE
      (mobileObservation ℝ)).distance_value =
      (mobileObservation ℝ).distance_value +
        (((mobileObservation ℝ).call MOBILE).p_freq +
          specTerm Real.sqrt ((configuredBaseline ℝ allTypes 0 0 0).call MOBILE).p_dur
            ((mobileObservation ℝ).call MOBILE).p_dur) :=
  (C14_zero_side_contribution (configuredBaseline ℝ allTypes 0 0 0) (mobileObservation ℝ)
    MOBILE).2.2.1 rfl (by norm_num [mobileObservation])

/-- **C15** fails on the code.  With MOBILE the only active call type and a baseline whose
`dist_ewma` is 0 (so the gate passes), `SipUpdateHDThreshold` copies nothing for MOBILE:
its copy loop stops at INTERNATIONAL, the first inactive call type.  (1) With the
observation the engine itself builds from ten MOBILE calls (`n_MOBILE = 10`,
`d_MOBILE = 600`), the baseline keeps `n_MOBILE = 0` and `d_MOBILE = 0`.  (2) With the
observation that also carries `pf_MOBILE = 10/610` and `pd_MOBILE = 600/610`, the baseline
keeps `pf_MOBILE = 0` and `pd_MOBILE = 0`. -/
theorem C15_copy_stops_at_first_inactive :
    isActive ((configuredBaseline ℚ mobileOnly 0 0 0).call MOBILE) = true ∧
    (updateGate (defaultConf ℚ ts_2024_01_16_00h) (configuredBaseline ℚ mobileOnly 0 0 0)
        (SipCalcHDProbabilities (configuredBaseline ℚ mobileOnly 0 0 0)
          (defaultConf ℚ ts_2024_01_16_00h)
          (SipGetCallData (CLEAR_HD Hd.uninit) tenMobile)) = true ∧
      ((SipCalcHDProbabilities (configuredBaseline ℚ mobileOnly 0 0 0)
          (defaultConf ℚ ts_2024_01_16_00h)
          (SipGetCallData (CLEAR_HD Hd.uninit) tenMobile)).call MOBILE).num = 10 ∧
      ((SipCalcHDProbabilities (configuredBaseline ℚ mobileOnly 0 0 0)
          (defaultConf ℚ ts_2024_01_16_00h)
          (SipGetCallData (CLEAR_HD Hd.uninit) tenMobile)).call MOBILE).dur = 600 ∧
      ((SipUpdateHDThreshold (defaultConf ℚ ts_2024_01_16_00h)
        (configuredBaseline ℚ mobileOnly 0 0 0)
        (SipCalcHDProbabilities (configuredBaseline ℚ mobileOnly 0 0 0)
          (defaultConf ℚ ts_2024_01_16_00h)
          (SipGetCallData (CLEAR_HD Hd.uninit) tenMobile))).call MOBILE).num = 0 ∧
      ((SipUpdateHDThreshold (defaultConf ℚ ts_2024_01_16_00h)
        (configuredBaseline ℚ mobileOnly 0 0 0)
        (SipCalcHDProbabilities (configuredBaseline ℚ mobileOnly 0 0 0)
          (defaultConf ℚ ts_2024_01_16_00h)
          (SipGetCallData (CLEAR_HD Hd.uninit) tenMobile))).call MOBILE).dur = 0) ∧
    (updateGate (defaultConf ℚ ts_2024_01_16_00h) (configuredBaseline ℚ mobileOnly 0 0 0)
        (mobileObservation ℚ) = true ∧
      ((mobileObservation ℚ).call MOBILE).p_freq = 10 / 610 ∧
      ((mobileObservation ℚ).call MOBILE).p_dur = 600 / 610 ∧
      ((SipUpdateHDThreshold (defaultConf ℚ ts_2024_01_16_00h)
        (configuredBaseline ℚ mobileOnly 0 0 0) (mobileObservation ℚ)).call MOBILE).p_freq = 0 ∧
      ((SipUpdateHDThreshold (defaultConf ℚ ts_2024_01_16_00h)
        (configuredBaseline ℚ mobileOnly 0 0 0) (mobileObservation ℚ)).call MOBILE).p_dur = 0) := by
  refine ⟨?_, ⟨?_, ?_, ?_, ?_, ?_⟩, ⟨?_, ?_, ?_, ?_, ?_⟩⟩ <;>
  simp [SipUpdateHDThreshold, updateGate, SipCalcHDProbabilities, forWhile, callIndices,
    configuredBaseline, mobileOnly, isActive, CALLTYPE_ACTIVE, CALLTYPE_INACTIVE,
    SipGetCallData, SipGetCallData.row, SipGetCallData.total, addCall, CLEAR_HD, strncmpEq,
    MOBILE, tenMobile, probFloorsMet, defaultConf, toU64, mobileObservation]

/-! ## Office hours (C16) -/

/-- One INTERNATIONAL call of 3000 s and four MOBILE calls against a baseline with zero
probabilities, with both floors at 0: the distance is 1, `N = 5`, `n_INTERNATIONAL = 1`,
`d_INTERNATIONAL = 3000`, `d_MOBILE = 240`, and PREMIUM has no call. -/
theorem longInternational_eval (cfg : Conf ℝ) (hf : cfg.call_freq = 0)
    (hd : cfg.call_dur = 0) :
    (hdTesting Real.sqrt cfg (configuredBaseline ℝ threeTypes 0 0 0)
      longInternational).distance_value = 1 ∧
    (hdTesting Real.sqrt cfg (configuredBaseline ℝ threeTypes 0 0 0)
      longInternational).num_total = 5 ∧
    ((hdTesting Real.sqrt cfg (configuredBaseline ℝ threeTypes 0 0 0)
      longInternational).call INTERNATIONAL).num = 1 ∧
    ((hdTesting Real.sqrt cfg (configuredBaseline ℝ threeTypes 0 0 0)
      longInternational).call INTERNATIONAL).dur = 3000 ∧
    ((hdTesting Real.sqrt cfg (configuredBaseline ℝ threeTypes 0 0 0)
      longInternational).call MOBILE).dur = 240 ∧
    ((hdTesting Real.sqrt cfg (configuredBaseline ℝ threeTypes 0 0 0)
      longInternational).call PREMIUM).num = 0 ∧
    ((hdTesting Real.sqrt cfg (configuredBaseline ℝ threeTypes 0 0 0)
      longInternational).call PREMIUM).dur = 0 := by
  refine ⟨?_, ?_, ?_, ?_, ?_, ?_, ?_⟩
  · simp [hdTesting, longInternational, SipGetCallData, SipGetCallData.row,
      SipGetCallData.total, callIndices, addCall, CLEAR_HD, strncmpEq, INTERNATIONAL, MOBILE,
      SipCalcHDProbabilities, SipCalcHDProbabilities.body, SipCalcHellingerDistance,
      SipCalcHellingerDistance.body, forWhile, configuredBaseline, threeTypes, isActive,
      probFloorsMet, hf, hd, toU64, CALLTYPE_ACTIVE, CALLTYPE_INACTIVE]
    simp only [div_pow, Real.sq_sqrt (show (0 : ℝ) ≤ 3000 by norm_num),
      Real.sq_sqrt (show (0 : ℝ) ≤ 3245 by norm_num),
      Real.sq_sqrt (show (0 : ℝ) ≤ 4 by norm_num),
      Real.sq_sqrt (show (0 : ℝ) ≤ 240 by norm_num)]
    norm_num
  all_goals
    simp [hdTesting, longInternational, SipGetCallData, SipGetCallData.row,
      SipGetCallData.total, callIndices, addCall, CLEAR_HD, strncmpEq, INTERNATIONAL, MOBILE,
      PREMIUM, SipCalcHDProbabilities, SipCalcHDProbabilities.body, SipCalcHellingerDistance,
      SipCalcHellingerDistance.body, forWhile, configuredBaseline, threeTypes, isActive,
      probFloorsMet, hf, hd, toU64, CALLTYPE_ACTIVE, CALLTYPE_INACTIVE]

/-- **C16** fails on the code.  (1) When `office-time.start_time` is configured as `s`
(and `office-time.end_time` as `e`), the stored value is `s − 1` and hour `h` is office
time exactly when `s ≤ h < e`.  (2) When the keys are absent, the stored start is the
default 8 itself, without the `− 1`: hour 8 is not office time (hour 9 is, hour 16 is
not).  (3) At 08:00, against a baseline with threshold 0, a window with one INTERNATIONAL
call of 3000 s (more than `DUR_INTERNATIONAL = 2400` s) among five calls is judged by the
off-hours conditions and returns `FALSE` with no office-time key configured; with
`office-time.start_time = 8` configured it is judged by the office-hours conditions and
returns `TRUE`. -/
theorem C16_default_start_hour_not_office :
    (∀ (cfg : Conf ℝ) (s e h : Int),
      officeHours (SipAnomalyInitConfValues.officeTime (some s) (some e) cfg) h = true ↔
        s ≤ h ∧ h < e) ∧
    (∀ cfg : Conf ℝ,
      officeHours (SipAnomalyInitConfValues.officeTime none none cfg) 8 = false ∧
      officeHours (SipAnomalyInitConfValues.officeTime none none cfg) 9 = true ∧
      officeHours (SipAnomalyInitConfValues.officeTime none none cfg) 16 = false) ∧
    (SipAnomalyDetection Real.sqrt
        (SipAnomalyInitConfValues.officeTime none none (defaultConf ℝ ts_2024_01_16_00h))
        (constSource longInternational)
        (engineAt (configuredBaseline ℝ threeTypes 0 0 0) ts_2024_01_15_08h)).ret = FALSE ∧
    (SipAnomalyDetection Real.sqrt
        (SipAnomalyInitConfValues.officeTime (some 8) none (defaultConf ℝ ts_2024_01_16_00h))
        (constSource longInternational)
        (engineAt (configuredBaseline ℝ threeTypes 0 0 0) ts_2024_01_15_08h)).ret = TRUE := by
  refine ⟨?_, ?_, ?_, ?_⟩
  · intro cfg s e h
    simp only [officeHours, SipAnomalyInitConfValues.officeTime, Bool.and_eq_true,
      decide_eq_true_eq]
    constructor <;> rintro ⟨h1, h2⟩ <;> exact ⟨by omega, h2⟩
  · intro cfg
    simp [officeHours, SipAnomalyInitConfValues.officeTime, DEFAULT_START_TIME,
      DEFAULT_END_TIME]
  · obtain ⟨hdist, hN, hnI, hdI, hdM, hnP, hdP⟩ := longInternational_eval
      (SipAnomalyInitConfValues.officeTime none none (defaultConf ℝ ts_2024_01_16_00h)) rfl rfl
    rw [SipAnomalyDetection_ret Real.sqrt _ _ _ longInternational rfl
      (SipUpdateTimeStamp_ok_of_le _ _ _ (by decide))]
    refine (anomalyDecision_fst_cases _ _ _ _).resolve_left ?_
    rw [anomalyDecision_alert_iff, otherTypesFlagged_hdTesting]
    have hoff : officeHours
        (SipAnomalyInitConfValues.officeTime none none (defaultConf ℝ ts_2024_01_16_00h))
        (tm_hour (snapDetectStart (engineAt (configuredBaseline ℝ threeTypes 0 0 0)
          ts_2024_01_15_08h)).current_time) = false := by decide
    rw [hoff]
    simp only [offHoursCond, engineAt, hN, hnI, hdM, hnP]
    simp [SipAnomalyInitConfValues.officeTime, defaultConf, toU32]
    intro _
    norm_num
  · obtain ⟨hdist, hN, hnI, hdI, hdM, hnP, hdP⟩ := longInternational_eval
      (SipAnomalyInitConfValues.officeTime (some 8) none (defaultConf ℝ ts_2024_01_16_00h))
      rfl rfl
    rw [SipAnomalyDetection_ret Real.sqrt _ _ _ longInternational rfl
      (SipUpdateTimeStamp_ok_of_le _ _ _ (by decide)), anomalyDecision_alert_iff]
    refine ⟨?_, Or.inl ⟨by decide, Or.inl ?_⟩⟩
    · show (hdTesting Real.sqrt _ (configuredBaseline ℝ threeTypes 0 0 0)
        longInternational).distance_value > 0
      rw [hdist]; norm_num
    · simp only [officeCond, Bool.or_eq_true, decide_eq_true_eq]
      refine Or.inl (Or.inl (Or.inl (Or.inr ?_)))
      show ((hdTesting Real.sqrt _ (configuredBaseline ℝ threeTypes 0 0 0)
        longInternational).call INTERNATIONAL).dur > toU32 2400
      rw [hdI]
      decide

/-! ## The window clock (C17, C18) -/

/-- The snap keeps the text and the fields of the cursor equal. -/
theorem snapDetectStart_sync {K : Type} (eng : Engine K)
    (hsync : eng.last_transaction_ts = eng.current_time) :
    (snapDetectStart eng).last_transaction_ts = (snapDetectStart eng).current_time := by
  unfold snapDetectStart
  split
  · split
    · rfl
    · exact hsync
  · exact hsync

/-- The snap leaves the field `tm_isdst` as it was. -/
theorem snapDetectStart_isdst {K : Type} (eng : Engine K) :
    (snapDetectStart eng).tm_isdst = eng.tm_isdst := by
  unfold snapDetectStart
  split
  · split <;> rfl
  · rfl

/-- The clock fields that `SipAnomalyDetection` leaves when the fetch succeeds are those
`SipUpdateTimeStamp` leaves from the snapped cursor. -/
theorem SipAnomalyDetection_clock {K : Type} [LinearOrderedField K] (sqrt : K → K)
    (cfg : Conf K) (cdr : CdrSource) (eng : Engine K) (rows : List CdrRow)
    (hfetch : cdr (snapDetectStart eng).last_transaction_ts cfg.interval = some rows) :
    (SipAnomalyDetection sqrt cfg cdr eng).eng.current_time =
      (SipUpdateTimeStamp cfg (snapDetectStart eng) cfg.interval).2.current_time ∧
    (SipAnomalyDetection sqrt cfg cdr eng).eng.last_transaction_ts =
      (SipUpdateTimeStamp cfg (snapDetectStart eng) cfg.interval).2.last_transaction_ts ∧
    (SipAnomalyDetection sqrt cfg cdr eng).eng.previous_ts =
      (SipUpdateTimeStamp cfg (snapDetectStart eng) cfg.interval).2.previous_ts ∧
    (SipAnomalyDetection sqrt cfg cdr eng).eng.detect_start_ts =
      (snapDetectStart eng).detect_start_ts ∧
    (SipAnomalyDetection sqrt cfg cdr eng).result = some rows := by
  unfold SipAnomalyDetection
  simp only [hfetch]
  unfold SipUpdateTimeStamp
  dsimp only
  split_ifs <;> exact ⟨rfl, rfl, rfl, rfl, rfl⟩

/-- The field `tm_isdst` and the instant of the cursor that `SipAnomalyDetection` leaves
when the fetch succeeds are those `SipUpdateTimeStamp` leaves from the snapped cursor. -/
theorem SipAnomalyDetection_instant {K : Type} [LinearOrderedField K] (sqrt : K → K)
    (cfg : Conf K) (cdr : CdrSource) (eng : Engine K) (rows : List CdrRow)
    (hfetch : cdr (snapDetectStart eng).last_transaction_ts cfg.interval = some rows) :
    (SipAnomalyDetection sqrt cfg cdr eng).eng.tm_isdst =
      (SipUpdateTimeStamp cfg (snapDetectStart eng) cfg.interval).2.tm_isdst ∧
    instant cfg (SipAnomalyDetection sqrt cfg cdr eng).eng =
      instant cfg (SipUpdateTimeStamp cfg (snapDetectStart eng) cfg.interval).2 := by
  unfold SipAnomalyDetection instant
  simp only [hfetch]
  unfold SipUpdateTimeStamp
  dsimp only
  split_ifs <;> exact ⟨rfl, rfl⟩

/-- The alert notification that `main` makes for a detection pass which returns `TRUE`
carries the rows and the cursor of the window that pass aggregated: `previous_ts` holds
the text the query was made with. -/
theorem mainDetectionTick_alert_label {K : Type} [LinearOrderedField K] (sqrt : K → K)
    (cfg : Conf K) (cdr : CdrSource) (exec_ok : Bool) (w : World K)
    (halert : (SipAnomalyDetection sqrt cfg cdr w.eng).ret = TRUE) :
    ∃ rows, cdr (snapDetectStart w.eng).last_transaction_ts cfg.interval = some rows ∧
      (mainDetectionTick sqrt cfg cdr exec_ok w).2.alerts =
        w.alerts ++
          [{ ts := some (snapDetectStart w.eng).last_transaction_ts, rows := rows }] := by
  cases hfetch : cdr (snapDetectStart w.eng).last_transaction_ts cfg.interval with
  | none =>
      have herr : (SipAnomalyDetection sqrt cfg cdr w.eng).ret = SIP_ERROR := by
        unfold SipAnomalyDetection
        simp only [hfetch]
      rw [herr] at halert
      exact absurd halert (by decide)
  | some rows =>
      obtain ⟨hret, -⟩ := SipAnomalyDetection_of_fetch sqrt cfg cdr w.eng rows hfetch
      obtain ⟨-, -, hprev, -, hres⟩ := SipAnomalyDetection_clock sqrt cfg cdr w.eng rows hfetch
      have hok : (SipUpdateTimeStamp cfg (snapDetectStart w.eng) cfg.interval).1 = SIP_OK := by
        rcases (SipUpdateTimeStamp_done_iff cfg (snapDetectStart w.eng) cfg.interval).2.2
          with hd | hk
        · rw [hret, if_pos hd] at halert
          exact absurd halert (by decide)
        · exact hk
      rw [SipUpdateTimeStamp_of_ok cfg _ cfg.interval hok] at hprev
      refine ⟨rows, rfl, ?_⟩
      unfold mainDetectionTick
      dsimp only
      rw [if_neg (by rw [halert]; decide), if_neg (by rw [halert]; decide), if_pos halert]
      simp only [SipGetTimeStamp, hprev, hres, Option.getD_some]

/-- Scenario 3 of the specification as a tick: `SipAnomalyDetection` returns `TRUE`. -/
theorem mobile4000_tick :
    (SipAnomalyDetection Real.sqrt (defaultConf ℝ ts_2024_01_16_00h)
      (constSource [⟨"MOBILE", 4000⟩])
      (worldAt (configuredBaseline ℝ threeTypes (2 / 100) (1 / 100) (29 / 1000))
        ts_2024_01_15_10h).eng).ret = TRUE := by
  rw [SipAnomalyDetection_ret Real.sqrt _ _ _ [⟨"MOBILE", 4000⟩] rfl
    (SipUpdateTimeStamp_ok_of_le _ _ _ (by decide))]
  exact mobile4000_decision

/-- **C17** fails on the code.  A process whose time zone is `Europe/Oslo`, offline with
`ending-date = 2024-07-16 00:00:00`, `interval = 10`, the cursor at `2024-07-15 10:00:00`
as `strptime` has just parsed it into the static `current_time`, whose `tm_isdst` is still
zero.  (1) The call `SipUpdateTimeStamp(10)` returns `SIP_OK` and leaves the cursor at
`11:10:00`, seventy minutes after the cursor before and not ten: `mktime` reads `10:00:00`
with `tm_isdst = 0` as standard time, which is `11:00:00` on the clock of that day.
(2) `SipGetTimeStamp` then returns `10:00:00`, the cursor before the advance.  (3) The next
call moves the cursor by ten minutes, to `11:20:00`.  (4) The run starts that way:
with `initial-timestamp = 2024-07-15 10:00:00`, `SipTrainingInitThreshold` queries the
windows `10:00:00` and `11:10:00`.  (5) In a process whose time zone is UTC the same call
leaves the cursor at `10:10:00`. -/
theorem C17_stale_dst_flag_adds_an_hour :
    (SipUpdateTimeStamp (osloConf ℚ ts_2024_07_16_00h)
      (engineAt (configuredBaseline ℚ allTypes 0 0 0) ts_2024_07_15_10h) 10).1 = SIP_OK ∧
    (SipUpdateTimeStamp (osloConf ℚ ts_2024_07_16_00h)
      (engineAt (configuredBaseline ℚ allTypes 0 0 0) ts_2024_07_15_10h)
        10).2.last_transaction_ts = ts_2024_07_15_10h + 60 * 70 ∧
    SipGetTimeStamp (SipUpdateTimeStamp (osloConf ℚ ts_2024_07_16_00h)
      (engineAt (configuredBaseline ℚ allTypes 0 0 0) ts_2024_07_15_10h) 10).2 =
        some ts_2024_07_15_10h ∧
    (SipUpdateTimeStamp (osloConf ℚ ts_2024_07_16_00h)
      (SipUpdateTimeStamp (osloConf ℚ ts_2024_07_16_00h)
        (engineAt (configuredBaseline ℚ allTypes 0 0 0) ts_2024_07_15_10h) 10).2
        10).2.last_transaction_ts = ts_2024_07_15_10h + 60 * 80 ∧
    (SipTrainingInitThreshold Real.sqrt (osloConf ℝ ts_2024_07_16_00h) (constSource tenMobile)
      (some ts_2024_07_15_10h) none
      (freshEngine ℝ allTypes ts_2024_07_15_10h none)).queries =
        [ts_2024_07_15_10h, ts_2024_07_15_10h + 60 * 70] ∧
    (SipUpdateTimeStamp (defaultConf ℚ ts_2024_07_16_00h)
      (engineAt (configuredBaseline ℚ allTypes 0 0 0) ts_2024_07_15_10h)
        10).2.last_transaction_ts = ts_2024_07_15_10h + 60 * 10 := by
  refine ⟨by decide, by decide, by decide, by decide, by decide, by decide⟩

/-- The snap is one-shot: taking it twice is taking it once. -/
theorem snapDetectStart_idem {K : Type} (eng : Engine K) :
    snapDetectStart (snapDetectStart eng) = snapDetectStart eng := by
  unfold snapDetectStart
  cases hts : eng.detect_start_ts with
  | none => simp only [hts]
  | some ts =>
      by_cases hfl : eng.hd_detection.flags &&& THRESHOLD_RESTORED = 0
      · simp only [hfl, if_true]
      · simp only [hfl, if_false, hts]

/-- The function `SipAnomalyDetection` sees its engine only through the snapped one. -/
theorem SipAnomalyDetection_snap {K : Type} [LinearOrderedField K] (sqrt : K → K)
    (cfg : Conf K) (cdr : CdrSource) (eng : Engine K) :
    SipAnomalyDetection sqrt cfg cdr (snapDetectStart eng) =
      SipAnomalyDetection sqrt cfg cdr eng := by
  unfold SipAnomalyDetection
  rw [snapDetectStart_idem]

/-- The baseline flags that the decision leaves are those it found. -/
theorem anomalyDecision_flags {K : Type} [LinearOrderedField K] (cfg : Conf K) (B O : Hd K)
    (hour : Int) : (anomalyDecision cfg B O hour).2.flags = B.flags := by
  rw [anomalyDecision_snd]
  split_ifs
  · unfold SipUpdateHDThreshold
    split_ifs
    · exact (updateLoop_frame O callIndices _).2.2.2.2.2
    · rfl
  · rfl

/-- A `detection-start-ts` that survives the snap belongs to a restored baseline. -/
theorem snapDetectStart_ts_some {K : Type} (eng : Engine K) (t : Int)
    (hts : (snapDetectStart eng).detect_start_ts = some t) :
    eng.hd_detection.flags &&& THRESHOLD_RESTORED ≠ 0 := by
  intro hfl
  unfold snapDetectStart at hts
  cases hd : eng.detect_start_ts with
  | none =>
      rw [hd] at hts
      exact absurd (hd.symm.trans hts) (by simp)
  | some ts =>
      rw [hd] at hts
      simp only [hfl, if_true] at hts
      exact absurd hts (by simp)

/-- An engine with a restored baseline, or without `detection-start-ts`, is not snapped. -/
theorem snapDetectStart_eq_self {K : Type} (e : Engine K)
    (h : e.detect_start_ts = none ∨ e.hd_detection.flags &&& THRESHOLD_RESTORED ≠ 0) :
    snapDetectStart e = e := by
  unfold snapDetectStart
  cases hd : e.detect_start_ts with
  | none => rfl
  | some ts =>
      rcases h with h | h
      · exact absurd (h.symm.trans hd) (by simp)
      · simp only [h, if_false]

/-- After `SipAnomalyDetection` no snap is left to take. -/
theorem snapDetectStart_after_tick {K : Type} [LinearOrderedField K] (sqrt : K → K)
    (cfg : Conf K) (cdr : CdrSource) (eng : Engine K) :
    snapDetectStart (SipAnomalyDetection sqrt cfg cdr eng).eng =
      (SipAnomalyDetection sqrt cfg cdr eng).eng := by
  have hts : (SipAnomalyDetection sqrt cfg cdr eng).eng.detect_start_ts =
      (snapDetectStart eng).detect_start_ts := by
    unfold SipAnomalyDetection
    dsimp only
    split
    · rfl
    · unfold SipUpdateTimeStamp
      dsimp only
      split_ifs <;> rfl
  have hfl : (SipAnomalyDetection sqrt cfg cdr eng).eng.hd_detection.flags =
      eng.hd_detection.flags := by
    unfold SipAnomalyDetection
    dsimp only
    split
    · exact congrArg Hd.flags (snapDetectStart_hd eng)
    · rename_i rows _
      have hd := anomalyDecision_flags cfg (snapDetectStart eng).hd_detection
        (hdTesting sqrt cfg (snapDetectStart eng).hd_detection rows)
        (tm_hour (snapDetectStart eng).current_time)
      have hd2 := hd.trans (congrArg Hd.flags (snapDetectStart_hd eng))
      unfold SipUpdateTimeStamp
      dsimp only
      split_ifs <;> exact hd2
  apply snapDetectStart_eq_self
  cases hd : (SipAnomalyDetection sqrt cfg cdr eng).eng.detect_start_ts with
  | none => exact Or.inl rfl
  | some t =>
      right
      rw [hfl]
      exact snapDetectStart_ts_some eng t (hts.symm.trans hd)

/-- A pass of the detection loop whose cursor is not later than `complete_time` (as
instants), with a successful fetch and a successful insert: the loop goes on, the cursor
stands at the local time `interval` minutes after the instant of the queried one, and
exactly one alert or one checkpoint was added. -/
theorem mainDetectionTick_next {K : Type} [LinearOrderedField K] (sqrt : K → K)
    (cfg : Conf K) (cdr : CdrSource) (w : World K) (rows : List CdrRow)
    (hfetch : cdr (snapDetectStart w.eng).last_transaction_ts cfg.interval = some rows)
    (hle : instant cfg (snapDetectStart w.eng) ≤ cfg.complete_time) :
    (mainDetectionTick sqrt cfg cdr true w).1 = Ctl.next ∧
    instant cfg (mainDetectionTick sqrt cfg cdr true w).2.eng =
      instant cfg (snapDetectStart w.eng) + 60 * cfg.interval ∧
    (mainDetectionTick sqrt cfg cdr true w).2.eng.last_transaction_ts =
      (localtime cfg.tz (instant cfg (snapDetectStart w.eng) + 60 * cfg.interval)).1 ∧
    (mainDetectionTick sqrt cfg cdr true w).2.alerts.length +
        (mainDetectionTick sqrt cfg cdr true w).2.thresholds.length =
      w.alerts.length + w.thresholds.length + 1 := by
  have hok := SipUpdateTimeStamp_ok_of_le cfg (snapDetectStart w.eng) cfg.interval hle
  have hret := SipAnomalyDetection_ret sqrt cfg cdr w.eng rows hfetch hok
  obtain ⟨-, hts, -, -, -⟩ := SipAnomalyDetection_clock sqrt cfg cdr w.eng rows hfetch
  obtain ⟨-, hin⟩ := SipAnomalyDetection_instant sqrt cfg cdr w.eng rows hfetch
  rw [(SipUpdateTimeStamp_instant cfg _ cfg.interval).1 hok] at hin
  rw [SipUpdateTimeStamp_of_ok cfg _ cfg.interval hok] at hts
  refine ⟨?_, by rw [mainDetectionTick_eng, hin], by rw [mainDetectionTick_eng, hts], ?_⟩
  · unfold mainDetectionTick SipAnomalyStoreThreshold
    dsimp only
    rcases anomalyDecision_fst_cases cfg w.eng.hd_detection
      (hdTesting sqrt cfg w.eng.hd_detection rows)
      (tm_hour (snapDetectStart w.eng).current_time) with h | h
    · rw [hret, h]
      simp [TRUE, SIP_ERROR, SIP_DONE]
    · rw [hret, h]
      simp [TRUE, FALSE, SIP_ERROR, SIP_DONE, SIP_OK]
  · unfold mainDetectionTick SipAnomalyStoreThreshold
    dsimp only
    rcases anomalyDecision_fst_cases cfg w.eng.hd_detection
      (hdTesting sqrt cfg w.eng.hd_detection rows)
      (tm_hour (snapDetectStart w.eng).current_time) with h | h
    · rw [hret, h]
      simp [TRUE, SIP_ERROR, SIP_DONE]
      omega
    · rw [hret, h]
      simp [TRUE, FALSE, SIP_ERROR, SIP_DONE, SIP_OK]
      omega

/-- A pass of the detection loop in offline mode whose cursor is later than
`complete_time` (as instants), with a successful fetch: the window is queried, the loop
ends with `SIP_DONE`, and neither an alert nor a checkpoint is added; the text and the
instant of the cursor stay. -/
theorem mainDetectionTick_done {K : Type} [LinearOrderedField K] (sqrt : K → K)
    (cfg : Conf K) (cdr : CdrSource) (exec_ok : Bool) (w : World K) (rows : List CdrRow)
    (hoff : cfg.run_mode &&& SIP_RUN_MODE_OFFLINE ≠ 0)
    (hfetch : cdr (snapDetectStart w.eng).last_transaction_ts cfg.interval = some rows)
    (hgt : instant cfg (snapDetectStart w.eng) > cfg.complete_time) :
    (mainDetectionTick sqrt cfg cdr exec_ok w).1 = Ctl.done ∧
    instant cfg (mainDetectionTick sqrt cfg cdr exec_ok w).2.eng =
      instant cfg (snapDetectStart w.eng) ∧
    (mainDetectionTick sqrt cfg cdr exec_ok w).2.eng.last_transaction_ts =
      (snapDetectStart w.eng).last_transaction_ts ∧
    (mainDetectionTick sqrt cfg cdr exec_ok w).2.alerts = w.alerts ∧
    (mainDetectionTick sqrt cfg cdr exec_ok w).2.thresholds = w.thresholds := by
  obtain ⟨hiff, hsame, -⟩ := SipUpdateTimeStamp_done_iff cfg (snapDetectStart w.eng) cfg.interval
  have hdone := hiff.mpr ⟨hoff, hgt⟩
  have hret : (SipAnomalyDetection sqrt cfg cdr w.eng).ret = SIP_DONE := by
    rw [(SipAnomalyDetection_of_fetch sqrt cfg cdr w.eng rows hfetch).1, if_pos hdone]
  obtain ⟨-, hts, -, -, -⟩ := SipAnomalyDetection_clock sqrt cfg cdr w.eng rows hfetch
  obtain ⟨-, hin⟩ := SipAnomalyDetection_instant sqrt cfg cdr w.eng rows hfetch
  rw [(SipUpdateTimeStamp_instant cfg _ cfg.interval).2 hdone] at hin
  rw [hsame hdone] at hts
  refine ⟨?_, by rw [mainDetectionTick_eng, hin], by rw [mainDetectionTick_eng, hts], ?_, ?_⟩
  · unfold mainDetectionTick
    dsimp only
    rw [hret]
    simp [SIP_ERROR, SIP_DONE]
  · exact mainDetectionTick_alerts_of_quiet sqrt cfg cdr exec_ok w (by rw [hret]; decide)
  · rw [mainDetectionTick_thresholds, if_pos (Or.inr (Or.inl hret))]

/-- The engine that `mainDetectionTick` leaves has no snap left to take. -/
theorem snapDetectStart_mainDetectionTick {K : Type} [LinearOrderedField K] (sqrt : K → K)
    (cfg : Conf K) (cdr : CdrSource) (exec_ok : Bool) (w : World K) :
    snapDetectStart (mainDetectionTick sqrt cfg cdr exec_ok w).2.eng =
      (mainDetectionTick sqrt cfg cdr exec_ok w).2.eng := by
  rw [mainDetectionTick_eng]
  exact snapDetectStart_after_tick sqrt cfg cdr w.eng

/-- The offline detection loop from a cursor at the instant `c` with `complete_time +
interval minutes = c + j * interval minutes`: it ends with `SIP_DONE` after `j + 1` calls
of `SipAnomalyDetection`, which query the window at the text of the cursor and then the
windows at the local times of `c + interval`, ..., `c + j * interval`; `j` of the calls add
an alert or a checkpoint. -/
theorem mainOfflineLoop_done {K : Type} [LinearOrderedField K] (sqrt : K → K)
    (cfg : Conf K) (cdr : CdrSource) (exec_ok : Nat → Bool)
    (hoff : cfg.run_mode &&& SIP_RUN_MODE_OFFLINE ≠ 0) (hint : 1 ≤ cfg.interval)
    (hcdr : ∀ ts, ∃ rows, cdr ts cfg.interval = some rows)
    (hexec : ∀ n, exec_ok n = true) :
    ∀ (j fuel pass : Nat) (w : World K),
      cfg.complete_time + 60 * cfg.interval =
        instant cfg (snapDetectStart w.eng) + 60 * cfg.interval * (j : Int) →
      j + 1 ≤ fuel →
      ∃ w', mainOfflineLoop sqrt cfg cdr exec_ok fuel pass w =
          some (Ctl.done,
            queriedWindow w.eng ::
              (List.range j).map (fun i : Nat =>
                (localtime cfg.tz (instant cfg (snapDetectStart w.eng) +
                  60 * cfg.interval * ((i : Int) + 1))).1),
            w') ∧
        instant cfg w'.eng = cfg.complete_time + 60 * cfg.interval ∧
        w'.eng.last_transaction_ts =
          (if j = 0 then queriedWindow w.eng
            else (localtime cfg.tz (cfg.complete_time + 60 * cfg.interval)).1) ∧
        w'.alerts.length + w'.thresholds.length = w.alerts.length + w.thresholds.length + j := by
  intro j
  induction j with
  | zero =>
      intro fuel pass w hend hfuel
      obtain ⟨f, rfl⟩ : ∃ f, fuel = f + 1 := ⟨fuel - 1, by omega⟩
      obtain ⟨rows, hfetch⟩ := hcdr (snapDetectStart w.eng).last_transaction_ts
      simp only [Nat.cast_zero, mul_zero, add_zero] at hend
      have hgt : instant cfg (snapDetectStart w.eng) > cfg.complete_time := by omega
      obtain ⟨h1, h2, h3, h4, h5⟩ :=
        mainDetectionTick_done sqrt cfg cdr (exec_ok pass) w rows hoff hfetch hgt
      refine ⟨(mainDetectionTick sqrt cfg cdr (exec_ok pass) w).2, ?_, ?_, ?_, ?_⟩
      · simp only [mainOfflineLoop, h1, List.range_zero, List.map_nil]
      · rw [h2, hend]
      · rw [h3, if_pos rfl]
        rfl
      · rw [h4, h5]
        rfl
  | succ j ih =>
      intro fuel pass w hend hfuel
      obtain ⟨f, rfl⟩ : ∃ f, fuel = f + 1 := ⟨fuel - 1, by omega⟩
      obtain ⟨rows, hfetch⟩ := hcdr (snapDetectStart w.eng).last_transaction_ts
      have hprod : 0 ≤ 60 * cfg.interval * (j : Int) :=
        mul_nonneg (by omega) (Int.ofNat_nonneg j)
      have hcast : 60 * cfg.interval * ((j + 1 : Nat) : Int) =
          60 * cfg.interval * (j : Int) + 60 * cfg.interval := by
        push_cast
        ring
      have hle : instant cfg (snapDetectStart w.eng) ≤ cfg.complete_time := by
        rw [hcast] at hend
        linarith
      have hnext := mainDetectionTick_next sqrt cfg cdr w rows hfetch hle
      rw [← hexec pass] at hnext
      obtain ⟨h1, h2, h3, h4⟩ := hnext
      have hsnap := snapDetectStart_mainDetectionTick sqrt cfg cdr (exec_ok pass) w
      have hend2 : cfg.complete_time + 60 * cfg.interval =
          instant cfg (snapDetectStart (mainDetectionTick sqrt cfg cdr (exec_ok pass) w).2.eng) +
            60 * cfg.interval * (j : Int) := by
        rw [hsnap, h2]
        rw [hcast] at hend
        linarith
      have hq2 : queriedWindow (mainDetectionTick sqrt cfg cdr (exec_ok pass) w).2.eng =
          (localtime cfg.tz (instant cfg (snapDetectStart w.eng) + 60 * cfg.interval)).1 := by
        unfold queriedWindow
        rw [hsnap, h3]
      obtain ⟨w', hloop, hcur, htext, hlen⟩ := ih f (pass + 1)
        (mainDetectionTick sqrt cfg cdr (exec_ok pass) w).2 hend2 (by omega)
      refine ⟨w', ?_, hcur, ?_, by rw [hlen, h4]; omega⟩
      · rw [hsnap, h2, hq2] at hloop
        simp only [mainOfflineLoop, h1, hloop, Option.map_some']
        rw [List.range_succ_eq_map j, List.map_cons, List.map_map]
        refine congrArg some (congrArg (Prod.mk Ctl.done) (congrArg (fun l => Prod.mk l w') ?_))
        refine congrArg (List.cons _) (congr (congrArg List.cons ?_) (List.map_congr_left ?_))
        · simp only [Nat.cast_zero, zero_add, mul_one]
        · intro i _
          simp only [Function.comp, Nat.succ_eq_add_one]
          push_cast
          ring_nf
      · rw [if_neg (Nat.succ_ne_zero j), htext]
        split_ifs with hj
        · subst hj
          rw [hq2]
          simp only [Nat.cast_zero, mul_zero, add_zero, zero_add, Nat.cast_one, mul_one] at hend
          rw [hend]
        · rfl

/-- **C19** fails on the code as stated.  Scenario 6 of the specification, time zone UTC:
offline mode, `complete_time = 2024-01-15 11:00:00`, `interval = 10`, cursor at
`2024-01-15 10:00:00`, every window holding ten MOBILE calls.  The detection loop calls
`SipAnomalyDetection` eight times, not seven: the calls query the windows `10:00`, `10:10`,
..., `11:00` and also `11:10`, which is later than `complete_time`; only the eighth call
reports `SIP_DONE`, and seven of the calls add an alert or a checkpoint. -/
theorem C19_eighth_window_is_queried :
    ∃ w', mainOfflineLoop Real.sqrt (defaultConf ℝ ts_2024_01_15_11h) (constSource tenMobile)
        (fun _ => true) 8 0
        (worldAt (configuredBaseline ℝ threeTypes (2 / 100) (1 / 100) (29 / 1000))
          ts_2024_01_15_10h) =
      some (Ctl.done,
        [ts_2024_01_15_10h, ts_2024_01_15_10h + 600, ts_2024_01_15_10h + 1200,
          ts_2024_01_15_10h + 1800, ts_2024_01_15_10h + 2400, ts_2024_01_15_10h + 3000,
          ts_2024_01_15_11h, ts_2024_01_15_11h + 600], w') ∧
      w'.eng.last_transaction_ts = ts_2024_01_15_11h + 600 ∧
      w'.alerts.length + w'.thresholds.length = 7 := by
  obtain ⟨w', hloop, -, htext, hlen⟩ :=
    mainOfflineLoop_done Real.sqrt (defaultConf ℝ ts_2024_01_15_11h) (constSource tenMobile)
      (fun _ => true) (by decide) (by decide) (fun _ => ⟨tenMobile, rfl⟩) (fun _ => rfl)
      7 8 0
      (worldAt (configuredBaseline ℝ threeTypes (2 / 100) (1 / 100) (29 / 1000))
        ts_2024_01_15_10h)
      (by decide) (by decide)
  refine ⟨w', ?_, ?_, hlen⟩
  · rw [hloop]
    refine congrArg some (congrArg (Prod.mk Ctl.done) (congrArg (fun l => Prod.mk l w') ?_))
    decide
  · rw [htext]
    decide

/-- **C19, amended.** In offline mode, for every `k ≥ 0` and `interval ≥ 1`, when the
detection loop starts with `complete_time` equal to the instant of the cursor plus
`k * interval` minutes (the cursor being the one left by the one-shot snap, if it is still
to be taken; `instant` is what `mktime` returns for `current_time`), every fetch and every
insert succeeding, the loop calls `SipAnomalyDetection` exactly `k + 2` times and then ends
with `SIP_DONE`.  The first call queries the window at the text of the cursor, and the call
after `i` advances queries the window at the local time `i * interval` minutes after the
instant of the cursor, the last of them later than `complete_time`; exactly `k + 1` of the
calls add an alert or a checkpoint, and the cursor is left `interval` minutes after
`complete_time`.  When the text and the struct of the cursor agree and the `tm_isdst` of
the struct is the flag in force at each of these instants, the windows queried are
`cursor`, `cursor + interval`, ..., `cursor + (k + 1) * interval`. -/
theorem C19_offline_loop_calls {K : Type} [LinearOrderedField K] (sqrt : K → K)
    (cfg : Conf K) (cdr : CdrSource) (exec_ok : Nat → Bool) (k fuel pass : Nat) (w : World K)
    (hoff : cfg.run_mode &&& SIP_RUN_MODE_OFFLINE ≠ 0) (hint : 1 ≤ cfg.interval)
    (hcdr : ∀ ts, ∃ rows, cdr ts cfg.interval = some rows)
    (hexec : ∀ n, exec_ok n = true)
    (hend : cfg.complete_time =
      instant cfg (snapDetectStart w.eng) + 60 * cfg.interval * (k : Int))
    (hfuel : k + 2 ≤ fuel) :
    ∃ w', mainOfflineLoop sqrt cfg cdr exec_ok fuel pass w =
        some (Ctl.done,
          queriedWindow w.eng ::
            (List.range (k + 1)).map (fun i : Nat =>
              (localtime cfg.tz (instant cfg (snapDetectStart w.eng) +
                60 * cfg.interval * ((i : Int) + 1))).1),
          w') ∧
      instant cfg w'.eng = cfg.complete_time + 60 * cfg.interval ∧
      w'.eng.last_transaction_ts =
        (localtime cfg.tz (cfg.complete_time + 60 * cfg.interval)).1 ∧
      w'.alerts.length + w'.thresholds.length =
        w.alerts.length + w.thresholds.length + (k + 1) ∧
      ((snapDetectStart w.eng).last_transaction_ts = (snapDetectStart w.eng).current_time →
        (∀ i : Nat, i ≤ k + 1 →
          cfg.tz.isdst (instant cfg (snapDetectStart w.eng) + 60 * cfg.interval * (i : Int)) =
            (snapDetectStart w.eng).tm_isdst) →
        queriedWindow w.eng ::
            (List.range (k + 1)).map (fun i : Nat =>
              (localtime cfg.tz (instant cfg (snapDetectStart w.eng) +
                60 * cfg.interval * ((i : Int) + 1))).1) =
          (List.range (k + 2)).map
            (fun i : Nat =>
              (snapDetectStart w.eng).current_time + 60 * cfg.interval * (i : Int))) := by
  obtain ⟨w', hloop, hcur, htext, hlen⟩ :=
    mainOfflineLoop_done sqrt cfg cdr exec_ok hoff hint hcdr hexec (k + 1) fuel pass w
      (by rw [hend]; push_cast; ring) hfuel
  rw [if_neg (Nat.succ_ne_zero k)] at htext
  refine ⟨w', hloop, hcur, htext, hlen, ?_⟩
  intro hsync hdst
  rw [List.range_succ_eq_map (k + 1), List.map_cons, List.map_map]
  refine congr (congrArg List.cons ?_) (List.map_congr_left ?_)
  · unfold queriedWindow
    rw [hsync]
    simp only [Nat.cast_zero, mul_zero, add_zero]
  · intro i hi
    have hik : i + 1 ≤ k + 1 := by
      have := List.mem_range.mp hi
      omega
    have hd := hdst (i + 1) hik
    simp only [Function.comp, Nat.succ_eq_add_one]
    push_cast at hd ⊢
    rw [localtime_of_settled cfg (snapDetectStart w.eng) _ hd]

/-- Witness of C19 as amended: time zone UTC, offline, `interval = 10`, cursor and
`complete_time` both at `2024-01-15 10:00:00` (`k = 0`), every window holding three
INTERNATIONAL and two MOBILE calls: the loop makes two calls, for the windows `10:00` and
`10:10`, one of them adds an alert or a checkpoint, and the cursor is left at `10:10`. -/
theorem C19_offline_loop_calls_witness :
    ∃ w', mainOfflineLoop Real.sqrt (defaultConf ℝ ts_2024_01_15_10h)
        (constSource threeOfFive) (fun _ => true) 2 0
        (worldAt (configuredBaseline ℝ allTypes (2 / 100) (1 / 100) (29 / 1000))
          ts_2024_01_15_10h) =
      some (Ctl.done, [ts_2024_01_15_10h, ts_2024_01_15_10h + 600], w') ∧
      w'.eng.last_transaction_ts = ts_2024_01_15_10h + 600 ∧
      w'.alerts.length + w'.thresholds.length = 1 := by
  obtain ⟨w', hloop, -, htext, hlen, hlist⟩ :=
    C19_offline_loop_calls Real.sqrt (defaultConf ℝ ts_2024_01_15_10h)
      (constSource threeOfFive) (fun _ => true) 0 2 0
      (worldAt (configuredBaseline ℝ allTypes (2 / 100) (1 / 100) (29 / 1000))
        ts_2024_01_15_10h)
      (by decide) (by decide) (fun _ => ⟨threeOfFive, rfl⟩) (fun _ => rfl) (by decide)
      (by decide)
  refine ⟨w', ?_, ?_, hlen⟩
  · rw [hloop, hlist rfl (fun _ _ => rfl)]
    rfl
  · rw [htext]
    decide

/-! ## The cursor over a whole run (C20) -/

/-- The function `SipGetCallData` never writes the byte `flags` of the `Hd` it fills. -/
theorem SipGetCallData_hd_flags {K : Type} (hd : Hd K) (rows : List CdrRow) :
    (SipGetCallData hd rows).flags = hd.flags := by
  have h1 : ∀ (rs : List CdrRow) (x : Hd K),
      (rs.foldl SipGetCallData.row x).flags = x.flags := by
    intro rs
    induction rs with
    | nil => intro x; rfl
    | cons r rs ih =>
        intro x
        rw [List.foldl_cons, ih]
        unfold SipGetCallData.row
        split_ifs <;> rfl
  have h2 : ∀ (l : List (Fin 6)) (x : Hd K),
      (l.foldl (fun s cnt => SipGetCallData.total cnt s) x).flags = x.flags := by
    intro l
    induction l with
    | nil => intro x; rfl
    | cons c l ih =>
        intro x
        rw [List.foldl_cons, ih]
        rfl
  unfold SipGetCallData
  rw [h2, h1]

/-- The function `SipCalcHDProbabilities` never writes the byte `flags`. -/
theorem SipCalcHDProbabilities_hd_flags {K : Type} [Field K] (gl : Hd K) (cfg : Conf K)
    (hd : Hd K) : (SipCalcHDProbabilities gl cfg hd).flags = hd.flags := by
  unfold SipCalcHDProbabilities
  split_ifs
  · refine forWhile_induction (fun s : Hd K => s.flags = hd.flags) _ _ ?_ callIndices hd rfl
    intro cnt s hs
    exact hs
  · rfl

/-- The function `SipUpdateHDThreshold` never writes the byte `flags`. -/
theorem SipUpdateHDThreshold_hd_flags {K : Type} [LinearOrderedField K] (cfg : Conf K)
    (B O : Hd K) : (SipUpdateHDThreshold cfg B O).flags = B.flags := by
  unfold SipUpdateHDThreshold
  split_ifs
  · exact (updateLoop_frame O callIndices _).2.2.2.2.2
  · rfl

/-- In a time zone without daylight saving time, the local time of an instant reached from
a struct whose flag is zero is the fields of the struct plus the seconds in between. -/
theorem localtime_of_standard {K : Type} (cfg : Conf K) (e : Engine K) (d : Int)
    (hstd : ∀ t, cfg.tz.isdst t = false) (hf : e.tm_isdst = false) :
    localtime cfg.tz (instant cfg e + d) = (e.current_time + d, false) := by
  rw [localtime_of_settled cfg e d ((hstd _).trans hf.symm), hf]

/-- One call of `SipUpdateTimeStamp` in a time zone without daylight saving time, on a
struct whose flag is zero: the cursor it leaves is a `standardCursor`, `detect_start_ts` is
untouched, on `SIP_DONE` the text stays, and on `SIP_OK` the text is the fields of the old
struct plus `i` minutes. -/
theorem SipUpdateTimeStamp_standard {K : Type} (cfg : Conf K) (e : Engine K) (i : Int)
    (hstd : ∀ t, cfg.tz.isdst t = false) (hf : e.tm_isdst = false) :
    standardCursor cfg (SipUpdateTimeStamp cfg e i).2 ∧
    (SipUpdateTimeStamp cfg e i).2.detect_start_ts = e.detect_start_ts ∧
    ((SipUpdateTimeStamp cfg e i).1 = SIP_DONE →
      (SipUpdateTimeStamp cfg e i).2.last_transaction_ts = e.last_transaction_ts) ∧
    ((SipUpdateTimeStamp cfg e i).1 = SIP_OK →
      (SipUpdateTimeStamp cfg e i).2.last_transaction_ts = e.current_time + 60 * i) := by
  have h0 := localtime_of_standard cfg e 0 hstd hf
  have hi := localtime_of_standard cfg e (60 * i) hstd hf
  rw [add_zero, add_zero] at h0
  rw [SipUpdateTimeStamp_eq, h0, hi]
  split_ifs with hc
  · refine ⟨⟨rfl, Or.inr ⟨hc.1, ?_⟩⟩, rfl, fun _ => rfl,
      fun h => absurd h (show SIP_DONE ≠ SIP_OK by decide)⟩
    have he : instant cfg
        { e with current_time := e.current_time, tm_isdst := false } = instant cfg e := by
      unfold instant
      rw [hf]
    rw [he]
    exact hc.2
  · exact ⟨⟨rfl, Or.inl rfl⟩, rfl, fun h => absurd h (show SIP_OK ≠ SIP_DONE by decide),
      fun _ => rfl⟩

/-- One call of `SipUpdateTimeStamp` on a `standardCursor` in a time zone without daylight
saving time: the cursor it leaves is a `standardCursor`, one `cursorStep` after the old
one, and `detect_start_ts` is untouched. -/
theorem SipUpdateTimeStamp_step {K : Type} (cfg : Conf K) (e : Engine K) (i : Int)
    (hstd : ∀ t, cfg.tz.isdst t = false) (hP : standardCursor cfg e) :
    standardCursor cfg (SipUpdateTimeStamp cfg e i).2 ∧
    ((SipUpdateTimeStamp cfg e i).2.last_transaction_ts = e.last_transaction_ts + 60 * i ∨
      (SipUpdateTimeStamp cfg e i).2.last_transaction_ts = e.last_transaction_ts) ∧
    (SipUpdateTimeStamp cfg e i).2.detect_start_ts = e.detect_start_ts := by
  obtain ⟨h1, h2, h3, h4⟩ := SipUpdateTimeStamp_standard cfg e i hstd hP.1
  refine ⟨h1, ?_, h2⟩
  rcases (SipUpdateTimeStamp_done_iff cfg e i).2.2 with hd | hk
  · exact Or.inr (h3 hd)
  · left
    rw [h4 hk]
    rcases hP.2 with hs | hfz
    · rw [hs]
    · have hd := (SipUpdateTimeStamp_done_iff cfg e i).1.mpr hfz
      rw [hk] at hd
      exact absurd hd (show SIP_OK ≠ SIP_DONE by decide)

/-- The snap leaves a `standardCursor` a `standardCursor`. -/
theorem snapDetectStart_standard {K : Type} (cfg : Conf K) (e : Engine K)
    (hP : standardCursor cfg e) : standardCursor cfg (snapDetectStart e) := by
  unfold snapDetectStart
  split
  · split
    · exact ⟨hP.1, Or.inl rfl⟩
    · exact hP
  · exact hP

/-- A training call that does not fail, in a time zone without daylight saving time,
leaves a `standardCursor`, one `cursorStep` after the window it queried, and
`detect_start_ts` and the byte `flags` of the baseline untouched. -/
theorem SipTrainingAnomalyDetection_step {K : Type} [LinearOrderedField K] (sqrt : K → K)
    (cfg : Conf K) (cdr : CdrSource) (eng : Engine K)
    (hstd : ∀ t, cfg.tz.isdst t = false) (hP : standardCursor cfg eng)
    (hret : (SipTrainingAnomalyDetection sqrt cfg cdr eng).1 ≠ SIP_ERROR) :
    standardCursor cfg (SipTrainingAnomalyDetection sqrt cfg cdr eng).2 ∧
    cursorStep cfg eng.last_transaction_ts
      (SipTrainingAnomalyDetection sqrt cfg cdr eng).2.last_transaction_ts ∧
    (SipTrainingAnomalyDetection sqrt cfg cdr eng).2.detect_start_ts = eng.detect_start_ts ∧
    (SipTrainingAnomalyDetection sqrt cfg cdr eng).2.hd_detection.flags =
      eng.hd_detection.flags := by
  unfold SipTrainingAnomalyDetection at hret ⊢
  cases hf : cdr eng.last_transaction_ts cfg.interval with
  | none =>
      rw [hf] at hret
      exact absurd rfl hret
  | some rows =>
      simp only [hf]
      obtain ⟨h1, h2, h3⟩ := SipUpdateTimeStamp_step cfg
        { eng with
          hd_detection :=
            if (SipCalcHellingerDistance sqrt eng.hd_detection
                (SipCalcHDProbabilities eng.hd_detection cfg
                  (SipGetCallData (CLEAR_HD Hd.uninit) rows))).distance_value > 0 then
              SipUpdateHDThreshold cfg eng.hd_detection
                (SipCalcHellingerDistance sqrt eng.hd_detection
                  (SipCalcHDProbabilities eng.hd_detection cfg
                    (SipGetCallData (CLEAR_HD Hd.uninit) rows)))
            else eng.hd_detection }
        cfg.interval hstd hP
      refine ⟨h1, h2, h3, ?_⟩
      rw [SipUpdateTimeStamp_hd]
      dsimp only
      split_ifs
      · exact SipUpdateHDThreshold_hd_flags cfg _ _
      · rfl

/-- The clock side of `SipTrainingInitThreshold` in a time zone without daylight saving
time, the `tm_isdst` of `current_time` being zero on entry: at most two windows are
queried, the second one `cursorStep` after the first; on `SIP_OK` both were queried, and
the cursor is left a `standardCursor`, one `cursorStep` after the second, `detect_start_ts`
and the byte `flags` of the baseline untouched. -/
theorem SipTrainingInitThreshold_clock {K : Type} [LinearOrderedField K] (sqrt : K → K)
    (cfg : Conf K) (cdr : CdrSource) (its sc : Option Int) (eng : Engine K)
    (hstd : ∀ t, cfg.tz.isdst t = false) (hflag : eng.tm_isdst = false) :
    ((SipTrainingInitThreshold sqrt cfg cdr its sc eng).queries = [] ∨
      (∃ q0, (SipTrainingInitThreshold sqrt cfg cdr its sc eng).queries = [q0]) ∨
      ∃ q0 q1, (SipTrainingInitThreshold sqrt cfg cdr its sc eng).queries = [q0, q1] ∧
        cursorStep cfg q0 q1) ∧
    ((SipTrainingInitThreshold sqrt cfg cdr its sc eng).ret = SIP_OK →
      ∃ q0 q1, (SipTrainingInitThreshold sqrt cfg cdr its sc eng).queries = [q0, q1] ∧
        cursorStep cfg q0 q1 ∧
        cursorStep cfg q1
          (SipTrainingInitThreshold sqrt cfg cdr its sc eng).eng.last_transaction_ts ∧
        standardCursor cfg (SipTrainingInitThreshold sqrt cfg cdr its sc eng).eng ∧
        (SipTrainingInitThreshold sqrt cfg cdr its sc eng).eng.detect_start_ts =
          eng.detect_start_ts ∧
        (SipTrainingInitThreshold sqrt cfg cdr its sc eng).eng.hd_detection.flags =
          eng.hd_detection.flags) := by
  have hmain : ∀ e0 : Engine K, standardCursor cfg e0 →
      e0.detect_start_ts = eng.detect_start_ts →
      e0.hd_detection.flags = eng.hd_detection.flags →
      ∀ s : SeedResult K,
      s = (match cdr e0.last_transaction_ts cfg.interval with
        | none => { ret := SIP_ERROR, queries := [e0.last_transaction_ts], eng := e0 }
        | some rows0 =>
            match cdr (SipUpdateTimeStamp cfg e0 cfg.interval).2.last_transaction_ts
                cfg.interval with
            | none =>
                { ret := SIP_ERROR
                  queries := [e0.last_transaction_ts,
                    (SipUpdateTimeStamp cfg e0 cfg.interval).2.last_transaction_ts]
                  eng := (SipUpdateTimeStamp cfg e0 cfg.interval).2 }
            | some rows1 =>
                { ret := SIP_OK
                  queries := [e0.last_transaction_ts,
                    (SipUpdateTimeStamp cfg e0 cfg.interval).2.last_transaction_ts]
                  eng := (SipUpdateTimeStamp cfg
                    { (SipUpdateTimeStamp cfg e0 cfg.interval).2 with
                      hd_detection :=
                        SipUpdateHDThreshold cfg
                          (SipCalcHellingerDistance sqrt
                            (SipCalcHDProbabilities e0.hd_detection cfg
                              (SipGetCallData (CLEAR_HD Hd.uninit) rows0))
                            (SipCalcHDProbabilities
                              (SipGetCallData
                                (SipUpdateTimeStamp cfg e0 cfg.interval).2.hd_detection rows1)
                              cfg
                              (SipGetCallData
                                (SipUpdateTimeStamp cfg e0 cfg.interval).2.hd_detection rows1)))
                          (SipCalcHDProbabilities e0.hd_detection cfg
                            (SipGetCallData (CLEAR_HD Hd.uninit) rows0)) }
                    cfg.interval).2 }) →
      (s.queries = [] ∨ (∃ q0, s.queries = [q0]) ∨
        ∃ q0 q1, s.queries = [q0, q1] ∧ cursorStep cfg q0 q1) ∧
      (s.ret = SIP_OK →
        ∃ q0 q1, s.queries = [q0, q1] ∧ cursorStep cfg q0 q1 ∧
          cursorStep cfg q1 s.eng.last_transaction_ts ∧
          standardCursor cfg s.eng ∧
          s.eng.detect_start_ts = eng.detect_start_ts ∧
          s.eng.hd_detection.flags = eng.hd_detection.flags) := by
    intro e0 hP hdts hfl s hs
    obtain ⟨h1s, h1c, h1d⟩ := SipUpdateTimeStamp_step cfg e0 cfg.interval hstd hP
    cases hf0 : cdr e0.last_transaction_ts cfg.interval with
    | none =>
        rw [hf0] at hs
        subst hs
        exact ⟨Or.inr (Or.inl ⟨_, rfl⟩), fun h => absurd h (show SIP_ERROR ≠ SIP_OK by decide)⟩
    | some rows0 =>
        rw [hf0] at hs
        cases hf1 : cdr (SipUpdateTimeStamp cfg e0 cfg.interval).2.last_transaction_ts
            cfg.interval with
        | none =>
            simp only [hf1] at hs
            subst hs
            exact ⟨Or.inr (Or.inr ⟨_, _, rfl, h1c⟩),
              fun h => absurd h (show SIP_ERROR ≠ SIP_OK by decide)⟩
        | some rows1 =>
            simp only [hf1] at hs
            subst hs
            obtain ⟨h2s, h2c, h2d⟩ := SipUpdateTimeStamp_step cfg
              { (SipUpdateTimeStamp cfg e0 cfg.interval).2 with
                hd_detection :=
                  SipUpdateHDThreshold cfg
                    (SipCalcHellingerDistance sqrt
                      (SipCalcHDProbabilities e0.hd_detection cfg
                        (SipGetCallData (CLEAR_HD Hd.uninit) rows0))
                      (SipCalcHDProbabilities
                        (SipGetCallData
                          (SipUpdateTimeStamp cfg e0 cfg.interval).2.hd_detection rows1)
                        cfg
                        (SipGetCallData
                          (SipUpdateTimeStamp cfg e0 cfg.interval).2.hd_detection rows1)))
                    (SipCalcHDProbabilities e0.hd_detection cfg
                      (SipGetCallData (CLEAR_HD Hd.uninit) rows0)) }
              cfg.interval hstd h1s
            refine ⟨Or.inr (Or.inr ⟨_, _, rfl, h1c⟩),
              fun _ => ⟨_, _, rfl, h1c, h2c, h2s, h2d.trans (h1d.trans hdts), ?_⟩⟩
            dsimp only
            rw [SipUpdateTimeStamp_hd]
            dsimp only
            rw [SipUpdateHDThreshold_hd_flags, (SipCalcHellingerDistance_frame sqrt _ _).2.2.2.2.2,
              SipCalcHDProbabilities_hd_flags, SipGetCallData_hd_flags, SipUpdateTimeStamp_hd]
            exact hfl
  unfold SipTrainingInitThreshold
  cases its with
  | none =>
      cases sc with
      | none => exact ⟨Or.inl rfl, fun h => absurd h (show SIP_ERROR ≠ SIP_OK by decide)⟩
      | some t =>
          obtain ⟨h0s, h0d, -, -⟩ := SipUpdateTimeStamp_standard cfg
            { eng with
              last_transaction_ts := t
              current_time := (localtime cfg.tz t).1
              tm_isdst := (localtime cfg.tz t).2 } 0 hstd (hstd t)
          exact hmain _ h0s h0d (by rw [SipUpdateTimeStamp_hd]) _ rfl
  | some t =>
      exact hmain { eng with last_transaction_ts := t, current_time := t }
        ⟨hflag, Or.inl rfl⟩ rfl rfl _ rfl

/-- A chain through `l1` followed by a chain from the last element of `l1` is a chain
through both. -/
theorem chain_append_getLastD (S : Int → Int → Prop) :
    ∀ (l1 : List Int) (a : Int) (l2 : List Int), List.Chain S a l1 →
      List.Chain S (l1.getLastD a) l2 → List.Chain S a (l1 ++ l2) := by
  intro l1
  induction l1 with
  | nil =>
      intro a l2 _ h2
      exact h2
  | cons x xs ih =>
      intro a l2 h1 h2
      rw [List.getLastD_cons] at h2
      rw [List.chain_cons] at h1
      exact List.Chain.cons h1.1 (ih x l2 h1.2 h2)

/-- The windows of the training loop in a time zone without daylight saving time: each is
one `cursorStep` after the one before, and the engine the loop leaves is a
`standardCursor` one `cursorStep` after the last window, `detect_start_ts` and the byte
`flags` of the baseline untouched. -/
theorem mainTrainingLoop_chain {K : Type} [LinearOrderedField K] (sqrt : K → K)
    (cfg : Conf K) (cdr : CdrSource) (train_period main_interval : Nat)
    (hstd : ∀ t, cfg.tz.isdst t = false)
    (S : Int → Int → Prop) (hS : ∀ x y, cursorStep cfg x y → S x y) :
    ∀ (fuel sleep_t : Nat) (eng : Engine K) (a : Int),
      standardCursor cfg eng → S a eng.last_transaction_ts →
      List.Chain S a
        (mainTrainingLoop sqrt cfg cdr train_period main_interval fuel sleep_t eng).1 ∧
      ∀ e, (mainTrainingLoop sqrt cfg cdr train_period main_interval fuel sleep_t eng).2 =
          some e →
        standardCursor cfg e ∧ e.detect_start_ts = eng.detect_start_ts ∧
        e.hd_detection.flags = eng.hd_detection.flags ∧
        cursorStep cfg
          ((mainTrainingLoop sqrt cfg cdr train_period main_interval fuel sleep_t eng).1.getLastD
            a)
          e.last_transaction_ts := by
  intro fuel
  induction fuel with
  | zero =>
      intro sleep_t eng a _ _
      exact ⟨List.Chain.nil, fun e he => absurd he (by simp [mainTrainingLoop])⟩
  | succ fuel ih =>
      intro sleep_t eng a hP ha
      rw [mainTrainingLoop]
      split_ifs with h1 h2
      · exact ⟨List.Chain.cons ha List.Chain.nil, fun e he => absurd he (by simp)⟩
      · obtain ⟨hs, hc, hd, hf⟩ :=
          SipTrainingAnomalyDetection_step sqrt cfg cdr eng hstd hP h1
        refine ⟨List.Chain.cons ha List.Chain.nil, fun e he => ?_⟩
        have he2 : (SipTrainingAnomalyDetection sqrt cfg cdr eng).2 = e := Option.some.inj he
        subst he2
        exact ⟨hs, hd, hf, hc⟩
      · obtain ⟨hs, hc, hd, hf⟩ :=
          SipTrainingAnomalyDetection_step sqrt cfg cdr eng hstd hP h1
        obtain ⟨ih1, ih2⟩ := ih ((sleep_t + main_interval) % 2 ^ 64)
          (SipTrainingAnomalyDetection sqrt cfg cdr eng).2 eng.last_transaction_ts hs
          (hS _ _ hc)
        refine ⟨List.Chain.cons ha ih1, fun e he => ?_⟩
        obtain ⟨h3, h4, h6, h5⟩ := ih2 e he
        refine ⟨h3, h4.trans hd, h6.trans hf, ?_⟩
        rw [List.getLastD_cons]
        exact h5

/-- A detection pass after which the loop goes on, in a time zone without daylight saving
time, has advanced the clock: the cursor is the queried one plus `interval` minutes, and
it is a `standardCursor`. -/
theorem mainDetectionTick_next_clock {K : Type} [LinearOrderedField K] (sqrt : K → K)
    (cfg : Conf K) (cdr : CdrSource) (exec_ok : Bool) (w : World K)
    (hstd : ∀ t, cfg.tz.isdst t = false)
    (hP : standardCursor cfg (snapDetectStart w.eng))
    (hnext : (mainDetectionTick sqrt cfg cdr exec_ok w).1 = Ctl.next) :
    (mainDetectionTick sqrt cfg cdr exec_ok w).2.eng.last_transaction_ts =
      (snapDetectStart w.eng).last_transaction_ts + 60 * cfg.interval ∧
    standardCursor cfg (mainDetectionTick sqrt cfg cdr exec_ok w).2.eng := by
  cases hfetch : cdr (snapDetectStart w.eng).last_transaction_ts cfg.interval with
  | none =>
      have herr : (SipAnomalyDetection sqrt cfg cdr w.eng).ret = SIP_ERROR := by
        unfold SipAnomalyDetection
        simp only [hfetch]
      unfold mainDetectionTick at hnext
      dsimp only at hnext
      rw [if_pos herr] at hnext
      exact absurd hnext (by simp)
  | some rows =>
      obtain ⟨hret, -⟩ := SipAnomalyDetection_of_fetch sqrt cfg cdr w.eng rows hfetch
      obtain ⟨hct, hts, -, -, -⟩ := SipAnomalyDetection_clock sqrt cfg cdr w.eng rows hfetch
      obtain ⟨hfl, -⟩ := SipAnomalyDetection_instant sqrt cfg cdr w.eng rows hfetch
      have hok : (SipUpdateTimeStamp cfg (snapDetectStart w.eng) cfg.interval).1 = SIP_OK := by
        rcases (SipUpdateTimeStamp_done_iff cfg (snapDetectStart w.eng) cfg.interval).2.2
          with hd | hk
        · rw [if_pos hd] at hret
          unfold mainDetectionTick at hnext
          dsimp only at hnext
          rw [if_neg (by rw [hret]; decide), if_pos hret] at hnext
          exact absurd hnext (by simp)
        · exact hk
      obtain ⟨h1, -, -, h4⟩ :=
        SipUpdateTimeStamp_standard cfg (snapDetectStart w.eng) cfg.interval hstd hP.1
      have hsync : (snapDetectStart w.eng).last_transaction_ts =
          (snapDetectStart w.eng).current_time := by
        rcases hP.2 with hs | hfz
        · exact hs
        · have hd := (SipUpdateTimeStamp_done_iff cfg (snapDetectStart w.eng)
            cfg.interval).1.mpr hfz
          rw [hok] at hd
          exact absurd hd (show SIP_OK ≠ SIP_DONE by decide)
      have hnew : (SipUpdateTimeStamp cfg (snapDetectStart w.eng) cfg.interval).2.current_time =
          (SipUpdateTimeStamp cfg (snapDetectStart w.eng)
            cfg.interval).2.last_transaction_ts := by
        rw [SipUpdateTimeStamp_of_ok cfg _ cfg.interval hok]
      refine ⟨by rw [mainDetectionTick_eng, hts, h4 hok, hsync], ?_⟩
      rw [mainDetectionTick_eng]
      exact ⟨hfl.trans h1.1, Or.inl (by rw [hts, hct, hnew])⟩

/-- The windows of the detection loop in a time zone without daylight saving time: the
first is the queried window of the engine the loop starts from, and each further one is
the one before plus `interval` minutes. -/
theorem mainDetectionWindows_chain {K : Type} [LinearOrderedField K] (sqrt : K → K)
    (cfg : Conf K) (cdr : CdrSource) (exec_ok : Nat → Bool)
    (hstd : ∀ t, cfg.tz.isdst t = false)
    (S : Int → Int → Prop) (hS : ∀ x, S x (x + 60 * cfg.interval)) :
    ∀ (m pass : Nat) (w : World K) (a : Int),
      standardCursor cfg (snapDetectStart w.eng) →
      S a (queriedWindow w.eng) →
      List.Chain S a (mainDetectionWindows sqrt cfg cdr exec_ok m pass w) := by
  intro m
  induction m with
  | zero =>
      intro pass w a _ _
      exact List.Chain.nil
  | succ m ih =>
      intro pass w a hP ha
      rw [mainDetectionWindows]
      refine List.Chain.cons ha ?_
      cases htick : (mainDetectionTick sqrt cfg cdr (exec_ok pass) w).1 with
      | next =>
          obtain ⟨hts, hP2⟩ :=
            mainDetectionTick_next_clock sqrt cfg cdr (exec_ok pass) w hstd hP htick
          have hsnap := snapDetectStart_mainDetectionTick sqrt cfg cdr (exec_ok pass) w
          refine ih (pass + 1) _ _ (by rw [hsnap]; exact hP2) ?_
          have hq : queriedWindow (mainDetectionTick sqrt cfg cdr (exec_ok pass) w).2.eng =
              queriedWindow w.eng + 60 * cfg.interval := by
            unfold queriedWindow
            rw [hsnap, hts]
          rw [hq]
          exact hS _
      | done => exact List.Chain.nil
      | shutdown => exact List.Chain.nil

/-- The windows of a whole run of `main` in a time zone without daylight saving time form a
chain for every relation that holds across a `cursorStep` and across the junction between
the training loop and the first detection pass. -/
theorem mainWindows_chain {K : Type} [LinearOrderedField K] (sqrt : K → K) (cfg : Conf K)
    (cdr : CdrSource) (exec_ok : Nat → Bool) (its sc : Option Int)
    (train_period main_interval fuel m : Nat) (eng : Engine K) (table : List (ThresholdRow K))
    (hstd : ∀ t, cfg.tz.isdst t = false) (hflag : eng.tm_isdst = false)
    (S : Int → Int → Prop) (hS : ∀ x y, cursorStep cfg x y → S x y)
    (hj : ∀ e b,
      (mainTrainingLoop sqrt cfg cdr train_period main_interval fuel 0
        (SipTrainingInitThreshold sqrt cfg cdr its sc eng).eng).2 = some e →
      e.detect_start_ts = eng.detect_start_ts →
      e.hd_detection.flags = eng.hd_detection.flags →
      cursorStep cfg b e.last_transaction_ts → S b (queriedWindow e)) :
    List.Chain' S
      (mainWindows sqrt cfg cdr exec_ok its sc train_period main_interval fuel m eng table) := by
  obtain ⟨hq, hok⟩ := SipTrainingInitThreshold_clock sqrt cfg cdr its sc eng hstd hflag
  unfold mainWindows
  dsimp only
  split_ifs with hret
  · rcases hq with h0 | ⟨q0, h1⟩ | ⟨q0, q1, h2, hstep⟩
    · rw [h0]
      exact List.chain'_nil
    · rw [h1]
      exact List.chain'_singleton q0
    · rw [h2]
      exact List.chain'_cons.mpr ⟨hS _ _ hstep, List.chain'_singleton q1⟩
  · obtain ⟨q0, q1, h2, hstep, hstep2, hP, hdts, hfl⟩ := hok (not_not.mp hret)
    rw [h2]
    simp only [List.cons_append, List.nil_append]
    obtain ⟨ht1, ht2⟩ := mainTrainingLoop_chain sqrt cfg cdr train_period main_interval hstd
      S hS fuel 0 (SipTrainingInitThreshold sqrt cfg cdr its sc eng).eng q1 hP (hS _ _ hstep2)
    refine List.chain'_cons.mpr ⟨hS _ _ hstep, ?_⟩
    refine chain_append_getLastD S _ q1 _ ht1 ?_
    cases he : (mainTrainingLoop sqrt cfg cdr train_period main_interval fuel 0
        (SipTrainingInitThreshold sqrt cfg cdr its sc eng).eng).2 with
    | none => exact List.Chain.nil
    | some e =>
        obtain ⟨hes, hed, hef, hec⟩ := ht2 e he
        dsimp only
        split_ifs
        · exact List.Chain.nil
        · exact mainDetectionWindows_chain sqrt cfg cdr exec_ok hstd S
            (fun x => hS _ _ (Or.inl rfl)) m 1 _ _ (snapDetectStart_standard cfg e hes)
            (hj e _ he (hed.trans hdts) (hef.trans hfl) hec)

/-- A pending snap decides the window: an engine with `detect_start_ts` set and a baseline
that was not restored queries the window at `detect_start_ts`, wherever its cursor is. -/
theorem queriedWindow_of_pending {K : Type} (e : Engine K) (d : Int)
    (hd : e.detect_start_ts = some d)
    (hfl : e.hd_detection.flags &&& THRESHOLD_RESTORED = 0) : queriedWindow e = d := by
  unfold queriedWindow snapDetectStart
  rw [hd]
  dsimp only
  rw [if_pos hfl]

/-- The windows of a run whose seed, training loop and first checkpoint all succeed. -/
theorem mainWindows_of_trained {K : Type} [LinearOrderedField K] (sqrt : K → K)
    (cfg : Conf K) (cdr : CdrSource) (exec_ok : Nat → Bool) (its sc : Option Int)
    (train_period main_interval fuel m : Nat) (eng e : Engine K)
    (table : List (ThresholdRow K))
    (hseed : (SipTrainingInitThreshold sqrt cfg cdr its sc eng).ret = SIP_OK)
    (htrain : (mainTrainingLoop sqrt cfg cdr train_period main_interval fuel 0
      (SipTrainingInitThreshold sqrt cfg cdr its sc eng).eng).2 = some e)
    (hexec : exec_ok 0 = true) :
    mainWindows sqrt cfg cdr exec_ok its sc train_period main_interval fuel m eng table =
      (SipTrainingInitThreshold sqrt cfg cdr its sc eng).queries ++
        ((mainTrainingLoop sqrt cfg cdr train_period main_interval fuel 0
          (SipTrainingInitThreshold sqrt cfg cdr its sc eng).eng).1 ++
        mainDetectionWindows sqrt cfg cdr exec_ok m 1
          { eng := e, thresholds := table ++ [thresholdRow e], alerts := [] }) := by
  unfold mainWindows
  dsimp only
  rw [if_neg (not_not.mpr hseed), htrain]
  dsimp only
  unfold SipAnomalyStoreThreshold
  rw [hexec]
  simp only [if_true, ne_eq, not_true_eq_false, if_false]

/-- The first detection pass queries the window `queriedWindow` names. -/
theorem mainDetectionWindows_one {K : Type} [LinearOrderedField K] (sqrt : K → K)
    (cfg : Conf K) (cdr : CdrSource) (exec_ok : Nat → Bool) (pass : Nat) (w : World K) :
    mainDetectionWindows sqrt cfg cdr exec_ok 1 pass w = [queriedWindow w.eng] := by
  rw [mainDetectionWindows]
  cases (mainDetectionTick sqrt cfg cdr (exec_ok pass) w).1 <;> simp [mainDetectionWindows]

/-- **C20** fails on the code as stated.  (1) Time zone UTC, a run that trains:
`initial-timestamp = 2024-01-15 10:00:00`, `interval = 10`, `training-period = 20`,
`detection-start-ts = 2024-01-15 09:00:00`, offline with `ending-date = 2024-01-16
00:00:00`, every window holding ten MOBILE calls.  `SipTrainingInitThreshold` queries the
windows `10:00` and `10:10`, the two passes of the training loop query `10:20` and `10:30`,
and the first call of `SipAnomalyDetection` then snaps the cursor to `detection-start-ts`
and queries the window `09:00`, which is earlier than every window queried before.
(2) Time zone `Europe/Oslo`, `initial-timestamp = 2024-07-15 10:00:00`, `interval = 10`,
`training-period = 20`, `ending-date = 2024-07-16 00:00:00`, no `detection-start-ts`: the
seed and the training loop query the windows `10:00`, `11:10`, `11:20` and `11:30`; the
second cursor is the first plus seventy minutes, not plus ten. -/
theorem C20_snap_rolls_cursor_back :
    (mainWindows Real.sqrt (defaultConf ℝ ts_2024_01_16_00h) (constSource tenMobile)
        (fun _ => true) (some ts_2024_01_15_10h) none 20 10 2 1
        (freshEngine ℝ allTypes ts_2024_01_15_10h (some ts_2024_01_15_09h)) [] =
      [ts_2024_01_15_10h, ts_2024_01_15_10h + 600, ts_2024_01_15_10h + 1200,
        ts_2024_01_15_10h + 1800, ts_2024_01_15_09h] ∧
      ts_2024_01_15_09h < ts_2024_01_15_10h) ∧
    mainWindows Real.sqrt (osloConf ℝ ts_2024_07_16_00h) (constSource tenMobile)
        (fun _ => true) (some ts_2024_07_15_10h) none 20 10 2 0
        (freshEngine ℝ allTypes ts_2024_07_15_10h none) [] =
      [ts_2024_07_15_10h, ts_2024_07_15_10h + 60 * 70, ts_2024_07_15_10h + 60 * 80,
        ts_2024_07_15_10h + 60 * 90] := by
  refine ⟨⟨?_, by decide⟩, ?_⟩
  · have hret : (SipTrainingInitThreshold Real.sqrt (defaultConf ℝ ts_2024_01_16_00h)
        (constSource tenMobile) (some ts_2024_01_15_10h) none
        (freshEngine ℝ allTypes ts_2024_01_15_10h (some ts_2024_01_15_09h))).ret = SIP_OK := by
      decide
    obtain ⟨q0, q1, -, -, -, hP, hdts, hfl⟩ :=
      (SipTrainingInitThreshold_clock Real.sqrt (defaultConf ℝ ts_2024_01_16_00h)
        (constSource tenMobile) (some ts_2024_01_15_10h) none
        (freshEngine ℝ allTypes ts_2024_01_15_10h (some ts_2024_01_15_09h))
        (fun _ => rfl) rfl).2 hret
    obtain ⟨e, he⟩ : ∃ e, (mainTrainingLoop Real.sqrt (defaultConf ℝ ts_2024_01_16_00h)
        (constSource tenMobile) 20 10 2 0
        (SipTrainingInitThreshold Real.sqrt (defaultConf ℝ ts_2024_01_16_00h)
          (constSource tenMobile) (some ts_2024_01_15_10h) none
          (freshEngine ℝ allTypes ts_2024_01_15_10h (some ts_2024_01_15_09h))).eng).2 = some e :=
      ⟨_, rfl⟩
    obtain ⟨-, htrain⟩ := mainTrainingLoop_chain Real.sqrt (defaultConf ℝ ts_2024_01_16_00h)
      (constSource tenMobile) 20 10 (fun _ => rfl) (fun _ _ => True) (fun _ _ _ => trivial) 2 0
      (SipTrainingInitThreshold Real.sqrt (defaultConf ℝ ts_2024_01_16_00h)
        (constSource tenMobile) (some ts_2024_01_15_10h) none
        (freshEngine ℝ allTypes ts_2024_01_15_10h (some ts_2024_01_15_09h))).eng 0 hP trivial
    obtain ⟨-, hedts, hefl, -⟩ := htrain e he
    have hq : queriedWindow e = ts_2024_01_15_09h :=
      queriedWindow_of_pending e ts_2024_01_15_09h (hedts.trans hdts) (by rw [hefl, hfl]; rfl)
    have hsq : (SipTrainingInitThreshold Real.sqrt (defaultConf ℝ ts_2024_01_16_00h)
        (constSource tenMobile) (some ts_2024_01_15_10h) none
        (freshEngine ℝ allTypes ts_2024_01_15_10h (some ts_2024_01_15_09h))).queries =
        [ts_2024_01_15_10h, ts_2024_01_15_10h + 600] := by
      decide
    have htq : (mainTrainingLoop Real.sqrt (defaultConf ℝ ts_2024_01_16_00h)
        (constSource tenMobile) 20 10 2 0
        (SipTrainingInitThreshold Real.sqrt (defaultConf ℝ ts_2024_01_16_00h)
          (constSource tenMobile) (some ts_2024_01_15_10h) none
          (freshEngine ℝ allTypes ts_2024_01_15_10h (some ts_2024_01_15_09h))).eng).1 =
        [ts_2024_01_15_10h + 1200, ts_2024_01_15_10h + 1800] := by
      decide
    rw [mainWindows_of_trained Real.sqrt _ _ _ _ _ _ _ _ _ _ e [] hret he rfl,
      mainDetectionWindows_one, hsq, htq]
    dsimp only
    rw [hq]
    rfl
  · have hret : (SipTrainingInitThreshold Real.sqrt (osloConf ℝ ts_2024_07_16_00h)
        (constSource tenMobile) (some ts_2024_07_15_10h) none
        (freshEngine ℝ allTypes ts_2024_07_15_10h none)).ret = SIP_OK := by
      decide
    obtain ⟨e, he⟩ : ∃ e, (mainTrainingLoop Real.sqrt (osloConf ℝ ts_2024_07_16_00h)
        (constSource tenMobile) 20 10 2 0
        (SipTrainingInitThreshold Real.sqrt (osloConf ℝ ts_2024_07_16_00h)
          (constSource tenMobile) (some ts_2024_07_15_10h) none
          (freshEngine ℝ allTypes ts_2024_07_15_10h none)).eng).2 = some e :=
      ⟨_, rfl⟩
    have hsq : (SipTrainingInitThreshold Real.sqrt (osloConf ℝ ts_2024_07_16_00h)
        (constSource tenMobile) (some ts_2024_07_15_10h) none
        (freshEngine ℝ allTypes ts_2024_07_15_10h none)).queries =
        [ts_2024_07_15_10h, ts_2024_07_15_10h + 60 * 70] := by
      decide
    have htq : (mainTrainingLoop Real.sqrt (osloConf ℝ ts_2024_07_16_00h)
        (constSource tenMobile) 20 10 2 0
        (SipTrainingInitThreshold Real.sqrt (osloConf ℝ ts_2024_07_16_00h)
          (constSource tenMobile) (some ts_2024_07_15_10h) none
          (freshEngine ℝ allTypes ts_2024_07_15_10h none)).eng).1 =
        [ts_2024_07_15_10h + 60 * 80, ts_2024_07_15_10h + 60 * 90] := by
      decide
    rw [mainWindows_of_trained Real.sqrt _ _ _ _ _ _ _ _ _ _ e [] hret he rfl, hsq, htq]
    rfl

/-- **C20, amended.** Over a whole run (the seed, the training loop and the detection
passes) in a time zone without daylight saving time, the `tm_isdst` of `current_time`
being zero at the start as the static initialiser leaves it, with `interval ≥ 1`: (1) when
`detection-start-ts` is not configured, every queried window is the one before plus exactly
`interval` minutes, or the one before again when the clock has reported `SIP_DONE`; (2) the
queried windows never go back, provided that `detection-start-ts`, if configured, is not
earlier than the cursor the training loop leaves; (3) an engine with `detection-start-ts`
pending and a baseline that was not restored queries the window at `detection-start-ts`
whatever its cursor, so the cursor does roll back when `detection-start-ts` is earlier;
(4) inside the detection loop each queried window is the one before plus exactly `interval`
minutes. -/
theorem C20_cursor_rolls_back_only_at_snap {K : Type} [LinearOrderedField K] (sqrt : K → K)
    (cfg : Conf K) (cdr : CdrSource) (exec_ok : Nat → Bool) (its sc : Option Int)
    (train_period main_interval fuel m : Nat) (eng : Engine K) (table : List (ThresholdRow K))
    (hint : 1 ≤ cfg.interval)
    (hstd : ∀ t, cfg.tz.isdst t = false) (hflag : eng.tm_isdst = false) :
    (eng.detect_start_ts = none →
      List.Chain' (cursorStep cfg)
        (mainWindows sqrt cfg cdr exec_ok its sc train_period main_interval fuel m eng table)) ∧
    ((∀ d e, eng.detect_start_ts = some d →
        (mainTrainingLoop sqrt cfg cdr train_period main_interval fuel 0
          (SipTrainingInitThreshold sqrt cfg cdr its sc eng).eng).2 = some e →
        e.last_transaction_ts ≤ d) →
      List.Pairwise (fun a b : Int => a ≤ b)
        (mainWindows sqrt cfg cdr exec_ok its sc train_period main_interval fuel m eng table)) ∧
    (∀ (e : Engine K) (d : Int), e.detect_start_ts = some d →
      e.hd_detection.flags &&& THRESHOLD_RESTORED = 0 → queriedWindow e = d) ∧
    (∀ (w : World K) (pass : Nat), w.eng.tm_isdst = false →
      w.eng.last_transaction_ts = w.eng.current_time →
      List.Chain' (fun a b : Int => b = a + 60 * cfg.interval)
        (mainDetectionWindows sqrt cfg cdr exec_ok m pass w)) := by
  refine ⟨?_, ?_, fun e d hd hfl => queriedWindow_of_pending e d hd hfl, ?_⟩
  · intro hnone
    refine mainWindows_chain sqrt cfg cdr exec_ok its sc train_period main_interval fuel m
      eng table hstd hflag (cursorStep cfg) (fun _ _ hxy => hxy) ?_
    intro e b _ hed _ hstep
    unfold queriedWindow
    rw [snapDetectStart_eq_self e (Or.inl (hed.trans hnone))]
    exact hstep
  · intro hsnap
    have hle : ∀ x y, cursorStep cfg x y → x ≤ y := by
      intro x y hxy
      rcases hxy with hxy | hxy <;> omega
    refine List.chain'_iff_pairwise.mp ?_
    refine mainWindows_chain sqrt cfg cdr exec_ok its sc train_period main_interval fuel m
      eng table hstd hflag (fun a b : Int => a ≤ b) hle ?_
    intro e b he hed _ hstep
    have hbe : b ≤ e.last_transaction_ts := hle _ _ hstep
    unfold queriedWindow snapDetectStart
    cases hd : e.detect_start_ts with
    | none => exact hbe
    | some d =>
        have hed2 : e.last_transaction_ts ≤ d := hsnap d e (hed.symm.trans hd) he
        dsimp only
        split_ifs
        · exact le_trans hbe hed2
        · exact hbe
  · intro w pass hfl hsync
    have hchain := mainDetectionWindows_chain sqrt cfg cdr exec_ok hstd
      (fun a b : Int => b = a + 60 * cfg.interval) (fun _ => rfl) m pass w
      (queriedWindow w.eng - 60 * cfg.interval)
      (snapDetectStart_standard cfg w.eng ⟨hfl, Or.inl hsync⟩)
      (by ring)
    cases m with
    | zero => exact List.chain'_nil
    | succ m =>
        rw [mainDetectionWindows] at hchain ⊢
        exact (List.chain_cons.mp hchain).2

/-- Witness of C20 as amended: time zone UTC, `initial-timestamp = 2024-01-15 10:00:00`,
`interval = 10`, `training-period = 20`, three detection passes, every window holding ten
MOBILE calls.  Without `detection-start-ts` the queried windows go in steps of `interval`
minutes; with `detection-start-ts = 2024-01-15 11:00:00`, later than the cursor `10:40` the
training loop leaves, the queried windows never go back. -/
theorem C20_cursor_rolls_back_only_at_snap_witness :
    List.Chain' (cursorStep (defaultConf ℝ ts_2024_01_16_00h))
      (mainWindows Real.sqrt (defaultConf ℝ ts_2024_01_16_00h) (constSource tenMobile)
        (fun _ => true) (some ts_2024_01_15_10h) none 20 10 2 3
        (freshEngine ℝ allTypes ts_2024_01_15_10h none) []) ∧
    List.Pairwise (fun a b : Int => a ≤ b)
      (mainWindows Real.sqrt (defaultConf ℝ ts_2024_01_16_00h) (constSource tenMobile)
        (fun _ => true) (some ts_2024_01_15_10h) none 20 10 2 3
        (freshEngine ℝ allTypes ts_2024_01_15_10h (some ts_2024_01_15_11h)) []) :=
  ⟨(C20_cursor_rolls_back_only_at_snap Real.sqrt (defaultConf ℝ ts_2024_01_16_00h)
      (constSource tenMobile) (fun _ => true) (some ts_2024_01_15_10h) none 20 10 2 3
      (freshEngine ℝ allTypes ts_2024_01_15_10h none) [] (by decide) (fun _ => rfl) rfl).1 rfl,
    (C20_cursor_rolls_back_only_at_snap Real.sqrt (defaultConf ℝ ts_2024_01_16_00h)
      (constSource tenMobile) (fun _ => true) (some ts_2024_01_15_10h) none 20 10 2 3
      (freshEngine ℝ allTypes ts_2024_01_15_10h (some ts_2024_01_15_11h)) [] (by decide)
      (fun _ => rfl) rfl).2.1
      (fun d e hd he => by
        have hd2 : ts_2024_01_15_11h = d := Option.some.inj hd
        have he2 : e.last_transaction_ts = ts_2024_01_15_10h + 2400 := by
          rw [← Option.some.inj (Eq.trans (Eq.symm rfl) he)]
          decide
        rw [he2, ← hd2]
        decide)⟩

/-! ## Restore and the first window (C21) -/

/-- The bit `THRESHOLD_RESTORED` is set after `flags |= THRESHOLD_RESTORED`. -/
theorem restored_flag_set (f : Nat) : (f ||| THRESHOLD_RESTORED) &&& THRESHOLD_RESTORED ≠ 0 := by
  intro hz
  have hbit := congrArg (fun n => n.testBit 0) hz
  simp [THRESHOLD_RESTORED] at hbit

/-- The out-parameter of `SipAnomalyDetection` is the answer of the CDR source for the
window `queriedWindow` names. -/
theorem SipAnomalyDetection_result {K : Type} [LinearOrderedField K] (sqrt : K → K)
    (cfg : Conf K) (cdr : CdrSource) (eng : Engine K) :
    (SipAnomalyDetection sqrt cfg cdr eng).result = cdr (queriedWindow eng) cfg.interval := by
  unfold SipAnomalyDetection queriedWindow
  dsimp only
  cases hf : cdr (snapDetectStart eng).last_transaction_ts cfg.interval with
  | none => rfl
  | some rows =>
      dsimp only
      split_ifs <;> rfl

/-- What a restore leaves: the return code is `SIP_THRESHOLD_RESTORE` exactly when
`threshold-restore` is not `no` and a row was read; the text of the cursor is the one
`SipSetTimeStamp` chose, the struct holds that text or what `mktime` made of the restored
one, and the bit `THRESHOLD_RESTORED` is set. -/
theorem SipInitAnomalyDetection_restore {K : Type} (cfg : Conf K) (thresh_restore : String)
    (latest : Option (ThresholdRow K)) (eng : Engine K)
    (hret : (SipInitAnomalyDetection cfg thresh_restore latest eng).1 =
      SIP_THRESHOLD_RESTORE) :
    ∃ row, latest = some row ∧ strncmpEq thresh_restore "no" = false ∧
      (SipInitAnomalyDetection cfg thresh_restore latest eng).2.last_transaction_ts =
        (match eng.detect_start_ts with
          | some d =>
              if (mktime cfg.tz d false).1 > (mktime cfg.tz row.last_ts eng.tm_isdst).1 then d
              else row.last_ts
          | none => row.last_ts) ∧
      (SipInitAnomalyDetection cfg thresh_restore latest eng).2.current_time =
        (match eng.detect_start_ts with
          | some d =>
              if (mktime cfg.tz d false).1 > (mktime cfg.tz row.last_ts eng.tm_isdst).1 then d
              else (mktime cfg.tz row.last_ts eng.tm_isdst).2.1
          | none => row.last_ts) ∧
      (SipInitAnomalyDetection cfg thresh_restore latest eng).2.hd_detection.flags &&&
        THRESHOLD_RESTORED ≠ 0 := by
  unfold SipInitAnomalyDetection at hret ⊢
  cases hno : strncmpEq thresh_restore "no" with
  | true =>
      rw [hno] at hret
      exact absurd hret (show SIP_THRESHOLD_NOT_RESTORE ≠ SIP_THRESHOLD_RESTORE by decide)
  | false =>
      cases latest with
      | none =>
          rw [hno] at hret
          exact absurd hret (show SIP_THRESHOLD_NOT_RESTORE ≠ SIP_THRESHOLD_RESTORE by decide)
      | some row =>
          refine ⟨row, rfl, rfl, ?_⟩
          simp only [Bool.false_eq_true, if_false]
          cases hd : eng.detect_start_ts with
          | none => exact ⟨rfl, rfl, restored_flag_set _⟩
          | some d =>
              simp only [SipSetTimeStamp, hd]
              split_ifs <;> exact ⟨rfl, rfl, restored_flag_set _⟩

/-- **C21.** After a restore that returned `SIP_THRESHOLD_RESTORE`, the cursor is the
`last_ts` of the checkpoint read, except when `detection-start-ts` is configured and
strictly later than it, in which case the cursor is `detection-start-ts`; and the first
call of `SipAnomalyDetection` queries the window at that cursor.  The two times are
compared as `mktime` returns them, `detection-start-ts` in a zeroed struct and `last_ts` in
`current_time`; with the `tm_isdst` of `current_time` zero, as it is when the process
starts, that is the comparison of the two texts.  The struct `current_time` holds the same
cursor whenever its `tm_isdst` is the flag in force at `last_ts`. -/
theorem C21_restore_resumes_cursor {K : Type} [LinearOrderedField K] (sqrt : K → K)
    (cfg : Conf K) (cdr : CdrSource) (thresh_restore : String)
    (latest : Option (ThresholdRow K)) (eng : Engine K)
    (hret : (SipInitAnomalyDetection cfg thresh_restore latest eng).1 =
      SIP_THRESHOLD_RESTORE) :
    ∃ row cursor, latest = some row ∧
      cursor =
        (match eng.detect_start_ts with
          | some d =>
              if (mktime cfg.tz d false).1 > (mktime cfg.tz row.last_ts eng.tm_isdst).1 then d
              else row.last_ts
          | none => row.last_ts) ∧
      (eng.tm_isdst = false →
        cursor =
          (match eng.detect_start_ts with
            | some d => if d > row.last_ts then d else row.last_ts
            | none => row.last_ts)) ∧
      (SipInitAnomalyDetection cfg thresh_restore latest eng).2.last_transaction_ts = cursor ∧
      (cfg.tz.isdst (mktime cfg.tz row.last_ts eng.tm_isdst).1 = eng.tm_isdst →
        (SipInitAnomalyDetection cfg thresh_restore latest eng).2.current_time = cursor) ∧
      queriedWindow (SipInitAnomalyDetection cfg thresh_restore latest eng).2 = cursor ∧
      (SipAnomalyDetection sqrt cfg cdr
        (SipInitAnomalyDetection cfg thresh_restore latest eng).2).result =
          cdr cursor cfg.interval := by
  obtain ⟨row, hrow, -, hts, hct, hfl⟩ :=
    SipInitAnomalyDetection_restore cfg thresh_restore latest eng hret
  have hq : queriedWindow (SipInitAnomalyDetection cfg thresh_restore latest eng).2 =
      (SipInitAnomalyDetection cfg thresh_restore latest eng).2.last_transaction_ts := by
    unfold queriedWindow
    rw [snapDetectStart_eq_self _ (Or.inr hfl)]
  refine ⟨row, _, hrow, rfl, ?_, hts, ?_, hq.trans hts, ?_⟩
  · intro hf
    cases eng.detect_start_ts with
    | none => rfl
    | some d =>
        dsimp only
        rw [hf]
        unfold mktime
        dsimp only
        split_ifs <;> first | rfl | omega
  · intro hs
    rw [hct]
    cases eng.detect_start_ts with
    | none => rfl
    | some d =>
        dsimp only
        rw [mktime_of_settled cfg.tz row.last_ts eng.tm_isdst hs]
  · rw [SipAnomalyDetection_result, hq, hts]

/-- Witness of C21, scenario 5 of the specification (time zone UTC): the checkpoint read
has the cursor `2024-01-15 10:30:00`, `threshold-restore = yes`, no `detection-start-ts`:
the restore leaves the cursor at `10:30:00` and the first detection call queries that
window. -/
theorem C21_restore_resumes_cursor_witness :
    (SipInitAnomalyDetection (defaultConf ℝ ts_2024_01_16_00h) "yes"
      (some (thresholdRow (engineAt (configuredBaseline ℝ allTypes (2 / 100) (1 / 100)
        (29 / 1000)) ts_2024_01_15_10h30)))
      (freshEngine ℝ allTypes 0 none)).2.last_transaction_ts = ts_2024_01_15_10h30 ∧
    (SipInitAnomalyDetection (defaultConf ℝ ts_2024_01_16_00h) "yes"
      (some (thresholdRow (engineAt (configuredBaseline ℝ allTypes (2 / 100) (1 / 100)
        (29 / 1000)) ts_2024_01_15_10h30)))
      (freshEngine ℝ allTypes 0 none)).2.current_time = ts_2024_01_15_10h30 ∧
    queriedWindow (SipInitAnomalyDetection (defaultConf ℝ ts_2024_01_16_00h) "yes"
      (some (thresholdRow (engineAt (configuredBaseline ℝ allTypes (2 / 100) (1 / 100)
        (29 / 1000)) ts_2024_01_15_10h30)))
      (freshEngine ℝ allTypes 0 none)).2 = ts_2024_01_15_10h30 ∧
    (SipAnomalyDetection Real.sqrt (defaultConf ℝ ts_2024_01_16_00h) (constSource tenMobile)
      (SipInitAnomalyDetection (defaultConf ℝ ts_2024_01_16_00h) "yes"
        (some (thresholdRow (engineAt (configuredBaseline ℝ allTypes (2 / 100) (1 / 100)
          (29 / 1000)) ts_2024_01_15_10h30)))
        (freshEngine ℝ allTypes 0 none)).2).result = some tenMobile := by
  obtain ⟨row, cursor, hrow, hc, -, hts, hct, hq, hres⟩ :=
    C21_restore_resumes_cursor Real.sqrt (defaultConf ℝ ts_2024_01_16_00h)
      (constSource tenMobile) "yes"
      (some (thresholdRow (engineAt (configuredBaseline ℝ allTypes (2 / 100) (1 / 100)
        (29 / 1000)) ts_2024_01_15_10h30)))
      (freshEngine ℝ allTypes 0 none) (by decide)
  have hrow2 := Option.some.inj hrow
  subst hrow2
  have hc2 : cursor = ts_2024_01_15_10h30 := hc
  subst hc2
  exact ⟨hts, hct rfl, hq, hres⟩

/-! ## The cursor a checkpoint records (C22) -/

/-- A detection call whose fetch succeeds, whose clock goes on and whose window has the
distance 0 against a baseline with a non-negative threshold returns `FALSE` and leaves the
baseline as it was. -/
theorem SipAnomalyDetection_quiet_of_zero {K : Type} [LinearOrderedField K] (sqrt : K → K)
    (cfg : Conf K) (cdr : CdrSource) (eng : Engine K) (rows : List CdrRow)
    (hfetch : cdr (snapDetectStart eng).last_transaction_ts cfg.interval = some rows)
    (hclock : (SipUpdateTimeStamp cfg (snapDetectStart eng) cfg.interval).1 = SIP_OK)
    (hzero : (hdTesting sqrt cfg eng.hd_detection rows).distance_value = 0)
    (hthr : 0 ≤ eng.hd_detection.threshold) :
    (SipAnomalyDetection sqrt cfg cdr eng).ret = FALSE ∧
    (SipAnomalyDetection sqrt cfg cdr eng).eng.hd_detection = eng.hd_detection := by
  obtain ⟨-, hhd⟩ := SipAnomalyDetection_of_fetch sqrt cfg cdr eng rows hfetch
  have hret := SipAnomalyDetection_ret sqrt cfg cdr eng rows hfetch hclock
  constructor
  · rw [hret]
    refine (anomalyDecision_fst_cases _ _ _ _).resolve_left ?_
    rw [anomalyDecision_alert_iff, hzero]
    intro hc
    exact absurd hc.1 (not_lt.mpr hthr)
  · rw [hhd, anomalyDecision_snd, if_neg]
    rw [hzero]
    exact fun hc => lt_irrefl _ hc.1

/-- The checkpoint of a detection pass that returned `FALSE`: with a successful insert, the
row appended is composed from the engine the call left. -/
theorem mainDetectionTick_checkpoint {K : Type} [LinearOrderedField K] (sqrt : K → K)
    (cfg : Conf K) (cdr : CdrSource) (w : World K)
    (hquiet : (SipAnomalyDetection sqrt cfg cdr w.eng).ret = FALSE) :
    (mainDetectionTick sqrt cfg cdr true w).2.thresholds =
      w.thresholds ++ [thresholdRow (mainDetectionTick sqrt cfg cdr true w).2.eng] := by
  rw [mainDetectionTick_thresholds, if_neg, mainDetectionTick_eng]
  · rfl
  · rw [hquiet]
    decide

/-- The empty window has the distance 0 against every baseline, under a configuration that
holds 32-bit values. -/
theorem hdTesting_empty {K : Type} [LinearOrderedField K] (sqrt : K → K) (cfg : Conf K)
    (B : Hd K) (hrange : cfg.intRange) : (hdTesting sqrt cfg B []).distance_value = 0 := by
  unfold hdTesting
  rw [SipCalcHDProbabilities_of_not_met _ _ _
      (probFloorsMet_eq_false cfg (SipGetCallData (CLEAR_HD Hd.uninit) []) hrange (Or.inr rfl)),
    SipCalcHellingerDistance_of_zero_prob sqrt _ _ (fun _ => ⟨rfl, rfl⟩)]
  rfl

/-- **C22** fails on the code as stated.  (1) Time zone UTC: the detection pass on the
empty window starting at `2024-01-15 10:00:00` (`interval = 10`, baseline with threshold
0.029) returns `FALSE`, and the checkpoint `main` then writes records `10:10:00`, the
cursor of the next window, not `10:00:00`.  (2) Time zone `Europe/Oslo`, the cursor at
`2024-07-15 10:00:00` as `strptime` left it (`tm_isdst` zero): the checkpoint of the same
pass records `11:10:00`. -/
theorem C22_checkpoint_records_advanced_cursor :
    (queriedWindow (worldAt (configuredBaseline ℝ threeTypes (2 / 100) (1 / 100) (29 / 1000))
        ts_2024_01_15_10h).eng = ts_2024_01_15_10h ∧
      (SipAnomalyDetection Real.sqrt (defaultConf ℝ ts_2024_01_16_00h) (constSource [])
        (worldAt (configuredBaseline ℝ threeTypes (2 / 100) (1 / 100) (29 / 1000))
          ts_2024_01_15_10h).eng).ret = FALSE ∧
      (mainDetectionTick Real.sqrt (defaultConf ℝ ts_2024_01_16_00h) (constSource []) true
        (worldAt (configuredBaseline ℝ threeTypes (2 / 100) (1 / 100) (29 / 1000))
          ts_2024_01_15_10h)).2.thresholds.map ThresholdRow.last_ts =
        [ts_2024_01_15_10h + 600]) ∧
    (queriedWindow (worldAt (configuredBaseline ℝ threeTypes (2 / 100) (1 / 100) (29 / 1000))
        ts_2024_07_15_10h).eng = ts_2024_07_15_10h ∧
      (SipAnomalyDetection Real.sqrt (osloConf ℝ ts_2024_07_16_00h) (constSource [])
        (worldAt (configuredBaseline ℝ threeTypes (2 / 100) (1 / 100) (29 / 1000))
          ts_2024_07_15_10h).eng).ret = FALSE ∧
      (mainDetectionTick Real.sqrt (osloConf ℝ ts_2024_07_16_00h) (constSource []) true
        (worldAt (configuredBaseline ℝ threeTypes (2 / 100) (1 / 100) (29 / 1000))
          ts_2024_07_15_10h)).2.thresholds.map ThresholdRow.last_ts =
        [ts_2024_07_15_10h + 60 * 70]) := by
  have key : ∀ (cfg : Conf ℝ) (ts : Int), cfg.intRange →
      instant cfg (snapDetectStart (worldAt (configuredBaseline ℝ threeTypes (2 / 100)
        (1 / 100) (29 / 1000)) ts).eng) ≤ cfg.complete_time →
      (SipAnomalyDetection Real.sqrt cfg (constSource [])
        (worldAt (configuredBaseline ℝ threeTypes (2 / 100) (1 / 100) (29 / 1000))
          ts).eng).ret = FALSE ∧
      (mainDetectionTick Real.sqrt cfg (constSource []) true
        (worldAt (configuredBaseline ℝ threeTypes (2 / 100) (1 / 100) (29 / 1000))
          ts)).2.thresholds.map ThresholdRow.last_ts =
        [(SipUpdateTimeStamp cfg (snapDetectStart (worldAt (configuredBaseline ℝ threeTypes
          (2 / 100) (1 / 100) (29 / 1000)) ts).eng) cfg.interval).2.last_transaction_ts] := by
    intro cfg ts hrange hle
    have hret := (SipAnomalyDetection_quiet_of_zero Real.sqrt cfg (constSource [])
      (worldAt (configuredBaseline ℝ threeTypes (2 / 100) (1 / 100) (29 / 1000)) ts).eng []
      rfl (SipUpdateTimeStamp_ok_of_le _ _ _ hle) (hdTesting_empty Real.sqrt cfg _ hrange)
      (by norm_num [worldAt, engineAt, configuredBaseline])).1
    refine ⟨hret, ?_⟩
    rw [mainDetectionTick_checkpoint _ _ _ _ hret]
    obtain ⟨-, hts, -, -, -⟩ := SipAnomalyDetection_clock Real.sqrt cfg (constSource [])
      (worldAt (configuredBaseline ℝ threeTypes (2 / 100) (1 / 100) (29 / 1000)) ts).eng []
      rfl
    simp only [List.map_append, List.map_cons, List.map_nil, thresholdRow,
      mainDetectionTick_eng, hts]
    rfl
  obtain ⟨a1, a2⟩ := key (defaultConf ℝ ts_2024_01_16_00h) ts_2024_01_15_10h
    (defaultConf_intRange ℝ _) (by decide)
  obtain ⟨b1, b2⟩ := key (osloConf ℝ ts_2024_07_16_00h) ts_2024_07_15_10h
    (by simp [Conf.intRange, osloConf, defaultConf]) (by decide)
  refine ⟨⟨rfl, a1, ?_⟩, rfl, b1, ?_⟩
  · rw [a2]
    decide
  · rw [b2]
    decide

/-- **C22, amended.** The checkpoint persisted after a normal detection tick (fetch and
insert successful, clock returning `SIP_OK`, no alert) on the window starting at cursor `w`
records as `last_ts` the cursor the clock has advanced to, that is the cursor of the next,
not yet processed window, and not `w` itself: `SipAnomalyDetection` has advanced the clock
before `main` calls `SipAnomalyStoreThreshold`.  That cursor is the local time `interval`
minutes after the instant of the cursor `w`; when the text and the struct of the cursor
agree and the `tm_isdst` of the struct is the flag in force at both instants
(`dstSettled`), it is `w` plus `interval` minutes, which with `interval ≥ 1` is not `w`. -/
theorem C22_checkpoint_records_next_cursor {K : Type} [LinearOrderedField K] (sqrt : K → K)
    (cfg : Conf K) (cdr : CdrSource) (w : World K) (rows : List CdrRow)
    (hfetch : cdr (queriedWindow w.eng) cfg.interval = some rows)
    (hclock : (SipUpdateTimeStamp cfg (snapDetectStart w.eng) cfg.interval).1 = SIP_OK)
    (hquiet : (SipAnomalyDetection sqrt cfg cdr w.eng).ret ≠ TRUE) :
    ∃ row, (mainDetectionTick sqrt cfg cdr true w).2.thresholds = w.thresholds ++ [row] ∧
      row.last_ts = (mainDetectionTick sqrt cfg cdr true w).2.eng.last_transaction_ts ∧
      row.last_ts =
        (localtime cfg.tz (instant cfg (snapDetectStart w.eng) + 60 * cfg.interval)).1 ∧
      ((snapDetectStart w.eng).last_transaction_ts = (snapDetectStart w.eng).current_time →
        dstSettled cfg (snapDetectStart w.eng) cfg.interval → 1 ≤ cfg.interval →
        row.last_ts = queriedWindow w.eng + 60 * cfg.interval ∧
        row.last_ts ≠ queriedWindow w.eng) := by
  have hret := SipAnomalyDetection_ret sqrt cfg cdr w.eng rows hfetch hclock
  have hF : (SipAnomalyDetection sqrt cfg cdr w.eng).ret = FALSE := by
    rw [hret] at hquiet ⊢
    exact (anomalyDecision_fst_cases _ _ _ _).resolve_left hquiet
  obtain ⟨-, hts, -, -, -⟩ := SipAnomalyDetection_clock sqrt cfg cdr w.eng rows hfetch
  rw [SipUpdateTimeStamp_of_ok cfg _ cfg.interval hclock] at hts
  have hlast : (thresholdRow (mainDetectionTick sqrt cfg cdr true w).2.eng).last_ts =
      (localtime cfg.tz (instant cfg (snapDetectStart w.eng) + 60 * cfg.interval)).1 := by
    unfold thresholdRow
    rw [mainDetectionTick_eng, hts]
  refine ⟨_, mainDetectionTick_checkpoint sqrt cfg cdr w hF, rfl, hlast, ?_⟩
  intro hsync hs hint
  have hnext : (thresholdRow (mainDetectionTick sqrt cfg cdr true w).2.eng).last_ts =
      queriedWindow w.eng + 60 * cfg.interval := by
    rw [hlast, localtime_of_settled cfg (snapDetectStart w.eng) (60 * cfg.interval) hs.2]
    unfold queriedWindow
    rw [hsync]
  refine ⟨hnext, ?_⟩
  rw [hnext]
  omega

/-- Witness of C22 as amended (time zone UTC): the pass on the window of five INTERNATIONAL
calls starting at `2024-01-15 23:00:00` (`interval = 10`, baseline with `dist_ewma = 1` and
threshold 1.2) does not alert, and the checkpoint records `23:10:00`. -/
theorem C22_checkpoint_records_next_cursor_witness :
    ∃ row, (mainDetectionTick Real.sqrt (defaultConf ℝ ts_2024_01_16_00h)
        (constSource fiveInternational) true
        (worldAt (configuredBaseline ℝ threeTypes 1 0 (12 / 10)) ts_2024_01_15_23h)).2.thresholds =
        (worldAt (configuredBaseline ℝ threeTypes 1 0 (12 / 10)) ts_2024_01_15_23h).thresholds ++
          [row] ∧
      row.last_ts = ts_2024_01_15_23h + 60 * 10 ∧
      row.last_ts ≠ ts_2024_01_15_23h := by
  obtain ⟨row, h1, -, -, h4⟩ :=
    C22_checkpoint_records_next_cursor Real.sqrt (defaultConf ℝ ts_2024_01_16_00h)
      (constSource fiveInternational)
      (worldAt (configuredBaseline ℝ threeTypes 1 0 (12 / 10)) ts_2024_01_15_23h)
      fiveInternational rfl (SipUpdateTimeStamp_ok_of_le _ _ _ (by decide))
      (by
        rw [SipAnomalyDetection_ret Real.sqrt _ _ _ fiveInternational rfl
          (SipUpdateTimeStamp_ok_of_le _ _ _ (by decide)), Ne, anomalyDecision_alert_iff]
        intro hc
        have h1 := hc.1
        erw [(fiveInternational_eval 1 0 (12 / 10)).1] at h1
        norm_num [configuredBaseline, worldAt, engineAt] at h1)
  exact ⟨row, h1, (h4 rfl ⟨rfl, rfl⟩ (by decide)).1, (h4 rfl ⟨rfl, rfl⟩ (by decide)).2⟩

/-! ## The checkpoint round trip (C23) -/

/-- A counter below `2^32` comes back unchanged through `%PRIu32`, `atoi` and the store
into a `uint32_t` field. -/
theorem toU32_atoi (v : Nat) (hv : v < 2 ^ 32) : toU32 (atoi v) = v := by
  unfold toU32 atoi
  omega

/-- A total below `2^63` comes back unchanged through `%PRIu64`, `atol` and the store into
a `uint64_t` field. -/
theorem toU64_atol (v : Nat) (hv : v < 2 ^ 63) : toU64 (atol v) = v := by
  unfold toU64 atol
  omega

/-- The number `%f` prints is within half a unit of the sixth decimal of its argument. -/
theorem printf_f_error {K : Type} [LinearOrderedField K] [FloorRing K] (x : K) :
    |printf_f x - x| ≤ 1 / (2 * 10 ^ 6) := by
  have h10 : (0 : K) < 10 ^ 6 := by positivity
  have key : ∀ m : Int, |(m : K) - x * 10 ^ 6| ≤ 1 / 2 →
      |(m : K) / 10 ^ 6 - x| ≤ 1 / (2 * 10 ^ 6) := by
    intro m hm
    have heq : (m : K) / 10 ^ 6 - x = ((m : K) - x * 10 ^ 6) / 10 ^ 6 := by
      field_simp
      ring
    rw [heq, abs_div, abs_of_pos h10, div_le_iff₀ h10]
    have : (1 : K) / (2 * 10 ^ 6) * 10 ^ 6 = 1 / 2 := by
      field_simp
      ring
    rw [this]
    exact hm
  have hfl : ((Int.floor (x * 10 ^ 6) : Int) : K) ≤ x * 10 ^ 6 := Int.floor_le _
  have hlt : x * 10 ^ 6 < ((Int.floor (x * 10 ^ 6) : Int) : K) + 1 := Int.lt_floor_add_one _
  unfold printf_f
  dsimp only
  generalize x * 10 ^ 6 = y at hfl hlt key ⊢
  generalize Int.floor y = n at hfl hlt ⊢
  split_ifs with h1 h2 h3
  · refine key n (abs_le.mpr ⟨?_, ?_⟩) <;> linarith
  · refine key (n + 1) (abs_le.mpr ⟨?_, ?_⟩) <;> push_cast <;> linarith
  · refine key n (abs_le.mpr ⟨?_, ?_⟩) <;> linarith
  · refine key (n + 1) (abs_le.mpr ⟨?_, ?_⟩) <;> push_cast <;> linarith

/-- A number with at most six digits after the decimal point is printed exactly. -/
theorem printf_f_exact {K : Type} [LinearOrderedField K] [FloorRing K] (n : Int) :
    printf_f ((n : K) / 10 ^ 6) = (n : K) / 10 ^ 6 := by
  have h10 : (10 : K) ^ 6 ≠ 0 := by positivity
  unfold printf_f
  dsimp only
  rw [div_mul_cancel₀ _ h10, Int.floor_intCast, sub_self, if_pos (by norm_num)]

/-- The persisted fields of the baseline after a restore, read off the row. -/
theorem SipInitAnomalyDetection_fields {K : Type} (cfg : Conf K) (thresh_restore : String)
    (row : ThresholdRow K) (eng : Engine K) (hyes : strncmpEq thresh_restore "no" = false) :
    (∀ c,
      ((SipInitAnomalyDetection cfg thresh_restore (some row) eng).2.hd_detection.call c).num =
        toU32 (atoi (row.call c).1) ∧
      ((SipInitAnomalyDetection cfg thresh_restore (some row) eng).2.hd_detection.call c).dur =
        toU32 (atoi (row.call c).2.1) ∧
      ((SipInitAnomalyDetection cfg thresh_restore (some row) eng).2.hd_detection.call c).p_freq =
        (row.call c).2.2.1 ∧
      ((SipInitAnomalyDetection cfg thresh_restore (some row) eng).2.hd_detection.call c).p_dur =
        (row.call c).2.2.2) ∧
    (SipInitAnomalyDetection cfg thresh_restore (some row) eng).2.hd_detection.num_total =
      toU64 (atol row.num_total) ∧
    (SipInitAnomalyDetection cfg thresh_restore (some row) eng).2.hd_detection.dur_total =
      toU64 (atol row.dur_total) ∧
    (SipInitAnomalyDetection cfg thresh_restore (some row) eng).2.hd_detection.distance_value =
      row.dist_value ∧
    (SipInitAnomalyDetection cfg thresh_restore (some row) eng).2.hd_detection.mean_deviation =
      row.mean_dev ∧
    (SipInitAnomalyDetection cfg thresh_restore (some row) eng).2.hd_detection.threshold =
      row.threshold := by
  unfold SipInitAnomalyDetection
  rw [hyes]
  simp only [Bool.false_eq_true, if_false]
  cases hd : eng.detect_start_ts with
  | none => exact ⟨fun _ => ⟨rfl, rfl, rfl, rfl⟩, rfl, rfl, rfl, rfl, rfl⟩
  | some d =>
      simp only [SipSetTimeStamp, hd]
      split_ifs <;> exact ⟨fun _ => ⟨rfl, rfl, rfl, rfl⟩, rfl, rfl, rfl, rfl, rfl⟩

/-- The text `%f` prints for `10/610` is `0.016393`. -/
theorem printf_f_ten_of_610 : printf_f (10 / 610 : ℚ) = 16393 / 1000000 := by
  have hfl : Int.floor ((10 / 610 : ℚ) * 10 ^ 6) = 16393 := by
    rw [Int.floor_eq_iff]
    norm_num
  unfold printf_f
  dsimp only
  rw [hfl]
  norm_num

/-- **C23** fails on the code as stated.  The baseline holds `pf_MOBILE = 10/610 =
0.0163934426...`; `SipAnomalyStoreThreshold` writes it with `%f` as `0.016393`, and the
restore reads `0.016393` back: five significant digits, with a relative error above
`10^-5`, far from fifteen digits. -/
theorem C23_percent_f_keeps_six_decimals :
    ((engineAt (mobileObservation ℚ) ts_2024_01_15_10h30).hd_detection.call MOBILE).p_freq =
      10 / 610 ∧
    ((SipInitAnomalyDetection (defaultConf ℚ ts_2024_01_16_00h) "yes"
      (some (SipAnomalyStoreThreshold.text
        (thresholdRow (engineAt (mobileObservation ℚ) ts_2024_01_15_10h30))))
      (freshEngine ℚ allTypes 0 none)).2.hd_detection.call MOBILE).p_freq =
        16393 / 1000000 ∧
    (1 / 10 ^ 5 : ℚ) * |(10 / 610 : ℚ)| < |(16393 / 1000000 : ℚ) - 10 / 610| := by
  refine ⟨rfl, ?_, ?_⟩
  · rw [((SipInitAnomalyDetection_fields (defaultConf ℚ ts_2024_01_16_00h) "yes" _ _ (by decide)).1 MOBILE).2.2.1]
    exact printf_f_ten_of_610
  · rw [abs_of_pos (by norm_num), abs_of_neg (by norm_num)]
    norm_num

/-- **C23, amended.** Checkpoint round trip: restoring from the row that
`SipAnomalyStoreThreshold` writes for a baseline `B` (counters below `2^32`, totals below
`2^63`) yields a baseline with the same `n_c` and `d_c` for all six categories and the same
`num_total` and `dur_total`, while every `double` (`pf_c`, `pd_c`, `dist_ewma`, the mean
deviation, the threshold) comes back rounded to six digits after the decimal point: it is
the value `%f` prints, within `0.0000005` of the original, and equal to the original when
that has at most six decimals. -/
theorem C23_round_trip_six_decimals {K : Type} [LinearOrderedField K] [FloorRing K]
    (cfg : Conf K) (thresh_restore : String) (eng eng0 : Engine K)
    (hyes : strncmpEq thresh_restore "no" = false)
    (hcall : ∀ c, (eng.hd_detection.call c).num < 2 ^ 32 ∧ (eng.hd_detection.call c).dur < 2 ^ 32)
    (htot : eng.hd_detection.num_total < 2 ^ 63 ∧ eng.hd_detection.dur_total < 2 ^ 63) :
    ∃ R : Hd K,
      R = (SipInitAnomalyDetection cfg thresh_restore
        (some (SipAnomalyStoreThreshold.text (thresholdRow eng))) eng0).2.hd_detection ∧
      (∀ c, (R.call c).num = (eng.hd_detection.call c).num ∧
        (R.call c).dur = (eng.hd_detection.call c).dur ∧
        (R.call c).p_freq = printf_f (eng.hd_detection.call c).p_freq ∧
        (R.call c).p_dur = printf_f (eng.hd_detection.call c).p_dur) ∧
      R.num_total = eng.hd_detection.num_total ∧
      R.dur_total = eng.hd_detection.dur_total ∧
      R.distance_value = printf_f eng.hd_detection.distance_value ∧
      R.mean_deviation = printf_f eng.hd_detection.mean_deviation ∧
      R.threshold = printf_f eng.hd_detection.threshold ∧
      (∀ x : K, |printf_f x - x| ≤ 1 / (2 * 10 ^ 6)) ∧
      (∀ n : Int, printf_f ((n : K) / 10 ^ 6) = (n : K) / 10 ^ 6) := by
  obtain ⟨h1, h2, h3, h4, h5, h6⟩ := SipInitAnomalyDetection_fields cfg thresh_restore
    (SipAnomalyStoreThreshold.text (thresholdRow eng)) eng0 hyes
  refine ⟨_, rfl, fun c => ⟨?_, ?_, (h1 c).2.2.1, (h1 c).2.2.2⟩, ?_, ?_, h4, h5, h6,
    printf_f_error, printf_f_exact⟩
  · rw [(h1 c).1]
    exact toU32_atoi _ (hcall c).1
  · rw [(h1 c).2.1]
    exact toU32_atoi _ (hcall c).2
  · rw [h2]
    exact toU64_atol _ htot.1
  · rw [h3]
    exact toU64_atol _ htot.2

/-- Witness of C23 as amended: the baseline with `n_MOBILE = 10`, `d_MOBILE = 600`,
`pf_MOBILE = 10/610`, `pd_MOBILE = 600/610` comes back with the same counters and with
`pf_MOBILE = printf_f (10/610)`. -/
theorem C23_round_trip_six_decimals_witness :
    ∃ R : Hd ℚ,
      R = (SipInitAnomalyDetection (defaultConf ℚ ts_2024_01_16_00h) "yes"
        (some (SipAnomalyStoreThreshold.text
          (thresholdRow (engineAt (mobileObservation ℚ) ts_2024_01_15_10h30))))
        (freshEngine ℚ allTypes 0 none)).2.hd_detection ∧
      (R.call MOBILE).num = 10 ∧ (R.call MOBILE).dur = 600 ∧
      (R.call MOBILE).p_freq = printf_f (10 / 610) ∧
      R.num_total = 10 ∧ R.dur_total = 600 := by
  obtain ⟨R, hR, hc, hn, hd, -⟩ := C23_round_trip_six_decimals (defaultConf ℚ ts_2024_01_16_00h) "yes"
    (engineAt (mobileObservation ℚ) ts_2024_01_15_10h30) (freshEngine ℚ allTypes 0 none)
    (by decide)
    (by
      intro c
      simp only [engineAt, mobileObservation]
      split_ifs <;> exact ⟨by norm_num, by norm_num⟩)
    ⟨by decide, by decide⟩
  exact ⟨R, hR, (hc MOBILE).1, (hc MOBILE).2.1, (hc MOBILE).2.2.1, hn, hd⟩

/-! ## The seed of the baseline (C24) -/

/-- The function `SipGetCallData` never writes the three scalars. -/
theorem SipGetCallData_scalars {K : Type} (hd : Hd K) (rows : List CdrRow) :
    (SipGetCallData hd rows).distance_value = hd.distance_value ∧
    (SipGetCallData hd rows).mean_deviation = hd.mean_deviation ∧
    (SipGetCallData hd rows).threshold = hd.threshold := by
  have h1 : ∀ (rs : List CdrRow) (x : Hd K),
      (rs.foldl SipGetCallData.row x).distance_value = x.distance_value ∧
      (rs.foldl SipGetCallData.row x).mean_deviation = x.mean_deviation ∧
      (rs.foldl SipGetCallData.row x).threshold = x.threshold := by
    intro rs
    induction rs with
    | nil => intro x; exact ⟨rfl, rfl, rfl⟩
    | cons r rs ih =>
        intro x
        rw [List.foldl_cons]
        obtain ⟨a, b, c⟩ := ih (SipGetCallData.row x r)
        rw [a, b, c]
        unfold SipGetCallData.row
        split_ifs <;> exact ⟨rfl, rfl, rfl⟩
  have h2 : ∀ (l : List (Fin 6)) (x : Hd K),
      (l.foldl (fun s cnt => SipGetCallData.total cnt s) x).distance_value =
        x.distance_value ∧
      (l.foldl (fun s cnt => SipGetCallData.total cnt s) x).mean_deviation =
        x.mean_deviation ∧
      (l.foldl (fun s cnt => SipGetCallData.total cnt s) x).threshold = x.threshold := by
    intro l
    induction l with
    | nil => intro x; exact ⟨rfl, rfl, rfl⟩
    | cons c l ih =>
        intro x
        rw [List.foldl_cons]
        obtain ⟨a, b, d⟩ := ih (SipGetCallData.total c x)
        rw [a, b, d]
        exact ⟨rfl, rfl, rfl⟩
  unfold SipGetCallData
  obtain ⟨a, b, c⟩ := h2 callIndices (rows.foldl SipGetCallData.row hd)
  obtain ⟨a', b', c'⟩ := h1 rows hd
  exact ⟨a.trans a', b.trans b', c.trans c'⟩

/-- The function `SipCalcHDProbabilities` never writes the three scalars. -/
theorem SipCalcHDProbabilities_scalars {K : Type} [Field K] (gl : Hd K) (cfg : Conf K)
    (hd : Hd K) :
    (SipCalcHDProbabilities gl cfg hd).distance_value = hd.distance_value ∧
    (SipCalcHDProbabilities gl cfg hd).mean_deviation = hd.mean_deviation ∧
    (SipCalcHDProbabilities gl cfg hd).threshold = hd.threshold := by
  unfold SipCalcHDProbabilities
  split_ifs
  · refine forWhile_induction (fun s : Hd K => s.distance_value = hd.distance_value ∧
      s.mean_deviation = hd.mean_deviation ∧ s.threshold = hd.threshold) _ _ ?_ callIndices hd
      ⟨rfl, rfl, rfl⟩
    intro cnt s hs
    exact hs
  · exact ⟨rfl, rfl, rfl⟩

/-- Against a first argument whose INTERNATIONAL flag is not active, the loop of
`SipCalcHellingerDistance` does not run: the second argument comes back as it was. -/
theorem SipCalcHellingerDistance_of_inactive {K : Type} [LinearOrderedField K]
    (sqrt : K → K) (B O : Hd K) (hin : isActive (B.call INTERNATIONAL) = false) :
    SipCalcHellingerDistance sqrt B O = O := by
  unfold SipCalcHellingerDistance callIndices
  have h0 : isActive (B.call 0) = false := hin
  simp only [forWhile, h0, Bool.false_eq_true, if_false]

/-- The baseline a successful seed leaves: the first window, aggregated into the cleared
local `hd_train_init`, is the first argument of the distance and the second argument of
the update; the second window is aggregated into the global baseline. -/
theorem SipTrainingInitThreshold_hd {K : Type} [LinearOrderedField K] (sqrt : K → K)
    (cfg : Conf K) (cdr : CdrSource) (its sc : Option Int) (eng : Engine K)
    (hret : (SipTrainingInitThreshold sqrt cfg cdr its sc eng).ret = SIP_OK) :
    ∃ q0 q1 rows0 rows1,
      (SipTrainingInitThreshold sqrt cfg cdr its sc eng).queries = [q0, q1] ∧
      cdr q0 cfg.interval = some rows0 ∧ cdr q1 cfg.interval = some rows1 ∧
      (SipTrainingInitThreshold sqrt cfg cdr its sc eng).eng.hd_detection =
        SipUpdateHDThreshold cfg
          (SipCalcHellingerDistance sqrt
            (SipCalcHDProbabilities eng.hd_detection cfg
              (SipGetCallData (CLEAR_HD Hd.uninit) rows0))
            (SipCalcHDProbabilities (SipGetCallData eng.hd_detection rows1) cfg
              (SipGetCallData eng.hd_detection rows1)))
          (SipCalcHDProbabilities eng.hd_detection cfg
            (SipGetCallData (CLEAR_HD Hd.uninit) rows0)) := by
  have hmain : ∀ e0 : Engine K, e0.hd_detection = eng.hd_detection →
      ∀ s : SeedResult K,
      s = (match cdr e0.last_transaction_ts cfg.interval with
        | none => { ret := SIP_ERROR, queries := [e0.last_transaction_ts], eng := e0 }
        | some rows0 =>
            match cdr (SipUpdateTimeStamp cfg e0 cfg.interval).2.last_transaction_ts
                cfg.interval with
            | none =>
                { ret := SIP_ERROR
                  queries := [e0.last_transaction_ts,
                    (SipUpdateTimeStamp cfg e0 cfg.interval).2.last_transaction_ts]
                  eng := (SipUpdateTimeStamp cfg e0 cfg.interval).2 }
            | some rows1 =>
                { ret := SIP_OK
                  queries := [e0.last_transaction_ts,
                    (SipUpdateTimeStamp cfg e0 cfg.interval).2.last_transaction_ts]
                  eng := (SipUpdateTimeStamp cfg
                    { (SipUpdateTimeStamp cfg e0 cfg.interval).2 with
                      hd_detection :=
                        SipUpdateHDThreshold cfg
                          (SipCalcHellingerDistance sqrt
                            (SipCalcHDProbabilities e0.hd_detection cfg
                              (SipGetCallData (CLEAR_HD Hd.uninit) rows0))
                            (SipCalcHDProbabilities
                              (SipGetCallData
                                (SipUpdateTimeStamp cfg e0 cfg.interval).2.hd_detection rows1)
                              cfg
                              (SipGetCallData
                                (SipUpdateTimeStamp cfg e0 cfg.interval).2.hd_detection rows1)))
                          (SipCalcHDProbabilities e0.hd_detection cfg
                            (SipGetCallData (CLEAR_HD Hd.uninit) rows0)) }
                    cfg.interval).2 }) →
      s.ret = SIP_OK →
      ∃ q0 q1 rows0 rows1, s.queries = [q0, q1] ∧
        cdr q0 cfg.interval = some rows0 ∧ cdr q1 cfg.interval = some rows1 ∧
        s.eng.hd_detection =
          SipUpdateHDThreshold cfg
            (SipCalcHellingerDistance sqrt
              (SipCalcHDProbabilities eng.hd_detection cfg
                (SipGetCallData (CLEAR_HD Hd.uninit) rows0))
              (SipCalcHDProbabilities (SipGetCallData eng.hd_detection rows1) cfg
                (SipGetCallData eng.hd_detection rows1)))
            (SipCalcHDProbabilities eng.hd_detection cfg
              (SipGetCallData (CLEAR_HD Hd.uninit) rows0)) := by
    intro e0 hhd s hs hok
    cases hf0 : cdr e0.last_transaction_ts cfg.interval with
    | none =>
        rw [hf0] at hs
        subst hs
        exact absurd hok (show SIP_ERROR ≠ SIP_OK by decide)
    | some rows0 =>
        rw [hf0] at hs
        cases hf1 : cdr (SipUpdateTimeStamp cfg e0 cfg.interval).2.last_transaction_ts
            cfg.interval with
        | none =>
            simp only [hf1] at hs
            subst hs
            exact absurd hok (show SIP_ERROR ≠ SIP_OK by decide)
        | some rows1 =>
            simp only [hf1] at hs
            subst hs
            refine ⟨_, _, rows0, rows1, rfl, hf0, hf1, ?_⟩
            dsimp only
            rw [SipUpdateTimeStamp_hd]
            dsimp only
            rw [SipUpdateTimeStamp_hd, hhd]
  unfold SipTrainingInitThreshold at hret ⊢
  cases its with
  | none =>
      cases sc with
      | none => exact absurd hret (show SIP_ERROR ≠ SIP_OK by decide)
      | some t => exact hmain _ (by rw [SipUpdateTimeStamp_hd]) _ rfl hret
  | some t =>
      exact hmain { eng with last_transaction_ts := t, current_time := t } rfl _ rfl hret

/-- The scalars a successful seed leaves when it starts from cleared ones: the distance
pass adds nothing, because the flags of its first argument, the local `hd_train_init`, are
reset by `CLEAR_HD`, and the update then yields 0 three times. -/
theorem SipTrainingInitThreshold_scalars {K : Type} [LinearOrderedField K] (sqrt : K → K)
    (cfg : Conf K) (cdr : CdrSource) (its sc : Option Int) (eng : Engine K)
    (hclear : eng.hd_detection.distance_value = 0 ∧ eng.hd_detection.mean_deviation = 0 ∧
      eng.hd_detection.threshold = 0)
    (hret : (SipTrainingInitThreshold sqrt cfg cdr its sc eng).ret = SIP_OK) :
    (SipTrainingInitThreshold sqrt cfg cdr its sc eng).eng.hd_detection.distance_value = 0 ∧
    (SipTrainingInitThreshold sqrt cfg cdr its sc eng).eng.hd_detection.mean_deviation = 0 ∧
    (SipTrainingInitThreshold sqrt cfg cdr its sc eng).eng.hd_detection.threshold = 0 := by
  obtain ⟨q0, q1, rows0, rows1, hq, hf0, hf1, hhd⟩ :=
    SipTrainingInitThreshold_hd sqrt cfg cdr its sc eng hret
  have hin : isActive ((SipCalcHDProbabilities eng.hd_detection cfg
      (SipGetCallData (CLEAR_HD Hd.uninit) rows0)).call INTERNATIONAL) = false := by
    unfold isActive
    rw [SipCalcHDProbabilities_flag, SipGetCallData_flag]
    show (CALLTYPE_INACTIVE &&& CALLTYPE_ACTIVE != 0) = false
    decide
  have hT : (SipCalcHDProbabilities eng.hd_detection cfg
      (SipGetCallData (CLEAR_HD Hd.uninit) rows0)).distance_value = 0 := by
    rw [(SipCalcHDProbabilities_scalars _ _ _).1, (SipGetCallData_scalars _ _).1]
    rfl
  obtain ⟨a1, b1, c1⟩ := SipCalcHDProbabilities_scalars (SipGetCallData eng.hd_detection rows1)
    cfg (SipGetCallData eng.hd_detection rows1)
  obtain ⟨a2, b2, c2⟩ := SipGetCallData_scalars eng.hd_detection rows1
  have hD : (SipCalcHellingerDistance sqrt
      (SipCalcHDProbabilities eng.hd_detection cfg (SipGetCallData (CLEAR_HD Hd.uninit) rows0))
      (SipCalcHDProbabilities (SipGetCallData eng.hd_detection rows1) cfg
        (SipGetCallData eng.hd_detection rows1))).distance_value = 0 := by
    rw [SipCalcHellingerDistance_of_inactive sqrt _ _ hin, a1, a2]
    exact hclear.1
  have hM : (SipCalcHellingerDistance sqrt
      (SipCalcHDProbabilities eng.hd_detection cfg (SipGetCallData (CLEAR_HD Hd.uninit) rows0))
      (SipCalcHDProbabilities (SipGetCallData eng.hd_detection rows1) cfg
        (SipGetCallData eng.hd_detection rows1))).mean_deviation = 0 := by
    rw [SipCalcHellingerDistance_of_inactive sqrt _ _ hin, b1, b2]
    exact hclear.2.1
  have hgate : updateGate cfg
      (SipCalcHellingerDistance sqrt
        (SipCalcHDProbabilities eng.hd_detection cfg
          (SipGetCallData (CLEAR_HD Hd.uninit) rows0))
        (SipCalcHDProbabilities (SipGetCallData eng.hd_detection rows1) cfg
          (SipGetCallData eng.hd_detection rows1)))
      (SipCalcHDProbabilities eng.hd_detection cfg
        (SipGetCallData (CLEAR_HD Hd.uninit) rows0)) = true := by
    unfold updateGate
    rw [hD]
    simp
  obtain ⟨hd1, hd2, hd3⟩ := (SipUpdateHDThreshold_scalars cfg _ _).1 hgate
  rw [hD, hT] at hd1
  rw [hD, hT, hM] at hd2
  have e1 : (SipTrainingInitThreshold sqrt cfg cdr its sc eng).eng.hd_detection.distance_value =
      0 := by
    rw [hhd, hd1]
    simp
  have e2 : (SipTrainingInitThreshold sqrt cfg cdr its sc eng).eng.hd_detection.mean_deviation =
      0 := by
    rw [hhd, hd2]
    simp
  refine ⟨e1, e2, ?_⟩
  rw [hhd, hd3, ← hhd, e1, e2]
  simp

/-- **C24.** After `SipTrainingInitThreshold` has seeded a baseline whose three scalars are
cleared, whatever the two seed windows, the set of active call types, the floors, `σ` and
`α`: the distance pass of the seed adds nothing (its first argument is the local
`hd_train_init`, whose flags `CLEAR_HD` has reset), so the distance it leaves is 0, and
the baseline ends with `dist_ewma = 0`, `mdev_ewma = 0` and `threshold = 0`. -/
theorem C24_seed_scalars_zero {K : Type} [LinearOrderedField K] (sqrt : K → K)
    (cfg : Conf K) (cdr : CdrSource) (its sc : Option Int) (eng : Engine K)
    (hclear : eng.hd_detection.distance_value = 0 ∧ eng.hd_detection.mean_deviation = 0 ∧
      eng.hd_detection.threshold = 0)
    (hret : (SipTrainingInitThreshold sqrt cfg cdr its sc eng).ret = SIP_OK) :
    (∃ q0 q1 rows0 rows1,
      (SipTrainingInitThreshold sqrt cfg cdr its sc eng).queries = [q0, q1] ∧
      cdr q0 cfg.interval = some rows0 ∧ cdr q1 cfg.interval = some rows1 ∧
      (SipCalcHellingerDistance sqrt
        (SipCalcHDProbabilities eng.hd_detection cfg
          (SipGetCallData (CLEAR_HD Hd.uninit) rows0))
        (SipCalcHDProbabilities (SipGetCallData eng.hd_detection rows1) cfg
          (SipGetCallData eng.hd_detection rows1))).distance_value = 0) ∧
    (SipTrainingInitThreshold sqrt cfg cdr its sc eng).eng.hd_detection.distance_value = 0 ∧
    (SipTrainingInitThreshold sqrt cfg cdr its sc eng).eng.hd_detection.mean_deviation = 0 ∧
    (SipTrainingInitThreshold sqrt cfg cdr its sc eng).eng.hd_detection.threshold = 0 := by
  obtain ⟨q0, q1, rows0, rows1, hq, hf0, hf1, -⟩ :=
    SipTrainingInitThreshold_hd sqrt cfg cdr its sc eng hret
  refine ⟨⟨q0, q1, rows0, rows1, hq, hf0, hf1, ?_⟩,
    SipTrainingInitThreshold_scalars sqrt cfg cdr its sc eng hclear hret⟩
  have hin : isActive ((SipCalcHDProbabilities eng.hd_detection cfg
      (SipGetCallData (CLEAR_HD Hd.uninit) rows0)).call INTERNATIONAL) = false := by
    unfold isActive
    rw [SipCalcHDProbabilities_flag, SipGetCallData_flag]
    show (CALLTYPE_INACTIVE &&& CALLTYPE_ACTIVE != 0) = false
    decide
  rw [SipCalcHellingerDistance_of_inactive sqrt _ _ hin,
    (SipCalcHDProbabilities_scalars _ _ _).1, (SipGetCallData_scalars _ _).1]
  exact hclear.1

/-- Witness of C24, scenario 1 of the specification: two identical windows of ten MOBILE
calls totalling 600 s, active set `{MOBILE}`, `σ = 1.2`, `α = 0.5`: the seed succeeds and
leaves `dist_ewma = 0`, `mdev_ewma = 0` and `threshold = 0`. -/
theorem C24_seed_scalars_zero_witness :
    (SipTrainingInitThreshold Real.sqrt (defaultConf ℝ ts_2024_01_16_00h)
      (constSource tenMobile) (some ts_2024_01_15_10h) none
      (freshEngine ℝ mobileOnly ts_2024_01_15_10h none)).ret = SIP_OK ∧
    (SipTrainingInitThreshold Real.sqrt (defaultConf ℝ ts_2024_01_16_00h)
      (constSource tenMobile) (some ts_2024_01_15_10h) none
      (freshEngine ℝ mobileOnly ts_2024_01_15_10h none)).eng.hd_detection.distance_value = 0 ∧
    (SipTrainingInitThreshold Real.sqrt (defaultConf ℝ ts_2024_01_16_00h)
      (constSource tenMobile) (some ts_2024_01_15_10h) none
      (freshEngine ℝ mobileOnly ts_2024_01_15_10h none)).eng.hd_detection.mean_deviation = 0 ∧
    (SipTrainingInitThreshold Real.sqrt (defaultConf ℝ ts_2024_01_16_00h)
      (constSource tenMobile) (some ts_2024_01_15_10h) none
      (freshEngine ℝ mobileOnly ts_2024_01_15_10h none)).eng.hd_detection.threshold = 0 :=
  ⟨by decide,
    (C24_seed_scalars_zero Real.sqrt (defaultConf ℝ ts_2024_01_16_00h)
      (constSource tenMobile) (some ts_2024_01_15_10h) none
      (freshEngine ℝ mobileOnly ts_2024_01_15_10h none) ⟨rfl, rfl, rfl⟩ (by decide)).2⟩

/-! ## The copy loop and the loops of an observation (C25, C28) -/

/-- The body of the copy loop leaves every flag as it was. -/
theorem SipUpdateHDThreshold_body_flag {K : Type} (O : Hd K) (cnt : Fin 6) (s : Hd K)
    (i : Fin 6) : ((SipUpdateHDThreshold.body O cnt s).call i).flag = (s.call i).flag := by
  unfold SipUpdateHDThreshold.body
  by_cases hi : i = cnt
  · subst hi
    simp
  · simp [Function.update_noteq hi]

/-- The copy loop of `SipUpdateHDThreshold` runs over the call types that come before the
first inactive one of the baseline it starts from. -/
theorem updateLoop_eq_foldl_takeWhile {K : Type} (O : Hd K) (l : List (Fin 6)) (B : Hd K) :
    forWhile (fun hd cnt => isActive (hd.call cnt)) (SipUpdateHDThreshold.body O) l B =
      (l.takeWhile fun c => isActive (B.call c)).foldl
        (fun s cnt => SipUpdateHDThreshold.body O cnt s) B := by
  induction l generalizing B with
  | nil => rfl
  | cons cnt rest ih =>
      unfold forWhile
      by_cases hc : isActive (B.call cnt) = true
      · have hpred : (fun c => isActive ((SipUpdateHDThreshold.body O cnt B).call c)) =
            fun c => isActive (B.call c) := by
          funext c
          unfold isActive
          rw [SipUpdateHDThreshold_body_flag]
        simp only [hc, if_true, List.takeWhile, List.foldl_cons]
        rw [ih, hpred]
      · simp [hc, List.takeWhile]

/-- What the copy loop leaves for a call type: the four values of the observation when the
loop has reached it, and what it had otherwise; name and flag stay. -/
theorem updateLoop_foldl_call {K : Type} (O : Hd K) (c : Fin 6) :
    ∀ (l : List (Fin 6)) (s : Hd K),
      (l.foldl (fun s cnt => SipUpdateHDThreshold.body O cnt s) s).call c =
        if c ∈ l then
          { s.call c with
            p_freq := (O.call c).p_freq
            p_dur := (O.call c).p_dur
            num := (O.call c).num
            dur := (O.call c).dur }
        else s.call c := by
  intro l
  induction l with
  | nil => intro s; simp
  | cons x rest ih =>
      intro s
      rw [List.foldl_cons, ih]
      by_cases hcx : c = x
      · subst hcx
        by_cases hmem : c ∈ rest
        · simp [hmem, SipUpdateHDThreshold.body]
        · simp [hmem, SipUpdateHDThreshold.body]
      · by_cases hmem : c ∈ rest
        · simp [hmem, hcx, SipUpdateHDThreshold.body, Function.update_noteq hcx]
        · simp [hmem, hcx, SipUpdateHDThreshold.body, Function.update_noteq hcx]

/-- The per-category fields `SipUpdateHDThreshold` leaves when the gate passes: a call type
that comes before the first inactive one takes the four values of the observation; every
other call type keeps what it had. -/
theorem SipUpdateHDThreshold_call {K : Type} [LinearOrderedField K] (cfg : Conf K)
    (B O : Hd K) (hg : updateGate cfg B O = true) (c : Fin 6) :
    (SipUpdateHDThreshold cfg B O).call c =
      if c ∈ callIndices.takeWhile (fun i => isActive (B.call i)) then
        { B.call c with
          p_freq := (O.call c).p_freq
          p_dur := (O.call c).p_dur
          num := (O.call c).num
          dur := (O.call c).dur }
      else B.call c := by
  unfold SipUpdateHDThreshold
  simp only [hg, if_true]
  rw [updateLoop_eq_foldl_takeWhile, updateLoop_foldl_call]

/-- Against a baseline whose INTERNATIONAL flag is not active, the probability loop and
the distance loop do not run: the observation is the aggregate `SipGetCallData` built,
with all probabilities 0 and the distance 0. -/
theorem hdTesting_of_inactive {K : Type} [LinearOrderedField K] (sqrt : K → K)
    (cfg : Conf K) (B : Hd K) (rows : List CdrRow)
    (hin : isActive (B.call INTERNATIONAL) = false) :
    hdTesting sqrt cfg B rows = SipGetCallData (CLEAR_HD Hd.uninit) rows ∧
    (∀ c, ((hdTesting sqrt cfg B rows).call c).p_freq = 0 ∧
      ((hdTesting sqrt cfg B rows).call c).p_dur = 0) ∧
    (hdTesting sqrt cfg B rows).distance_value = 0 := by
  have heq : hdTesting sqrt cfg B rows = SipGetCallData (CLEAR_HD Hd.uninit) rows := by
    unfold hdTesting
    rw [SipCalcHellingerDistance_of_inactive sqrt _ _ hin]
    unfold SipCalcHDProbabilities callIndices
    have h0 : isActive (B.call 0) = false := hin
    split_ifs
    · simp only [forWhile, h0, Bool.false_eq_true, if_false]
    · rfl
  refine ⟨heq, fun c => ?_, ?_⟩
  · rw [heq]
    obtain ⟨hp, -⟩ := SipGetCallData_prob (CLEAR_HD (Hd.uninit (K := K))) rows
    exact ⟨(hp c).1, (hp c).2⟩
  · rw [heq, (SipGetCallData_scalars _ _).1]
    rfl

/-! ## A window in the proportions of the baseline (C25) -/

/-- The aggregate of the window of ten MOBILE calls. -/
theorem tenMobile_counts {K : Type} [Zero K] (c : Fin 6) :
    ((SipGetCallData (CLEAR_HD (Hd.uninit (K := K))) tenMobile).call c).num =
      (if c = MOBILE then 10 else 0) ∧
    ((SipGetCallData (CLEAR_HD (Hd.uninit (K := K))) tenMobile).call c).dur =
      (if c = MOBILE then 600 else 0) ∧
    (SipGetCallData (CLEAR_HD (Hd.uninit (K := K))) tenMobile).num_total = 10 ∧
    (SipGetCallData (CLEAR_HD (Hd.uninit (K := K))) tenMobile).dur_total = 600 := by
  fin_cases c <;>
  simp [SipGetCallData, SipGetCallData.row, SipGetCallData.total, callIndices, addCall,
    CLEAR_HD, Hd.uninit, strncmpEq, MOBILE, tenMobile]

/-- The aggregate of the window of eleven MOBILE calls. -/
theorem elevenMobile_counts {K : Type} [Zero K] (c : Fin 6) :
    ((SipGetCallData (CLEAR_HD (Hd.uninit (K := K))) elevenMobile).call c).num =
      (if c = MOBILE then 11 else 0) ∧
    ((SipGetCallData (CLEAR_HD (Hd.uninit (K := K))) elevenMobile).call c).dur =
      (if c = MOBILE then 660 else 0) ∧
    (SipGetCallData (CLEAR_HD (Hd.uninit (K := K))) elevenMobile).num_total = 11 ∧
    (SipGetCallData (CLEAR_HD (Hd.uninit (K := K))) elevenMobile).dur_total = 660 := by
  fin_cases c <;>
  simp [SipGetCallData, SipGetCallData.row, SipGetCallData.total, callIndices, addCall,
    CLEAR_HD, Hd.uninit, strncmpEq, MOBILE, tenMobile, elevenMobile]

/-- The distance of an observation is the sum, over the call types before the first
inactive one of the baseline, of the terms on the probabilities `SipCalcHDProbabilities`
left. -/
theorem hdTesting_distance {K : Type} [LinearOrderedField K] (sqrt : K → K) (cfg : Conf K)
    (B : Hd K) (rows : List CdrRow) :
    (hdTesting sqrt cfg B rows).distance_value =
      ((callIndices.takeWhile fun c => isActive (B.call c)).map fun c =>
        specTerm sqrt (B.call c).p_freq
            ((SipCalcHDProbabilities B cfg (SipGetCallData (CLEAR_HD Hd.uninit) rows)).call
              c).p_freq +
          specTerm sqrt (B.call c).p_dur
            ((SipCalcHDProbabilities B cfg (SipGetCallData (CLEAR_HD Hd.uninit) rows)).call
              c).p_dur).sum := by
  unfold hdTesting
  rw [SipCalcHellingerDistance_distance, (SipCalcHDProbabilities_scalars _ _ _).1,
    (SipGetCallData_scalars _ _).1]
  show (0 : K) + _ = _
  rw [zero_add]

/-- The baseline that the seed of scenario 2 leaves, for any set of active call types: the
seed succeeds, the cursor stands at `10:20:00`, the flags are the configured ones, the
three scalars are 0, and every call type before the first inactive one holds the
proportions of the window of ten MOBILE calls. -/
theorem driftScenario_seed {K : Type} [LinearOrderedField K] (sqrt : K → K)
    (active : Fin 6 → Bool) :
    (SipTrainingInitThreshold sqrt (defaultConf K ts_2024_01_16_00h) driftSource
      (some ts_2024_01_15_10h) none (freshEngine K active ts_2024_01_15_10h none)).ret =
        SIP_OK ∧
    (SipTrainingInitThreshold sqrt (defaultConf K ts_2024_01_16_00h) driftSource
      (some ts_2024_01_15_10h) none
      (freshEngine K active ts_2024_01_15_10h none)).eng.last_transaction_ts =
        ts_2024_01_15_10h + 1200 ∧
    (SipTrainingInitThreshold sqrt (defaultConf K ts_2024_01_16_00h) driftSource
      (some ts_2024_01_15_10h) none
      (freshEngine K active ts_2024_01_15_10h none)).eng.current_time =
        ts_2024_01_15_10h + 1200 ∧
    (SipTrainingInitThreshold sqrt (defaultConf K ts_2024_01_16_00h) driftSource
      (some ts_2024_01_15_10h) none
      (freshEngine K active ts_2024_01_15_10h none)).eng.detect_start_ts = none ∧
    (∀ c, ((SipTrainingInitThreshold sqrt (defaultConf K ts_2024_01_16_00h) driftSource
      (some ts_2024_01_15_10h) none
      (freshEngine K active ts_2024_01_15_10h none)).eng.hd_detection.call c).flag =
        ((configuredBaseline K active 0 0 0).call c).flag) ∧
    (∀ c, c ∈ callIndices.takeWhile
        (fun i => isActive ((configuredBaseline K active 0 0 0).call i)) →
      ((SipTrainingInitThreshold sqrt (defaultConf K ts_2024_01_16_00h) driftSource
        (some ts_2024_01_15_10h) none
        (freshEngine K active ts_2024_01_15_10h none)).eng.hd_detection.call c).p_freq =
          (if c = MOBILE then 10 else 0) / 610 ∧
      ((SipTrainingInitThreshold sqrt (defaultConf K ts_2024_01_16_00h) driftSource
        (some ts_2024_01_15_10h) none
        (freshEngine K active ts_2024_01_15_10h none)).eng.hd_detection.call c).p_dur =
          (if c = MOBILE then 600 else 0) / 610) := by
  have hret : (SipTrainingInitThreshold sqrt (defaultConf K ts_2024_01_16_00h) driftSource
      (some ts_2024_01_15_10h) none (freshEngine K active ts_2024_01_15_10h none)).ret =
        SIP_OK := rfl
  obtain ⟨q0, q1, rows0, rows1, hq, hf0, hf1, hhd⟩ := SipTrainingInitThreshold_hd sqrt
    (defaultConf K ts_2024_01_16_00h) driftSource (some ts_2024_01_15_10h) none
    (freshEngine K active ts_2024_01_15_10h none) hret
  have hq' : [q0, q1] = [ts_2024_01_15_10h, ts_2024_01_15_10h + 600] := by
    rw [← hq]
    simp [SipTrainingInitThreshold, driftSource, SipUpdateTimeStamp, defaultConf, freshEngine,
      SIP_RUN_MODE_OFFLINE, ts_2024_01_15_10h, ts_2024_01_16_00h, mktime, localtime, utc]
  have hq0 : q0 = ts_2024_01_15_10h := by
    have := List.head_eq_of_cons_eq hq'
    exact this
  have hq1 : q1 = ts_2024_01_15_10h + 600 := by
    have := List.head_eq_of_cons_eq (List.tail_eq_of_cons_eq hq')
    exact this
  subst hq0
  subst hq1
  have hr0 : rows0 = tenMobile := (Option.some.inj hf0).symm
  have hr1 : rows1 = tenMobile := (Option.some.inj hf1).symm
  subst hr0
  subst hr1
  have hB0 : (freshEngine K active ts_2024_01_15_10h none).hd_detection =
      configuredBaseline K active 0 0 0 := rfl
  rw [hB0] at hhd
  have hin : isActive ((SipCalcHDProbabilities (configuredBaseline K active 0 0 0)
      (defaultConf K ts_2024_01_16_00h)
      (SipGetCallData (CLEAR_HD Hd.uninit) tenMobile)).call INTERNATIONAL) = false := by
    unfold isActive
    rw [SipCalcHDProbabilities_flag, SipGetCallData_flag]
    show (CALLTYPE_INACTIVE &&& CALLTYPE_ACTIVE != 0) = false
    decide
  rw [SipCalcHellingerDistance_of_inactive sqrt _ _ hin] at hhd
  have hgate : updateGate (defaultConf K ts_2024_01_16_00h)
      (SipCalcHDProbabilities (SipGetCallData (configuredBaseline K active 0 0 0) tenMobile)
        (defaultConf K ts_2024_01_16_00h)
        (SipGetCallData (configuredBaseline K active 0 0 0) tenMobile))
      (SipCalcHDProbabilities (configuredBaseline K active 0 0 0)
        (defaultConf K ts_2024_01_16_00h)
        (SipGetCallData (CLEAR_HD Hd.uninit) tenMobile)) = true := by
    have hH2 : (SipCalcHDProbabilities
        (SipGetCallData (configuredBaseline K active 0 0 0) tenMobile)
        (defaultConf K ts_2024_01_16_00h)
        (SipGetCallData (configuredBaseline K active 0 0 0) tenMobile)).distance_value = 0 := by
      rw [(SipCalcHDProbabilities_scalars _ _ _).1, (SipGetCallData_scalars _ _).1]
      rfl
    unfold updateGate
    rw [hH2]
    simp
  have hflag : ∀ c, ((SipCalcHDProbabilities
      (SipGetCallData (configuredBaseline K active 0 0 0) tenMobile)
      (defaultConf K ts_2024_01_16_00h)
      (SipGetCallData (configuredBaseline K active 0 0 0) tenMobile)).call c).flag =
        ((configuredBaseline K active 0 0 0).call c).flag := by
    intro c
    rw [SipCalcHDProbabilities_flag, SipGetCallData_flag]
  have hpre : (fun i => isActive ((SipCalcHDProbabilities
      (SipGetCallData (configuredBaseline K active 0 0 0) tenMobile)
      (defaultConf K ts_2024_01_16_00h)
      (SipGetCallData (configuredBaseline K active 0 0 0) tenMobile)).call i)) =
        fun i => isActive ((configuredBaseline K active 0 0 0).call i) := by
    funext i
    unfold isActive
    rw [hflag]
  have hmet : probFloorsMet (defaultConf K ts_2024_01_16_00h)
      (SipGetCallData (CLEAR_HD Hd.uninit) tenMobile) = true := by
    unfold probFloorsMet
    rw [(tenMobile_counts (K := K) 0).2.2.1]
    simp [defaultConf, toU64]
  refine ⟨hret, ?_, ?_, ?_, ?_, ?_⟩
  · simp [SipTrainingInitThreshold, driftSource, SipUpdateTimeStamp, defaultConf, freshEngine,
      SIP_RUN_MODE_OFFLINE, ts_2024_01_15_10h, ts_2024_01_16_00h, mktime, localtime, utc]
  · simp [SipTrainingInitThreshold, driftSource, SipUpdateTimeStamp, defaultConf, freshEngine,
      SIP_RUN_MODE_OFFLINE, ts_2024_01_15_10h, ts_2024_01_16_00h, mktime, localtime, utc]
  · simp [SipTrainingInitThreshold, driftSource, SipUpdateTimeStamp, defaultConf, freshEngine,
      SIP_RUN_MODE_OFFLINE, ts_2024_01_15_10h, ts_2024_01_16_00h, mktime, localtime, utc]
  · intro c
    rw [hhd, SipUpdateHDThreshold_call _ _ _ hgate, hpre]
    split_ifs
    · exact hflag c
    · exact hflag c
  · intro c hc
    rw [hhd, SipUpdateHDThreshold_call _ _ _ hgate, hpre, if_pos hc]
    dsimp only
    obtain ⟨hpf, hpd⟩ := SipCalcHDProbabilities_prob (configuredBaseline K active 0 0 0)
      (defaultConf K ts_2024_01_16_00h) (SipGetCallData (CLEAR_HD Hd.uninit) tenMobile) hmet c
    rw [hpf, hpd, if_pos hc, if_pos hc, (tenMobile_counts (K := K) c).1,
      (tenMobile_counts (K := K) c).2.1, (tenMobile_counts (K := K) c).2.2.1,
      (tenMobile_counts (K := K) c).2.2.2]
    constructor <;> split_ifs <;> norm_num

/-- The baseline a training call leaves when its fetch succeeds: the update runs exactly
when the distance of the window is positive. -/
theorem SipTrainingAnomalyDetection_hd {K : Type} [LinearOrderedField K] (sqrt : K → K)
    (cfg : Conf K) (cdr : CdrSource) (eng : Engine K) (rows : List CdrRow)
    (hfetch : cdr eng.last_transaction_ts cfg.interval = some rows) :
    (SipTrainingAnomalyDetection sqrt cfg cdr eng).1 = SIP_OK ∧
    (SipTrainingAnomalyDetection sqrt cfg cdr eng).2.hd_detection =
      if (hdTesting sqrt cfg eng.hd_detection rows).distance_value > 0 then
        SipUpdateHDThreshold cfg eng.hd_detection (hdTesting sqrt cfg eng.hd_detection rows)
      else eng.hd_detection := by
  unfold SipTrainingAnomalyDetection
  rw [hfetch]
  refine ⟨rfl, ?_⟩
  dsimp only
  rw [SipUpdateTimeStamp_hd]
  rfl

/-- The window of eleven MOBILE calls against the baseline seeded from windows of ten: the
distance is 0, whatever the set of active call types.  A call type the loops reach has
either no call in the window, or the proportions `11/671 = 10/610` and `660/671 = 600/610`
of the baseline. -/
theorem driftScenario_distance {K : Type} [LinearOrderedField K] (sqrt : K → K)
    (active : Fin 6 → Bool) :
    (hdTesting sqrt (defaultConf K ts_2024_01_16_00h) (driftSeed sqrt active).hd_detection
      elevenMobile).distance_value = 0 := by
  obtain ⟨-, -, -, -, hflag, hprob⟩ := driftScenario_seed sqrt active
  have hpre : (fun i => isActive ((driftSeed sqrt active).hd_detection.call i)) =
      fun i => isActive ((configuredBaseline K active 0 0 0).call i) := by
    funext i
    unfold isActive driftSeed
    rw [hflag]
  have hmet : probFloorsMet (defaultConf K ts_2024_01_16_00h)
      (SipGetCallData (CLEAR_HD Hd.uninit) elevenMobile) = true := by
    unfold probFloorsMet
    rw [(elevenMobile_counts (K := K) 0).2.2.1]
    simp [defaultConf, toU64]
  rw [hdTesting_distance, hpre]
  refine List.sum_eq_zero ?_
  intro x hx
  obtain ⟨c, hc, rfl⟩ := List.mem_map.mp hx
  obtain ⟨hpf, hpd⟩ := SipCalcHDProbabilities_prob (driftSeed sqrt active).hd_detection
    (defaultConf K ts_2024_01_16_00h) (SipGetCallData (CLEAR_HD Hd.uninit) elevenMobile) hmet c
  rw [hpre] at hpf hpd
  rw [hpf, hpd, if_pos hc, if_pos hc, (elevenMobile_counts (K := K) c).1,
    (elevenMobile_counts (K := K) c).2.1, (elevenMobile_counts (K := K) c).2.2.1,
    (elevenMobile_counts (K := K) c).2.2.2]
  have hb := hprob c hc
  unfold driftSeed
  rw [hb.1, hb.2]
  unfold specTerm
  by_cases hm : c = MOBILE
  · have e1 : ((10 : K) / 610) = (((11 : Nat) : K) / (((11 + 660) % 2 ^ 64 : Nat) : K)) := by
      norm_num
    have e2 : ((600 : K) / 610) = (((660 : Nat) : K) / (((11 + 660) % 2 ^ 64 : Nat) : K)) := by
      norm_num
    simp only [hm, if_true, e1, e2, sub_self]
    split_ifs <;> norm_num
  · simp [hm]

/-- The pass over the window of eleven MOBILE calls that follows the seed of scenario 2,
for any set of active call types: the window queried is that one, its distance is 0, the
gate of `SipUpdateHDThreshold` would pass, the baseline has `dist_ewma = 0`, and both a
training call and a detection call leave the baseline as it was. -/
theorem driftScenario_tick {K : Type} [LinearOrderedField K] (sqrt : K → K)
    (active : Fin 6 → Bool) :
    driftSource (driftSeed sqrt active).last_transaction_ts
      (defaultConf K ts_2024_01_16_00h).interval = some elevenMobile ∧
    (hdTesting sqrt (defaultConf K ts_2024_01_16_00h) (driftSeed sqrt active).hd_detection
      elevenMobile).distance_value = 0 ∧
    updateGate (defaultConf K ts_2024_01_16_00h) (driftSeed sqrt active).hd_detection
      (hdTesting sqrt (defaultConf K ts_2024_01_16_00h) (driftSeed sqrt active).hd_detection
        elevenMobile) = true ∧
    (driftSeed sqrt active).hd_detection.distance_value = 0 ∧
    (SipTrainingAnomalyDetection sqrt (defaultConf K ts_2024_01_16_00h) driftSource
      (driftSeed sqrt active)).2.hd_detection = (driftSeed sqrt active).hd_detection ∧
    (SipAnomalyDetection sqrt (defaultConf K ts_2024_01_16_00h) driftSource
      (driftSeed sqrt active)).ret = FALSE ∧
    (SipAnomalyDetection sqrt (defaultConf K ts_2024_01_16_00h) driftSource
      (driftSeed sqrt active)).eng.hd_detection = (driftSeed sqrt active).hd_detection := by
  obtain ⟨hret, hts, hct, hdts, -, -⟩ := driftScenario_seed sqrt active
  obtain ⟨hsd, -, hst⟩ := SipTrainingInitThreshold_scalars sqrt
    (defaultConf K ts_2024_01_16_00h) driftSource (some ts_2024_01_15_10h) none
    (freshEngine K active ts_2024_01_15_10h none) ⟨rfl, rfl, rfl⟩ hret
  have hdist := driftScenario_distance sqrt active
  have hfetch : driftSource (driftSeed sqrt active).last_transaction_ts
      (defaultConf K ts_2024_01_16_00h).interval = some elevenMobile := by
    unfold driftSeed
    rw [hts]
    unfold driftSource
    rw [if_neg (lt_irrefl _)]
  have hsnap : snapDetectStart (driftSeed sqrt active) = driftSeed sqrt active :=
    snapDetectStart_eq_self _ (Or.inl hdts)
  have hquiet := SipAnomalyDetection_quiet_of_zero sqrt (defaultConf K ts_2024_01_16_00h)
    driftSource (driftSeed sqrt active) elevenMobile (by rw [hsnap]; exact hfetch)
    (SipUpdateTimeStamp_ok_of_le _ _ _ (by
      rw [hsnap, instant_defaultConf]
      unfold driftSeed
      rw [hct]
      show ts_2024_01_15_10h + 1200 ≤ ts_2024_01_16_00h
      decide))
    hdist (le_of_eq hst.symm)
  refine ⟨hfetch, hdist, ?_, hsd, ?_, hquiet.1, hquiet.2⟩
  · unfold updateGate
    have hsd' : (driftSeed sqrt active).hd_detection.distance_value = 0 := hsd
    rw [hsd']
    simp
  · rw [(SipTrainingAnomalyDetection_hd sqrt _ _ _ elevenMobile hfetch).2, hdist,
      if_neg (lt_irrefl _)]

/-- **C25** fails on the code as stated.  Scenario 2 of the specification over the reals:
active set `{MOBILE}`, `σ = 1.2`, `α = 0.5`, baseline seeded from two windows of ten
MOBILE calls totalling 600 s, next window eleven MOBILE calls totalling 660 s.  The
distance of the next window is 0, the detection call returns `FALSE`, and `dist_ewma`,
which was 0, is 0 afterwards, after a detection call as after a training call: it does
not increase. -/
theorem C25_dist_ewma_stays_zero :
    (driftSeed Real.sqrt mobileOnly).hd_detection.distance_value = 0 ∧
    driftSource (driftSeed Real.sqrt mobileOnly).last_transaction_ts
      (defaultConf ℝ ts_2024_01_16_00h).interval = some elevenMobile ∧
    (SipAnomalyDetection Real.sqrt (defaultConf ℝ ts_2024_01_16_00h) driftSource
      (driftSeed Real.sqrt mobileOnly)).eng.hd_detection.distance_value = 0 ∧
    (SipTrainingAnomalyDetection Real.sqrt (defaultConf ℝ ts_2024_01_16_00h) driftSource
      (driftSeed Real.sqrt mobileOnly)).2.hd_detection.distance_value = 0 := by
  obtain ⟨hfetch, -, -, hsd, htrain, -, hdet⟩ := driftScenario_tick Real.sqrt mobileOnly
  exact ⟨hsd, hfetch, by rw [hdet]; exact hsd, by rw [htrain]; exact hsd⟩

/-- **C25, amended.** With the baseline seeded from two identical windows of ten MOBILE
calls totalling 600 s (`σ = 1.2`, `α = 0.5`; active set `{MOBILE}` or any other), the next
window of eleven MOBILE calls totalling 660 s has the distance 0, which is below `α`: its
proportions `11/671` and `660/671` are those of the baseline, `10/610` and `600/610`.  The
gate of `SipUpdateHDThreshold` would pass, but the update is made only for a positive
distance: a training call and a detection call both leave the baseline as it was, the
detection call returns `FALSE`, and `dist_ewma` stays 0. -/
theorem C25_proportional_window_leaves_baseline {K : Type} [LinearOrderedField K]
    (sqrt : K → K) (active : Fin 6 → Bool) :
    driftSource (driftSeed sqrt active).last_transaction_ts
      (defaultConf K ts_2024_01_16_00h).interval = some elevenMobile ∧
    (hdTesting sqrt (defaultConf K ts_2024_01_16_00h) (driftSeed sqrt active).hd_detection
      elevenMobile).distance_value = 0 ∧
    (hdTesting sqrt (defaultConf K ts_2024_01_16_00h) (driftSeed sqrt active).hd_detection
      elevenMobile).distance_value < (defaultConf K ts_2024_01_16_00h).adaptability ∧
    updateGate (defaultConf K ts_2024_01_16_00h) (driftSeed sqrt active).hd_detection
      (hdTesting sqrt (defaultConf K ts_2024_01_16_00h) (driftSeed sqrt active).hd_detection
        elevenMobile) = true ∧
    (SipTrainingAnomalyDetection sqrt (defaultConf K ts_2024_01_16_00h) driftSource
      (driftSeed sqrt active)).2.hd_detection = (driftSeed sqrt active).hd_detection ∧
    (SipAnomalyDetection sqrt (defaultConf K ts_2024_01_16_00h) driftSource
      (driftSeed sqrt active)).ret = FALSE ∧
    (SipAnomalyDetection sqrt (defaultConf K ts_2024_01_16_00h) driftSource
      (driftSeed sqrt active)).eng.hd_detection = (driftSeed sqrt active).hd_detection ∧
    (driftSeed sqrt active).hd_detection.distance_value = 0 := by
  obtain ⟨hfetch, hdist, hgate, hsd, htrain, hret, hdet⟩ := driftScenario_tick sqrt active
  refine ⟨hfetch, hdist, ?_, hgate, htrain, hret, hdet, hsd⟩
  rw [hdist]
  norm_num [defaultConf]

/-! ## The length of the training loop (C26) -/

/-- The training loop from `sleep_t = s`, when `s + k * interval < train_period ≤
s + (k + 1) * interval` and the counter does not wrap: with every fetch successful and
enough fuel it makes exactly `k + 1` passes and ends. -/
theorem mainTrainingLoop_passes {K : Type} [LinearOrderedField K] (sqrt : K → K)
    (cfg : Conf K) (cdr : CdrSource) (train_period main_interval : Nat)
    (hfetch : ∀ ts, ∃ rows, cdr ts cfg.interval = some rows) :
    ∀ (k s fuel : Nat) (eng : Engine K),
      s + k * main_interval < train_period →
      train_period ≤ s + (k + 1) * main_interval →
      s + (k + 1) * main_interval < 2 ^ 64 →
      k + 1 ≤ fuel →
      (mainTrainingLoop sqrt cfg cdr train_period main_interval fuel s eng).1.length = k + 1 ∧
      ∃ e, (mainTrainingLoop sqrt cfg cdr train_period main_interval fuel s eng).2 =
        some e := by
  intro k
  induction k with
  | zero =>
      intro s fuel eng hlt hle hrange hfuel
      obtain ⟨f, rfl⟩ : ∃ f, fuel = f + 1 := ⟨fuel - 1, by omega⟩
      obtain ⟨rows, hrows⟩ := hfetch eng.last_transaction_ts
      have hok := (SipTrainingAnomalyDetection_hd sqrt cfg cdr eng rows hrows).1
      have hmod : (s + main_interval) % 2 ^ 64 = s + main_interval :=
        Nat.mod_eq_of_lt (by omega)
      rw [mainTrainingLoop, if_neg (by rw [hok]; decide), hmod, if_pos (by omega)]
      exact ⟨rfl, _, rfl⟩
  | succ k ih =>
      intro s fuel eng hlt hle hrange hfuel
      obtain ⟨f, rfl⟩ : ∃ f, fuel = f + 1 := ⟨fuel - 1, by omega⟩
      obtain ⟨rows, hrows⟩ := hfetch eng.last_transaction_ts
      have hok := (SipTrainingAnomalyDetection_hd sqrt cfg cdr eng rows hrows).1
      have e1 : (k + 1) * main_interval = k * main_interval + main_interval := Nat.succ_mul _ _
      have e2 : (k + 1 + 1) * main_interval = k * main_interval + main_interval + main_interval := by
        rw [Nat.succ_mul, e1]
      have hmod : (s + main_interval) % 2 ^ 64 = s + main_interval :=
        Nat.mod_eq_of_lt (by omega)
      rw [mainTrainingLoop, if_neg (by rw [hok]; decide), hmod, if_neg (by omega)]
      obtain ⟨h1, e, h2⟩ := ih (s + main_interval) f
        (SipTrainingAnomalyDetection sqrt cfg cdr eng).2 (by omega) (by omega) (by omega)
        (by omega)
      refine ⟨?_, e, h2⟩
      rw [List.length_cons, h1]

/-- **C26.** For `interval ≥ 1` and `training-period = T ≥ 1` (with `T + interval ≤ 2^64`,
so that the 64-bit counter `sleep_t` does not wrap) and every fetch successful, the
training loop of `main`, started with `sleep_t = 0`, ends, given enough fuel, after exactly
`⌈T / interval⌉ = (T + interval − 1) / interval` calls of `SipTrainingAnomalyDetection`:
the least number `n` of passes with `n * interval ≥ T`. -/
theorem C26_training_loop_ticks {K : Type} [LinearOrderedField K] (sqrt : K → K)
    (cfg : Conf K) (cdr : CdrSource) (train_period main_interval fuel : Nat) (eng : Engine K)
    (hint : 1 ≤ main_interval) (hT : 1 ≤ train_period)
    (hrange : train_period + main_interval ≤ 2 ^ 64)
    (hfetch : ∀ ts, ∃ rows, cdr ts cfg.interval = some rows)
    (hfuel : (train_period + main_interval - 1) / main_interval ≤ fuel) :
    (mainTrainingLoop sqrt cfg cdr train_period main_interval fuel 0 eng).1.length =
      (train_period + main_interval - 1) / main_interval ∧
    (∃ e, (mainTrainingLoop sqrt cfg cdr train_period main_interval fuel 0 eng).2 = some e) ∧
    train_period ≤ (train_period + main_interval - 1) / main_interval * main_interval ∧
    ((train_period + main_interval - 1) / main_interval - 1) * main_interval < train_period := by
  have hdm := Nat.div_add_mod (train_period + main_interval - 1) main_interval
  have hmod := Nat.mod_lt (train_period + main_interval - 1) (show main_interval > 0 by omega)
  obtain ⟨k, hk⟩ : ∃ k, (train_period + main_interval - 1) / main_interval = k + 1 := by
    refine ⟨(train_period + main_interval - 1) / main_interval - 1, ?_⟩
    have : 1 ≤ (train_period + main_interval - 1) / main_interval :=
      (Nat.one_le_div_iff (by omega)).mpr (by omega)
    omega
  rw [hk] at hdm hfuel ⊢
  have e0 : main_interval * (k + 1) = k * main_interval + main_interval := by
    rw [Nat.mul_comm, Nat.succ_mul]
  have e1 : (k + 1) * main_interval = k * main_interval + main_interval := Nat.succ_mul _ _
  rw [e0] at hdm
  obtain ⟨h1, h2⟩ := mainTrainingLoop_passes sqrt cfg cdr train_period main_interval hfetch
    k 0 fuel eng (by omega) (by omega) (by omega) hfuel
  refine ⟨h1, h2, by omega, ?_⟩
  rw [Nat.add_sub_cancel]
  omega

/-- Witness of C26: the defaults `training-period = 10080` and `interval = 10` give 1008
calls of `SipTrainingAnomalyDetection`. -/
theorem C26_training_loop_ticks_witness :
    (mainTrainingLoop Real.sqrt (defaultConf ℝ ts_2024_01_16_00h) (constSource tenMobile)
      10080 10 1008 0
      (driftSeed Real.sqrt allTypes)).1.length = 1008 ∧
    ∃ e, (mainTrainingLoop Real.sqrt (defaultConf ℝ ts_2024_01_16_00h) (constSource tenMobile)
      10080 10 1008 0 (driftSeed Real.sqrt allTypes)).2 = some e :=
  ⟨(C26_training_loop_ticks Real.sqrt (defaultConf ℝ ts_2024_01_16_00h)
      (constSource tenMobile) 10080 10 1008 (driftSeed Real.sqrt allTypes) (by decide)
      (by decide) (by decide) (fun _ => ⟨tenMobile, rfl⟩) (by decide)).1,
    (C26_training_loop_ticks Real.sqrt (defaultConf ℝ ts_2024_01_16_00h)
      (constSource tenMobile) 10080 10 1008 (driftSeed Real.sqrt allTypes) (by decide)
      (by decide) (by decide) (fun _ => ⟨tenMobile, rfl⟩) (by decide)).2.1⟩

/-! ## The reduction of a window (C27) -/

/-- A row that carries the name of category `c` is counted for `c` by the `if / else if`
chain of `SipGetCallData`. -/
theorem SipGetCallData_row_of_name {K : Type} (hd : Hd K) (r : CdrRow) (c : Fin 6)
    (hname : r.calltype = callTypeName c) :
    SipGetCallData.row hd r = addCall hd c r.billsec := by
  unfold SipGetCallData.row
  rw [hname]
  fin_cases c <;>
  simp [callTypeName, strncmpEq, INTERNATIONAL, MOBILE, PREMIUM, SERVICE, DOMESTIC, EMERGENCY]

/-- The six category names are different from one another. -/
theorem callTypeName_injective (a b : Fin 6) (hab : callTypeName a = callTypeName b) :
    a = b := by
  fin_cases a <;> fin_cases b <;> first | rfl | (exact absurd hab (by decide))

/-- The per-category counters after the row loop, modulo `2^32`: what was there plus the
rows of the category. -/
theorem foldl_row_counts {K : Type} (c : Fin 6) :
    ∀ (rows : List CdrRow) (hd : Hd K),
      (∀ r ∈ rows, ∃ i, r.calltype = callTypeName i) →
      ((rows.foldl SipGetCallData.row hd).call c).num % 2 ^ 32 =
        ((hd.call c).num + specCount rows c) % 2 ^ 32 ∧
      ((rows.foldl SipGetCallData.row hd).call c).dur % 2 ^ 32 =
        ((hd.call c).dur + specDuration rows c) % 2 ^ 32 := by
  intro rows
  induction rows with
  | nil =>
      intro hd _
      simp [specCount, specDuration]
  | cons r rs ih =>
      intro hd hnames
      obtain ⟨i, hi⟩ := hnames r (List.mem_cons_self r rs)
      obtain ⟨h1, h2⟩ := ih (SipGetCallData.row hd r)
        (fun x hx => hnames x (List.mem_cons_of_mem r hx))
      rw [List.foldl_cons, h1, h2, SipGetCallData_row_of_name hd r i hi]
      by_cases hic : c = i
      · subst hic
        have hdec : decide (r.calltype = callTypeName c) = true := by simp [hi]
        simp only [specCount, specDuration, List.filter_cons, hdec, if_true, List.length_cons,
          List.map_cons, List.sum_cons, addCall, Function.update_same]
        constructor <;> omega
      · have hne : ¬ r.calltype = callTypeName c := by
          rw [hi]
          exact fun hc => hic (callTypeName_injective _ _ hc).symm
        have hdec : decide (r.calltype = callTypeName c) = false := by simp [hne]
        simp only [specCount, specDuration, List.filter_cons, hdec, Bool.false_eq_true,
          if_false, addCall, Function.update_noteq hic]
        exact ⟨trivial, trivial⟩

/-- Every row with a category name is counted in exactly one category. -/
theorem sum_specCount (rows : List CdrRow)
    (hnames : ∀ r ∈ rows, ∃ i, r.calltype = callTypeName i) :
    ∑ c : Fin 6, specCount rows c = rows.length ∧
    ∑ c : Fin 6, specDuration rows c = (rows.map CdrRow.billsec).sum := by
  induction rows with
  | nil => simp [specCount, specDuration]
  | cons r rs ih =>
      obtain ⟨i, hi⟩ := hnames r (List.mem_cons_self r rs)
      obtain ⟨h1, h2⟩ := ih (fun x hx => hnames x (List.mem_cons_of_mem r hx))
      have hstep : ∀ c : Fin 6,
          specCount (r :: rs) c = specCount rs c + (if c = i then 1 else 0) ∧
          specDuration (r :: rs) c = specDuration rs c + (if c = i then r.billsec else 0) := by
        intro c
        by_cases hic : c = i
        · subst hic
          have hdec : decide (r.calltype = callTypeName c) = true := by simp [hi]
          simp only [specCount, specDuration, List.filter_cons, hdec, if_true,
            List.length_cons, List.map_cons, List.sum_cons]
          exact ⟨trivial, Nat.add_comm _ _⟩
        · have hne : ¬ r.calltype = callTypeName c := by
            rw [hi]
            exact fun hc => hic (callTypeName_injective _ _ hc).symm
          have hdec : decide (r.calltype = callTypeName c) = false := by simp [hne]
          simp only [specCount, specDuration, List.filter_cons, hdec, Bool.false_eq_true,
            if_false, hic, add_zero]
          exact ⟨trivial, trivial⟩
      constructor
      · rw [Finset.sum_congr rfl (fun c _ => (hstep c).1), Finset.sum_add_distrib, h1,
          Finset.sum_ite_eq' Finset.univ i (fun _ => 1)]
        simp
      · rw [Finset.sum_congr rfl (fun c _ => (hstep c).2), Finset.sum_add_distrib, h2,
          Finset.sum_ite_eq' Finset.univ i (fun _ => r.billsec)]
        simp [Nat.add_comm]

/-- **C27.** For every list of CDR rows whose call type is one of the six category names,
`SipGetCallData` applied to a cleared observation yields, as long as no 32-bit counter
overflows (every per-category count and duration is below `2^32`): for each category `c`,
`n_c` is the number of rows of category `c` and `d_c` the sum of their `billsec`; and the
totals are `N = Σ_c n_c`, the number of rows, and `D = Σ_c d_c`, the sum of all
`billsec`. -/
theorem C27_reduction_counts {K : Type} [Zero K] (rows : List CdrRow)
    (hnames : ∀ r ∈ rows, ∃ c, r.calltype = callTypeName c)
    (hfit : ∀ c, specCount rows c < 2 ^ 32 ∧ specDuration rows c < 2 ^ 32) :
    (∀ c, ((SipGetCallData (CLEAR_HD (Hd.uninit (K := K))) rows).call c).num =
        specCount rows c ∧
      ((SipGetCallData (CLEAR_HD (Hd.uninit (K := K))) rows).call c).dur =
        specDuration rows c) ∧
    (SipGetCallData (CLEAR_HD (Hd.uninit (K := K))) rows).num_total =
      ∑ c : Fin 6, specCount rows c ∧
    (SipGetCallData (CLEAR_HD (Hd.uninit (K := K))) rows).num_total = rows.length ∧
    (SipGetCallData (CLEAR_HD (Hd.uninit (K := K))) rows).dur_total =
      ∑ c : Fin 6, specDuration rows c ∧
    (SipGetCallData (CLEAR_HD (Hd.uninit (K := K))) rows).dur_total =
      (rows.map CdrRow.billsec).sum := by
  have hcall : ∀ c, ((SipGetCallData (CLEAR_HD (Hd.uninit (K := K))) rows).call c).num =
        specCount rows c ∧
      ((SipGetCallData (CLEAR_HD (Hd.uninit (K := K))) rows).call c).dur =
        specDuration rows c := by
    intro c
    have hcallEq : (SipGetCallData (CLEAR_HD (Hd.uninit (K := K))) rows).call =
        (rows.foldl SipGetCallData.row (CLEAR_HD (Hd.uninit (K := K)))).call := by
      unfold SipGetCallData
      exact foldl_total_call callIndices _
    obtain ⟨h1, h2⟩ := foldl_row_counts (K := K) c rows (CLEAR_HD Hd.uninit) hnames
    obtain ⟨b1, b2⟩ := foldl_row_counters_lt rows (CLEAR_HD (Hd.uninit (K := K)))
      (fun _ => ⟨by show (0 : Nat) < 2 ^ 32; decide, by show (0 : Nat) < 2 ^ 32; decide⟩) c
    have z1 : ((CLEAR_HD (Hd.uninit (K := K))).call c).num = 0 := rfl
    have z2 : ((CLEAR_HD (Hd.uninit (K := K))).call c).dur = 0 := rfl
    rw [z1, Nat.zero_add, Nat.mod_eq_of_lt b1, Nat.mod_eq_of_lt (hfit c).1] at h1
    rw [z2, Nat.zero_add, Nat.mod_eq_of_lt b2, Nat.mod_eq_of_lt (hfit c).2] at h2
    rw [hcallEq]
    exact ⟨h1, h2⟩
  obtain ⟨hN, hD⟩ := SipGetCallData_totals_eq (K := K) rows
  obtain ⟨s1, s2⟩ := sum_specCount rows hnames
  have eN : (SipGetCallData (CLEAR_HD (Hd.uninit (K := K))) rows).num_total =
      ∑ c : Fin 6, specCount rows c := by
    rw [hN]
    exact Finset.sum_congr rfl (fun c _ => (hcall c).1)
  have eD : (SipGetCallData (CLEAR_HD (Hd.uninit (K := K))) rows).dur_total =
      ∑ c : Fin 6, specDuration rows c := by
    rw [hD]
    exact Finset.sum_congr rfl (fun c _ => (hcall c).2)
  exact ⟨hcall, eN, eN.trans s1, eD, eD.trans s2⟩

/-- Witness of C27: the window of three INTERNATIONAL and two MOBILE calls of 60 s each
gives `n_INTERNATIONAL = 3`, `d_MOBILE = 120`, `N = 5` and `D = 300`. -/
theorem C27_reduction_counts_witness :
    ((SipGetCallData (CLEAR_HD (Hd.uninit (K := ℚ))) threeOfFive).call INTERNATIONAL).num = 3 ∧
    ((SipGetCallData (CLEAR_HD (Hd.uninit (K := ℚ))) threeOfFive).call MOBILE).dur = 120 ∧
    (SipGetCallData (CLEAR_HD (Hd.uninit (K := ℚ))) threeOfFive).num_total = 5 ∧
    (SipGetCallData (CLEAR_HD (Hd.uninit (K := ℚ))) threeOfFive).dur_total = 300 := by
  obtain ⟨hcall, -, hN, -, hD⟩ := C27_reduction_counts (K := ℚ) threeOfFive (by decide)
    (by decide)
  exact ⟨(hcall INTERNATIONAL).1.trans (by decide), (hcall MOBILE).2.trans (by decide),
    hN.trans (by decide), hD.trans (by decide)⟩

/-! ## Frozen baselines (C28, C29) -/

/-- The baseline a detection call leaves: the one it found, unless the fetch succeeded and
the distance `d` of the window satisfies `0 < d ≤ threshold`, in which case it is the one
`SipUpdateHDThreshold` returns. -/
theorem SipAnomalyDetection_hd_cases {K : Type} [LinearOrderedField K] (sqrt : K → K)
    (cfg : Conf K) (cdr : CdrSource) (eng : Engine K) :
    (SipAnomalyDetection sqrt cfg cdr eng).eng.hd_detection = eng.hd_detection ∨
    ∃ rows, cdr (queriedWindow eng) cfg.interval = some rows ∧
      0 < (hdTesting sqrt cfg eng.hd_detection rows).distance_value ∧
      (hdTesting sqrt cfg eng.hd_detection rows).distance_value ≤ eng.hd_detection.threshold ∧
      (SipAnomalyDetection sqrt cfg cdr eng).eng.hd_detection =
        SipUpdateHDThreshold cfg eng.hd_detection (hdTesting sqrt cfg eng.hd_detection rows) := by
  cases hfetch : cdr (queriedWindow eng) cfg.interval with
  | none =>
      left
      have hf : cdr (snapDetectStart eng).last_transaction_ts cfg.interval = none := hfetch
      unfold SipAnomalyDetection
      simp only [hf]
      exact snapDetectStart_hd eng
  | some rows =>
      obtain ⟨-, hhd⟩ := SipAnomalyDetection_of_fetch sqrt cfg cdr eng rows hfetch
      rw [hhd, anomalyDecision_snd]
      by_cases hc : 0 < (hdTesting sqrt cfg eng.hd_detection rows).distance_value ∧
          (hdTesting sqrt cfg eng.hd_detection rows).distance_value ≤
            eng.hd_detection.threshold
      · right
        exact ⟨rows, rfl, hc.1, hc.2, by rw [if_pos hc]⟩
      · left
        rw [if_neg hc]

/-- A detection call on a window whose distance is not above the threshold does not return
`TRUE`. -/
theorem SipAnomalyDetection_not_alert {K : Type} [LinearOrderedField K] (sqrt : K → K)
    (cfg : Conf K) (cdr : CdrSource) (eng : Engine K)
    (hle : ∀ rows, cdr (queriedWindow eng) cfg.interval = some rows →
      (hdTesting sqrt cfg eng.hd_detection rows).distance_value ≤ eng.hd_detection.threshold) :
    (SipAnomalyDetection sqrt cfg cdr eng).ret ≠ TRUE := by
  cases hfetch : cdr (queriedWindow eng) cfg.interval with
  | none =>
      have hf : cdr (snapDetectStart eng).last_transaction_ts cfg.interval = none := hfetch
      have herr : (SipAnomalyDetection sqrt cfg cdr eng).ret = SIP_ERROR := by
        unfold SipAnomalyDetection
        simp only [hf]
      rw [herr]
      decide
  | some rows =>
      obtain ⟨hret, -⟩ := SipAnomalyDetection_of_fetch sqrt cfg cdr eng rows hfetch
      rw [hret]
      split_ifs
      · decide
      · rw [Ne, anomalyDecision_alert_iff]
        intro hc
        exact absurd hc.1 (not_lt.mpr (hle rows hfetch))

/-- A property of the state that every detection pass keeps holds after any number of
passes. -/
theorem mainDetectionPasses_invariant {K : Type} [LinearOrderedField K] (sqrt : K → K)
    (cfg : Conf K) (cdr : CdrSource) (exec_ok : Nat → Bool) (P : World K → Prop)
    (hstep : ∀ (b : Bool) (w : World K), P w → P (mainDetectionTick sqrt cfg cdr b w).2) :
    ∀ (m pass : Nat) (w : World K), P w →
      P (mainDetectionPasses sqrt cfg cdr exec_ok m pass w) := by
  intro m
  induction m with
  | zero =>
      intro pass w hw
      exact hw
  | succ m ih =>
      intro pass w hw
      rw [mainDetectionPasses]
      cases (mainDetectionTick sqrt cfg cdr (exec_ok pass) w).1 with
      | next => exact ih (pass + 1) _ (hstep _ w hw)
      | done => exact hstep _ w hw
      | shutdown => exact hstep _ w hw

/-- A detection pass on a baseline whose INTERNATIONAL flag is not active and whose
threshold is not negative: no alert, and the baseline stays. -/
theorem mainDetectionTick_of_inactive {K : Type} [LinearOrderedField K] (sqrt : K → K)
    (cfg : Conf K) (cdr : CdrSource) (b : Bool) (w : World K)
    (hin : isActive (w.eng.hd_detection.call INTERNATIONAL) = false)
    (hthr : 0 ≤ w.eng.hd_detection.threshold) :
    (SipAnomalyDetection sqrt cfg cdr w.eng).ret ≠ TRUE ∧
    (SipAnomalyDetection sqrt cfg cdr w.eng).eng.hd_detection = w.eng.hd_detection ∧
    (mainDetectionTick sqrt cfg cdr b w).2.alerts = w.alerts ∧
    (mainDetectionTick sqrt cfg cdr b w).2.eng.hd_detection = w.eng.hd_detection := by
  have hzero : ∀ rows, (hdTesting sqrt cfg w.eng.hd_detection rows).distance_value = 0 :=
    fun rows => (hdTesting_of_inactive sqrt cfg w.eng.hd_detection rows hin).2.2
  have hquiet : (SipAnomalyDetection sqrt cfg cdr w.eng).ret ≠ TRUE :=
    SipAnomalyDetection_not_alert sqrt cfg cdr w.eng (fun rows _ => by rw [hzero rows]; exact hthr)
  have hhd : (SipAnomalyDetection sqrt cfg cdr w.eng).eng.hd_detection = w.eng.hd_detection := by
    rcases SipAnomalyDetection_hd_cases sqrt cfg cdr w.eng with h | ⟨rows, -, hpos, -, -⟩
    · exact h
    · rw [hzero rows] at hpos
      exact absurd hpos (lt_irrefl _)
  exact ⟨hquiet, hhd, mainDetectionTick_alerts_of_quiet sqrt cfg cdr b w hquiet,
    by rw [mainDetectionTick_eng, hhd]⟩

/-- **C28.** The probability loop, the distance loop and the baseline-copy loop all run
over the call types, in the order INTERNATIONAL, MOBILE, PREMIUM, SERVICE, DOMESTIC,
EMERGENCY, that come before the first inactive one, and over no other.  In particular,
when INTERNATIONAL is inactive: for every window all probabilities of the observation are
0 and its distance is 0; and, when moreover `B.threshold ≥ 0`, a detection call never
returns `TRUE` and leaves the baseline as it was, so after any number of detection passes
no alert has been added and the baseline is unchanged. -/
theorem C28_loops_stop_at_first_inactive {K : Type} [LinearOrderedField K] (sqrt : K → K)
    (cfg : Conf K) :
    callIndices = [INTERNATIONAL, MOBILE, PREMIUM, SERVICE, DOMESTIC, EMERGENCY] ∧
    (∀ gl hd : Hd K, SipCalcHDProbabilities gl cfg hd =
      if probFloorsMet cfg hd then
        (callIndices.takeWhile fun c => isActive (gl.call c)).foldl
          (fun s c => SipCalcHDProbabilities.body c s) hd
      else hd) ∧
    (∀ B O : Hd K, SipCalcHellingerDistance sqrt B O =
      (callIndices.takeWhile fun c => isActive (B.call c)).foldl
        (fun s c => SipCalcHellingerDistance.body sqrt B c s) O) ∧
    (∀ (B O : Hd K) (c : Fin 6), updateGate cfg B O = true →
      (SipUpdateHDThreshold cfg B O).call c =
        if c ∈ callIndices.takeWhile (fun i => isActive (B.call i)) then
          { B.call c with
            p_freq := (O.call c).p_freq
            p_dur := (O.call c).p_dur
            num := (O.call c).num
            dur := (O.call c).dur }
        else B.call c) ∧
    (∀ (B : Hd K) (rows : List CdrRow), isActive (B.call INTERNATIONAL) = false →
      (∀ c, ((hdTesting sqrt cfg B rows).call c).p_freq = 0 ∧
        ((hdTesting sqrt cfg B rows).call c).p_dur = 0) ∧
      (hdTesting sqrt cfg B rows).distance_value = 0) ∧
    (∀ (cdr : CdrSource) (eng : Engine K),
      isActive (eng.hd_detection.call INTERNATIONAL) = false →
      0 ≤ eng.hd_detection.threshold →
      (SipAnomalyDetection sqrt cfg cdr eng).ret ≠ TRUE ∧
      (SipAnomalyDetection sqrt cfg cdr eng).eng.hd_detection = eng.hd_detection) ∧
    (∀ (cdr : CdrSource) (exec_ok : Nat → Bool) (m pass : Nat) (w : World K),
      isActive (w.eng.hd_detection.call INTERNATIONAL) = false →
      0 ≤ w.eng.hd_detection.threshold →
      (mainDetectionPasses sqrt cfg cdr exec_ok m pass w).alerts = w.alerts ∧
      (mainDetectionPasses sqrt cfg cdr exec_ok m pass w).eng.hd_detection =
        w.eng.hd_detection) := by
  refine ⟨rfl, ?_, ?_, ?_, ?_, ?_, ?_⟩
  · intro gl hd
    unfold SipCalcHDProbabilities
    rw [forWhile_eq_foldl_takeWhile (fun c => isActive (gl.call c))]
  · intro B O
    unfold SipCalcHellingerDistance
    rw [forWhile_eq_foldl_takeWhile (fun c => isActive (B.call c))]
  · intro B O c hg
    exact SipUpdateHDThreshold_call cfg B O hg c
  · intro B rows hin
    exact (hdTesting_of_inactive sqrt cfg B rows hin).2
  · intro cdr eng hin hthr
    obtain ⟨h1, h2, -, -⟩ := mainDetectionTick_of_inactive sqrt cfg cdr true
      { eng := eng, thresholds := [], alerts := [] } hin hthr
    exact ⟨h1, h2⟩
  · intro cdr exec_ok m pass w hin hthr
    have hinv := mainDetectionPasses_invariant sqrt cfg cdr exec_ok
      (fun x : World K => x.alerts = w.alerts ∧ x.eng.hd_detection = w.eng.hd_detection)
      (fun b x hx => by
        obtain ⟨-, -, h3, h4⟩ := mainDetectionTick_of_inactive sqrt cfg cdr b x
          (by rw [hx.2]; exact hin) (by rw [hx.2]; exact hthr)
        exact ⟨h3.trans hx.1, h4.trans hx.2⟩)
      m pass w ⟨rfl, rfl⟩
    exact hinv

/-- Witness of C28: with MOBILE the only active call type and a baseline with threshold 0,
the window of ten MOBILE calls gets the distance 0, the detection call at
`2024-01-15 10:00:00` does not return `TRUE`, and after three detection passes there is no
alert and the baseline is the one the loop started with. -/
theorem C28_loops_stop_at_first_inactive_witness :
    (hdTesting Real.sqrt (defaultConf ℝ ts_2024_01_16_00h) (configuredBaseline ℝ mobileOnly 0 0 0)
      tenMobile).distance_value = 0 ∧
    (SipAnomalyDetection Real.sqrt (defaultConf ℝ ts_2024_01_16_00h) (constSource tenMobile)
      (engineAt (configuredBaseline ℝ mobileOnly 0 0 0) ts_2024_01_15_10h)).ret ≠ TRUE ∧
    (mainDetectionPasses Real.sqrt (defaultConf ℝ ts_2024_01_16_00h) (constSource tenMobile)
      (fun _ => true) 3 0
      (worldAt (configuredBaseline ℝ mobileOnly 0 0 0) ts_2024_01_15_10h)).alerts = [] ∧
    (mainDetectionPasses Real.sqrt (defaultConf ℝ ts_2024_01_16_00h) (constSource tenMobile)
      (fun _ => true) 3 0
      (worldAt (configuredBaseline ℝ mobileOnly 0 0 0)
        ts_2024_01_15_10h)).eng.hd_detection = configuredBaseline ℝ mobileOnly 0 0 0 := by
  obtain ⟨-, -, -, -, h4, h5, h6⟩ :=
    C28_loops_stop_at_first_inactive Real.sqrt (defaultConf ℝ ts_2024_01_16_00h)
  have hin : isActive ((configuredBaseline ℝ mobileOnly 0 0 0).call INTERNATIONAL) = false := by
    decide
  have hthr : (0 : ℝ) ≤ (configuredBaseline ℝ mobileOnly 0 0 0).threshold := le_refl _
  obtain ⟨ha, hb⟩ := h6 (constSource tenMobile) (fun _ => true) 3 0
    (worldAt (configuredBaseline ℝ mobileOnly 0 0 0) ts_2024_01_15_10h) hin hthr
  exact ⟨(h4 _ tenMobile hin).2,
    (h5 (constSource tenMobile)
      (engineAt (configuredBaseline ℝ mobileOnly 0 0 0) ts_2024_01_15_10h) hin hthr).1,
    ha, hb⟩

/-- **C29.** A detection call changes the baseline only when its fetch succeeded, the
distance of the window satisfies `0 < O.dist ≤ B.threshold` and the gate of
`SipUpdateHDThreshold` passes.  So for every baseline with `B.threshold = 0` and every
window, `SipAnomalyDetection` leaves the baseline equal in every field, and after any
number of detection passes the baseline is still the one the loop started with. -/
theorem C29_zero_threshold_freezes_baseline {K : Type} [LinearOrderedField K]
    (sqrt : K → K) (cfg : Conf K) (cdr : CdrSource) (eng : Engine K) :
    ((SipAnomalyDetection sqrt cfg cdr eng).eng.hd_detection ≠ eng.hd_detection →
      ∃ rows, cdr (queriedWindow eng) cfg.interval = some rows ∧
        0 < (hdTesting sqrt cfg eng.hd_detection rows).distance_value ∧
        (hdTesting sqrt cfg eng.hd_detection rows).distance_value ≤
          eng.hd_detection.threshold ∧
        updateGate cfg eng.hd_detection (hdTesting sqrt cfg eng.hd_detection rows) = true) ∧
    (eng.hd_detection.threshold = 0 →
      (SipAnomalyDetection sqrt cfg cdr eng).eng.hd_detection = eng.hd_detection) ∧
    (∀ (exec_ok : Nat → Bool) (m pass : Nat) (w : World K),
      w.eng.hd_detection.threshold = 0 →
      (mainDetectionPasses sqrt cfg cdr exec_ok m pass w).eng.hd_detection =
        w.eng.hd_detection) := by
  have hzero : ∀ e : Engine K, e.hd_detection.threshold = 0 →
      (SipAnomalyDetection sqrt cfg cdr e).eng.hd_detection = e.hd_detection := by
    intro e hthr
    rcases SipAnomalyDetection_hd_cases sqrt cfg cdr e with h | ⟨rows, -, hpos, hle, -⟩
    · exact h
    · rw [hthr] at hle
      exact absurd hpos (not_lt.mpr hle)
  refine ⟨?_, hzero eng, ?_⟩
  · intro hne
    rcases SipAnomalyDetection_hd_cases sqrt cfg cdr eng with h | ⟨rows, hf, hpos, hle, hupd⟩
    · exact absurd h hne
    · refine ⟨rows, hf, hpos, hle, ?_⟩
      by_contra hg
      have hgf : updateGate cfg eng.hd_detection (hdTesting sqrt cfg eng.hd_detection rows) =
          false := by
        simpa using hg
      rw [(SipUpdateHDThreshold_scalars cfg _ _).2 hgf] at hupd
      exact hne hupd
  · intro exec_ok m pass w hthr
    exact mainDetectionPasses_invariant sqrt cfg cdr exec_ok
      (fun x : World K => x.eng.hd_detection = w.eng.hd_detection)
      (fun b x hx => by
        have hx' : x.eng.hd_detection = w.eng.hd_detection := hx
        show (mainDetectionTick sqrt cfg cdr b x).2.eng.hd_detection = w.eng.hd_detection
        rw [mainDetectionTick_eng, hzero x.eng (by rw [hx']; exact hthr)]
        exact hx')
      m pass w rfl

/-- Witness of C29: the baseline with threshold 0 and all call types active, at
`2024-01-15 10:00:00`: the window of five INTERNATIONAL calls, whose distance is 1, leaves
it unchanged, in one detection call and after three detection passes. -/
theorem C29_zero_threshold_freezes_baseline_witness :
    (SipAnomalyDetection Real.sqrt (defaultConf ℝ ts_2024_01_16_00h)
      (constSource fiveInternational)
      (engineAt (configuredBaseline ℝ allTypes 0 0 0) ts_2024_01_15_10h)).eng.hd_detection =
        configuredBaseline ℝ allTypes 0 0 0 ∧
    (mainDetectionPasses Real.sqrt (defaultConf ℝ ts_2024_01_16_00h)
      (constSource fiveInternational) (fun _ => true) 3 0
      (worldAt (configuredBaseline ℝ allTypes 0 0 0) ts_2024_01_15_10h)).eng.hd_detection =
        configuredBaseline ℝ allTypes 0 0 0 :=
  ⟨(C29_zero_threshold_freezes_baseline Real.sqrt (defaultConf ℝ ts_2024_01_16_00h)
      (constSource fiveInternational)
      (engineAt (configuredBaseline ℝ allTypes 0 0 0) ts_2024_01_15_10h)).2.1 rfl,
    (C29_zero_threshold_freezes_baseline Real.sqrt (defaultConf ℝ ts_2024_01_16_00h)
      (constSource fiveInternational)
      (engineAt (configuredBaseline ℝ allTypes 0 0 0) ts_2024_01_15_10h)).2.2
      (fun _ => true) 3 0 (worldAt (configuredBaseline ℝ allTypes 0 0 0) ts_2024_01_15_10h)
      rfl⟩

/-! ## The call that reports `SIP_DONE` (C30) -/

/-- **C30.** In offline mode, for every state whose cursor is later than `complete_time`
(both as instants, the one of the cursor being what `mktime` returns for `current_time`)
and whose fetch succeeds, `SipAnomalyDetection` still hands back the rows of that window,
the baseline it leaves is the one the decision chose on the distance of that window (the
one `SipUpdateHDThreshold` returns when `0 < O.dist ≤ B.threshold`), and it returns
`SIP_DONE` whatever `ret_value` was; the cursor is left where it was after the snap, its
text untouched and its struct at the same instant (with the same fields whenever its
`tm_isdst` is the flag in force at that instant), and `main` leaves the loop without an
alert notification and without a checkpoint. -/
theorem C30_done_call_still_judges {K : Type} [LinearOrderedField K] (sqrt : K → K)
    (cfg : Conf K) (cdr : CdrSource) (exec_ok : Bool) (w : World K) (rows : List CdrRow)
    (hoff : cfg.run_mode &&& SIP_RUN_MODE_OFFLINE ≠ 0)
    (hfetch : cdr (queriedWindow w.eng) cfg.interval = some rows)
    (hgt : instant cfg (snapDetectStart w.eng) > cfg.complete_time) :
    (SipAnomalyDetection sqrt cfg cdr w.eng).ret = SIP_DONE ∧
    (SipAnomalyDetection sqrt cfg cdr w.eng).result = some rows ∧
    (SipAnomalyDetection sqrt cfg cdr w.eng).eng.hd_detection =
      (if 0 < (hdTesting sqrt cfg w.eng.hd_detection rows).distance_value ∧
          (hdTesting sqrt cfg w.eng.hd_detection rows).distance_value ≤
            w.eng.hd_detection.threshold then
        SipUpdateHDThreshold cfg w.eng.hd_detection (hdTesting sqrt cfg w.eng.hd_detection rows)
      else w.eng.hd_detection) ∧
    instant cfg (SipAnomalyDetection sqrt cfg cdr w.eng).eng =
      instant cfg (snapDetectStart w.eng) ∧
    (cfg.tz.isdst (instant cfg (snapDetectStart w.eng)) = (snapDetectStart w.eng).tm_isdst →
      (SipAnomalyDetection sqrt cfg cdr w.eng).eng.current_time =
        (snapDetectStart w.eng).current_time) ∧
    (SipAnomalyDetection sqrt cfg cdr w.eng).eng.last_transaction_ts =
      (snapDetectStart w.eng).last_transaction_ts ∧
    (mainDetectionTick sqrt cfg cdr exec_ok w).1 = Ctl.done ∧
    (mainDetectionTick sqrt cfg cdr exec_ok w).2.alerts = w.alerts ∧
    (mainDetectionTick sqrt cfg cdr exec_ok w).2.thresholds = w.thresholds := by
  obtain ⟨hiff, hsame, -⟩ := SipUpdateTimeStamp_done_iff cfg (snapDetectStart w.eng) cfg.interval
  have hdone := hiff.mpr ⟨hoff, hgt⟩
  obtain ⟨hret, hhd⟩ := SipAnomalyDetection_of_fetch sqrt cfg cdr w.eng rows hfetch
  obtain ⟨hct, hts, -, -, hres⟩ := SipAnomalyDetection_clock sqrt cfg cdr w.eng rows hfetch
  obtain ⟨-, hin⟩ := SipAnomalyDetection_instant sqrt cfg cdr w.eng rows hfetch
  obtain ⟨hctl, -, -, hal, hth⟩ :=
    mainDetectionTick_done sqrt cfg cdr exec_ok w rows hoff hfetch hgt
  rw [(SipUpdateTimeStamp_instant cfg _ cfg.interval).2 hdone] at hin
  rw [hsame hdone] at hct hts
  refine ⟨by rw [hret, if_pos hdone], hres, ?_, hin, ?_, hts, hctl, hal, hth⟩
  · rw [hhd, anomalyDecision_snd]
  · intro hs
    rw [hct]
    have h0 := localtime_of_settled cfg (snapDetectStart w.eng) 0 (by rw [add_zero]; exact hs)
    rw [add_zero, add_zero] at h0
    show (localtime cfg.tz (instant cfg (snapDetectStart w.eng))).1 =
      (snapDetectStart w.eng).current_time
    rw [h0]

/-- Witness of C30: time zone UTC, offline, `complete_time = 2024-01-16 00:00:00`, cursor at
`00:10:00`.
(1) The window of one MOBILE call of 4000 s against the baseline with threshold 0.029
satisfies the alert predicate, yet the call returns `SIP_DONE` and `main` makes no alert
notification.  (2) The window of five INTERNATIONAL calls (distance 1) against the
baseline with `dist_ewma = 0` and threshold 1.2 moves `dist_ewma` to `1/8` in the call
that returns `SIP_DONE`, and no checkpoint is written. -/
theorem C30_done_call_still_judges_witness :
    ((anomalyDecision (defaultConf ℝ ts_2024_01_16_00h)
        (configuredBaseline ℝ threeTypes (2 / 100) (1 / 100) (29 / 1000))
        (hdTesting Real.sqrt (defaultConf ℝ ts_2024_01_16_00h)
          (configuredBaseline ℝ threeTypes (2 / 100) (1 / 100) (29 / 1000))
          [⟨"MOBILE", 4000⟩])
        (tm_hour (ts_2024_01_16_00h + 600))).1 = TRUE ∧
      (SipAnomalyDetection Real.sqrt (defaultConf ℝ ts_2024_01_16_00h)
        (constSource [⟨"MOBILE", 4000⟩])
        (worldAt (configuredBaseline ℝ threeTypes (2 / 100) (1 / 100) (29 / 1000))
          (ts_2024_01_16_00h + 600)).eng).ret = SIP_DONE ∧
      (mainDetectionTick Real.sqrt (defaultConf ℝ ts_2024_01_16_00h)
        (constSource [⟨"MOBILE", 4000⟩]) true
        (worldAt (configuredBaseline ℝ threeTypes (2 / 100) (1 / 100) (29 / 1000))
          (ts_2024_01_16_00h + 600))).2.alerts = []) ∧
    ((SipAnomalyDetection Real.sqrt (defaultConf ℝ ts_2024_01_16_00h)
        (constSource fiveInternational)
        (worldAt (configuredBaseline ℝ threeTypes 0 0 (12 / 10))
          (ts_2024_01_16_00h + 600)).eng).ret = SIP_DONE ∧
      (SipAnomalyDetection Real.sqrt (defaultConf ℝ ts_2024_01_16_00h)
        (constSource fiveInternational)
        (worldAt (configuredBaseline ℝ threeTypes 0 0 (12 / 10))
          (ts_2024_01_16_00h + 600)).eng).eng.hd_detection.distance_value = 1 / 8 ∧
      (mainDetectionTick Real.sqrt (defaultConf ℝ ts_2024_01_16_00h)
        (constSource fiveInternational) true
        (worldAt (configuredBaseline ℝ threeTypes 0 0 (12 / 10))
          (ts_2024_01_16_00h + 600))).2.thresholds = []) := by
  obtain ⟨a1, -, -, -, -, -, -, a7, -⟩ := C30_done_call_still_judges Real.sqrt
    (defaultConf ℝ ts_2024_01_16_00h) (constSource [⟨"MOBILE", 4000⟩]) true
    (worldAt (configuredBaseline ℝ threeTypes (2 / 100) (1 / 100) (29 / 1000))
      (ts_2024_01_16_00h + 600)) [⟨"MOBILE", 4000⟩] (by decide) rfl (by decide)
  obtain ⟨b1, -, b3, -, -, -, -, -, b8⟩ := C30_done_call_still_judges Real.sqrt
    (defaultConf ℝ ts_2024_01_16_00h) (constSource fiveInternational) true
    (worldAt (configuredBaseline ℝ threeTypes 0 0 (12 / 10)) (ts_2024_01_16_00h + 600))
    fiveInternational (by decide) rfl (by decide)
  have hd5 := (fiveInternational_eval 0 0 (12 / 10)).1
  refine ⟨⟨?_, a1, a7⟩, b1, ?_, b8⟩
  · rw [anomalyDecision_alert_iff]
    refine ⟨?_, Or.inr ⟨by decide, Or.inl ?_⟩⟩
    · rw [mobile4000_distance]
      norm_num [configuredBaseline]
    · simp only [offHoursCond, Bool.or_eq_true, decide_eq_true_eq]
      refine Or.inl (Or.inl ?_)
      rw [mobile4000_dur]
      decide
  · rw [b3, if_pos]
    · rw [SipUpdateHDThreshold_distance _ _ _
        (by simp [updateGate, worldAt, engineAt, configuredBaseline])]
      erw [hd5]
      norm_num [worldAt, engineAt, configuredBaseline, g]
    · erw [hd5]
      norm_num [worldAt, engineAt, configuredBaseline]

/-! ## The distance over the active categories (C6) -/

/-- A sum over a list without repetition, of values that vanish at every element that
passes the test but does not belong to the leading run of elements passing it, is the sum
over that leading run. -/
theorem sum_eq_sum_takeWhile {K : Type} [AddCommMonoid K] (a : Fin 6 → Bool)
    (f : Fin 6 → K) :
    ∀ l : List (Fin 6), l.Nodup →
      (∀ c ∈ l, a c = true → c ∉ l.takeWhile a → f c = 0) →
      (l.map fun c => if a c then f c else 0).sum = ((l.takeWhile a).map f).sum := by
  intro l
  induction l with
  | nil => intro _ _; rfl
  | cons x rest ih =>
      intro hnd hz
      have hx : x ∉ rest := (List.nodup_cons.mp hnd).1
      by_cases hax : a x = true
      · rw [List.takeWhile_cons_of_pos hax, List.map_cons, List.map_cons, List.sum_cons,
          List.sum_cons, if_pos hax]
        congr 1
        refine ih (List.nodup_cons.mp hnd).2 ?_
        intro c hc hac hnot
        refine hz c (List.mem_cons_of_mem x hc) hac ?_
        rw [List.takeWhile_cons_of_pos hax]
        intro hmem
        rcases List.mem_cons.mp hmem with h | h
        · exact hx (h ▸ hc)
        · exact hnot h
      · rw [List.takeWhile_cons_of_neg hax, List.map_nil, List.sum_nil, List.map_cons,
          List.sum_cons, if_neg hax, zero_add]
        refine List.sum_eq_zero ?_
        intro v hv
        obtain ⟨c, hc, rfl⟩ := List.mem_map.mp hv
        by_cases hac : a c = true
        · rw [if_pos hac]
          refine hz c (List.mem_cons_of_mem x hc) hac ?_
          rw [List.takeWhile_cons_of_neg hax]
          exact List.not_mem_nil c
        · rw [if_neg hac]

/-- The observation of a window, aggregated on a cleared `Hd` and given its probabilities
by `SipCalcHDProbabilities` under the flags of `gl`, has zero probabilities at every call
type that does not come before the first inactive one of `gl`, and the distance 0. -/
theorem SipCalcHDProbabilities_outside {K : Type} [Field K] (gl : Hd K) (cfg : Conf K)
    (rows : List CdrRow) :
    (∀ c, c ∉ callIndices.takeWhile (fun i => isActive (gl.call i)) →
      ((SipCalcHDProbabilities gl cfg (SipGetCallData (CLEAR_HD Hd.uninit) rows)).call
        c).p_freq = 0 ∧
      ((SipCalcHDProbabilities gl cfg (SipGetCallData (CLEAR_HD Hd.uninit) rows)).call
        c).p_dur = 0) ∧
    (SipCalcHDProbabilities gl cfg
      (SipGetCallData (CLEAR_HD Hd.uninit) rows)).distance_value = 0 := by
  obtain ⟨hp, hd⟩ := SipGetCallData_prob (CLEAR_HD (Hd.uninit (K := K))) rows
  refine ⟨fun c hc => ?_, ?_⟩
  · cases hmet : probFloorsMet cfg (SipGetCallData (CLEAR_HD (Hd.uninit (K := K))) rows) with
    | true =>
        obtain ⟨h1, h2⟩ := SipCalcHDProbabilities_prob gl cfg _ hmet c
        rw [h1, h2, if_neg hc, if_neg hc]
        exact ⟨(hp c).1, (hp c).2⟩
    | false =>
        rw [SipCalcHDProbabilities_of_not_met gl cfg _ hmet]
        exact ⟨(hp c).1, (hp c).2⟩
  · rw [(SipCalcHDProbabilities_scalars gl cfg _).1, hd]
    rfl

/-- **C6.** For every baseline `B` and every observation `O` as it reaches
`SipCalcHellingerDistance` in this program, that is freshly cleared (`O.dist = 0`) and with
probabilities that are zero at every call type which is active in `B` but comes after an
inactive one, the function sets `O.dist` to the sum, over every active category `c`, of
`t(B.pf_c, O.pf_c) + t(B.pd_c, O.pd_c)`, where `t(p, q) = (√p − √q)²` when `q ≠ 0` and `0`
when `q = 0`, with no factor `1/2`.  The observation of every window has that form: its
probabilities are written by `SipCalcHDProbabilities` under the flags of the same baseline,
whose loop leaves them zero from the first inactive call type on; and in the seed the first
argument is the cleared `hd_train_init`, in which no call type is active. -/
theorem C6_distance_is_sum_over_active {K : Type} [LinearOrderedField K] (sqrt : K → K)
    (B O : Hd K) (hclear : O.distance_value = 0)
    (hobs : ∀ c, isActive (B.call c) = true →
      c ∉ callIndices.takeWhile (fun i => isActive (B.call i)) →
      (O.call c).p_freq = 0 ∧ (O.call c).p_dur = 0) :
    (SipCalcHellingerDistance sqrt B O).distance_value = specDistance sqrt B O ∧
    (∀ (cfg : Conf K) (rows : List CdrRow),
      (SipCalcHDProbabilities B cfg
        (SipGetCallData (CLEAR_HD Hd.uninit) rows)).distance_value = 0 ∧
      ∀ c, isActive (B.call c) = true →
        c ∉ callIndices.takeWhile (fun i => isActive (B.call i)) →
        ((SipCalcHDProbabilities B cfg (SipGetCallData (CLEAR_HD Hd.uninit) rows)).call
          c).p_freq = 0 ∧
        ((SipCalcHDProbabilities B cfg (SipGetCallData (CLEAR_HD Hd.uninit) rows)).call
          c).p_dur = 0) := by
  constructor
  · rw [SipCalcHellingerDistance_distance, hclear, zero_add]
    unfold specDistance
    refine (sum_eq_sum_takeWhile (fun c => isActive (B.call c))
      (fun c => specTerm sqrt (B.call c).p_freq (O.call c).p_freq +
        specTerm sqrt (B.call c).p_dur (O.call c).p_dur) callIndices (by decide) ?_).symm
    intro c _ hac hnot
    obtain ⟨h1, h2⟩ := hobs c hac hnot
    show specTerm sqrt (B.call c).p_freq (O.call c).p_freq +
      specTerm sqrt (B.call c).p_dur (O.call c).p_dur = 0
    rw [h1, h2]
    simp [specTerm]
  · intro cfg rows
    obtain ⟨hp, hd⟩ := SipCalcHDProbabilities_outside B cfg rows
    exact ⟨hd, fun c _ hnot => hp c hnot⟩

/-- Witness of C6.  (1) MOBILE the only active call type, the window of ten MOBILE calls:
the observation keeps zero probabilities, and the distance the function sets, 0, is the sum
over the active categories.  (2) INTERNATIONAL, MOBILE and PREMIUM active, the window of
five INTERNATIONAL calls against a baseline with zero probabilities: the sum over the
active categories is the distance the function sets, which is 1. -/
theorem C6_distance_is_sum_over_active_witness :
    (SipCalcHellingerDistance Real.sqrt (configuredBaseline ℝ mobileOnly 0 0 0)
      (SipCalcHDProbabilities (configuredBaseline ℝ mobileOnly 0 0 0)
        (defaultConf ℝ ts_2024_01_16_00h)
        (SipGetCallData (CLEAR_HD Hd.uninit) tenMobile))).distance_value =
      specDistance Real.sqrt (configuredBaseline ℝ mobileOnly 0 0 0)
        (SipCalcHDProbabilities (configuredBaseline ℝ mobileOnly 0 0 0)
          (defaultConf ℝ ts_2024_01_16_00h)
          (SipGetCallData (CLEAR_HD Hd.uninit) tenMobile)) ∧
    specDistance Real.sqrt (configuredBaseline ℝ threeTypes 0 0 0)
      (SipCalcHDProbabilities (configuredBaseline ℝ threeTypes 0 0 0)
        (defaultConf ℝ ts_2024_01_16_00h)
        (SipGetCallData (CLEAR_HD Hd.uninit) fiveInternational)) = 1 := by
  constructor
  · exact (C6_distance_is_sum_over_active Real.sqrt (configuredBaseline ℝ mobileOnly 0 0 0)
      _ (SipCalcHDProbabilities_outside _ _ _).2
      (fun c _ hnot => (SipCalcHDProbabilities_outside _ _ _).1 c hnot)).1
  · rw [← (C6_distance_is_sum_over_active Real.sqrt (configuredBaseline ℝ threeTypes 0 0 0)
      _ (SipCalcHDProbabilities_outside _ _ _).2
      (fun c _ hnot => (SipCalcHDProbabilities_outside _ _ _).1 c hnot)).1]
    exact (fiveInternational_eval 0 0 0).1

end SipADE
